import Mathlib

/-!
# Portal placement, collision and teleport core of `main.cpp`

A shallow embedding of the geometric core of `src/src/main.cpp`.

Conventions of the embedding.

* `float`/`double` values are idealised as elements of a linearly ordered
  field `α` (rounding, infinities and NaN are not modelled).  Every definition
  is generic in `α`, so it evaluates on `ℚ` and is reasoned about on `ℝ`.
* The C library functions `cos` and `atan2` and the constant `M_PI` are
  parameters of the definitions that use them; on `ℝ` they are instantiated
  with `Real.cos`, the argument of `x + y i`, and `Real.pi`.
* `abs(cos(..))` is the floating-point absolute value.
* Reference parameters (`glm::vec4 &Hit`) become an input value and a
  returned value.
-/

namespace Portal

/-- The type `glm::vec4`: four components `x y z w`. -/
structure Vec4 (α : Type) where
  x : α
  y : α
  z : α
  w : α
deriving DecidableEq, Repr

namespace Vec4

variable {α : Type} [LinearOrderedField α]

/-- Componentwise `a + b` of `glm::vec4`. -/
def add (a b : Vec4 α) : Vec4 α := ⟨a.x + b.x, a.y + b.y, a.z + b.z, a.w + b.w⟩

/-- Componentwise `a - b` of `glm::vec4`. -/
def sub (a b : Vec4 α) : Vec4 α := ⟨a.x - b.x, a.y - b.y, a.z - b.z, a.w - b.w⟩

/-- Scalar multiple `v * s` (or `s * v`) of `glm::vec4`. -/
def smul (s : α) (v : Vec4 α) : Vec4 α := ⟨v.x * s, v.y * s, v.z * s, v.w * s⟩

end Vec4

/-- The `struct bbox` of the source: two corners and an angle. -/
structure bbox (α : Type) where
  bbox_min : Vec4 α
  bbox_max : Vec4 α
  angle : α
deriving DecidableEq, Repr

section Geometry

variable {α : Type} [LinearOrderedField α]

/-- `bool detectColision(position, hitbox_min, hitbox_max)`, lines 1227-1238. -/
def detectColision (position hitbox_min hitbox_max : Vec4 α) : Bool :=
  if position.x < hitbox_min.x ∨ position.x > hitbox_max.x then false
  else if position.y < hitbox_min.y ∨ position.y > hitbox_max.y then false
  else if position.z < hitbox_min.z ∨ position.z > hitbox_max.z then false
  else true

/-- `int GetIntersection(fDst1, fDst2, P1, P2, Hit)`, lines 1185-1190: the
returned pair is the result and the content of `Hit` afterwards. -/
def GetIntersection (fDst1 fDst2 : α) (P1 P2 Hit : Vec4 α) : Bool × Vec4 α :=
  if fDst1 * fDst2 ≥ 0 then (false, Hit)
  else if fDst1 = fDst2 then (false, Hit)
  else (true, Vec4.add P1 (Vec4.smul (-fDst1 / (fDst2 - fDst1)) (Vec4.sub P2 P1)))

/-- `int InBox(Hit, B1, B2, Axis)`, lines 1192-1197. -/
def InBox (Hit B1 B2 : Vec4 α) (Axis : Int) : Bool :=
  if Axis = 1 ∧ Hit.z > B1.z ∧ Hit.z < B2.z ∧ Hit.y > B1.y ∧ Hit.y < B2.y then true
  else if Axis = 2 ∧ Hit.z > B1.z ∧ Hit.z < B2.z ∧ Hit.x > B1.x ∧ Hit.x < B2.x then true
  else if Axis = 3 ∧ Hit.x > B1.x ∧ Hit.x < B2.x ∧ Hit.y > B1.y ∧ Hit.y < B2.y then true
  else false

/-- One disjunct `GetIntersection(..., Hit) && InBox(Hit, B1, B2, Axis)` of the
chain in `CheckLineBox`: `InBox` is evaluated only when `GetIntersection`
succeeded, and `Hit` keeps what `GetIntersection` wrote. -/
def crossing (fDst1 fDst2 : α) (L1 L2 B1 B2 : Vec4 α) (Axis : Int) (Hit : Vec4 α) :
    Bool × Vec4 α :=
  let r := GetIntersection fDst1 fDst2 L1 L2 Hit
  if r.1 then (InBox r.2 B1 B2 Axis, r.2) else (false, r.2)

/-- `int CheckLineBox(B1, B2, L1, vector_view, Hit)`, lines 1201-1225: the
returned pair is the result and the content of `Hit` afterwards.  The `||`
chain is short-circuited from left to right. -/
def CheckLineBox (B1 B2 L1 vector_view Hit : Vec4 α) : Bool × Vec4 α :=
  let L2 := Vec4.add (Vec4.smul 500 vector_view) L1
  if L2.x < B1.x ∧ L1.x < B1.x then (false, Hit)
  else if L2.x > B2.x ∧ L1.x > B2.x then (false, Hit)
  else if L2.y < B1.y ∧ L1.y < B1.y then (false, Hit)
  else if L2.y > B2.y ∧ L1.y > B2.y then (false, Hit)
  else if L2.z < B1.z ∧ L1.z < B1.z then (false, Hit)
  else if L2.z > B2.z ∧ L1.z > B2.z then (false, Hit)
  else if L1.x > B1.x ∧ L1.x < B2.x ∧ L1.y > B1.y ∧ L1.y < B2.y ∧
      L1.z > B1.z ∧ L1.z < B2.z then (true, L1)
  else
    let c1 := crossing (L1.x - B1.x) (L2.x - B1.x) L1 L2 B1 B2 1 Hit
    if c1.1 then (true, c1.2) else
    let c2 := crossing (L1.y - B1.y) (L2.y - B1.y) L1 L2 B1 B2 2 c1.2
    if c2.1 then (true, c2.2) else
    let c3 := crossing (L1.z - B1.z) (L2.z - B1.z) L1 L2 B1 B2 3 c2.2
    if c3.1 then (true, c3.2) else
    let c4 := crossing (L1.x - B2.x) (L2.x - B2.x) L1 L2 B1 B2 1 c3.2
    if c4.1 then (true, c4.2) else
    let c5 := crossing (L1.y - B2.y) (L2.y - B2.y) L1 L2 B1 B2 2 c4.2
    if c5.1 then (true, c5.2) else
    let c6 := crossing (L1.z - B2.z) (L2.z - B2.z) L1 L2 B1 B2 3 c5.2
    if c6.1 then (true, c6.2) else (false, c6.2)

/-- `double boxAngle(B1, B2)`, lines 1249-1252. -/
def boxAngle (atan2 : α → α → α) (B1 B2 : Vec4 α) : α :=
  atan2 (B2.y - B1.y) (B2.x - B1.x)

end Geometry

section Scene

variable {α : Type} [LinearOrderedField α]

/-- The type `glm::vec3`. -/
structure Vec3 (α : Type) where
  x : α
  y : α
  z : α
deriving DecidableEq, Repr

/-- Global `float width = 50.0f`. -/
def width : α := 50

/-- Global `float height = 5.0f`. -/
def height : α := 5

/-- Global `float spaceDistance = 10.0f`. -/
def spaceDistance : α := 10

/-- Global `float cubeWidth = 5.0f`. -/
def cubeWidth : α := 5

/-- The global variables of `main.cpp` that the placement, anchoring, collision
and teleport code reads and writes (lines 202-279). -/
structure Globals (α : Type) where
  Portal1Created : Bool
  Portal1OnCube : Bool
  Portal1Bbox : bbox α
  Portal2Created : Bool
  Portal2OnCube : Bool
  Portal2Bbox : bbox α
  lastPortal1Time : α
  lastPortal2Time : α
  cubePosition : Vec3 α
  blockMove : Bool
  g_CameraTheta : α
  camera_position_c : Vec4 α
deriving DecidableEq, Repr

/-- The local `bbox cubeIn` of the frame loop, lines 588-591. -/
def cubeIn (cubePosition : Vec3 α) : bbox α :=
  { bbox_min := ⟨cubePosition.x - cubeWidth / 2, cubePosition.y - height / 2, cubePosition.z + 1, 0⟩
    bbox_max := ⟨cubePosition.x + cubeWidth / 2, cubePosition.y + height / 2, cubePosition.z - 1, 0⟩
    angle := 0 }

/-- The locals `deslX`, `deslZ` and `angle` after lines 601-626 (the same text
at 644-669, 689-716 and 734-759), for a surface with angle `surfaceAngle` and
lower corner `surfaceMin`. -/
def placementOffsets (cos : α → α) (M_PI : α) (surfaceAngle : α) (surfaceMin : Vec4 α) :
    α × α × α :=
  let angle := if surfaceAngle < 0.1 then 0 else surfaceAngle
  if cos angle > 0.01 then
    if surfaceMin.z > 0 then (0, 0.01 * -1, angle) else (0, 0.01, angle + M_PI)
  else
    if surfaceMin.x > 0 then (0.01 * -1, 0, angle) else (0.01, 0, angle + M_PI)

/-- The value assigned to `Portal1Bbox` (or `Portal2Bbox`) at lines 630-632
(673-675, 720-722, 763-765) from the hit `point`. -/
def decalBox (cos : α → α) (M_PI : α) (surfaceAngle : α) (surfaceMin point : Vec4 α) : bbox α :=
  let d := placementOffsets cos M_PI surfaceAngle surfaceMin
  { bbox_min := ⟨point.x + d.1, height / 2, point.z + d.2.1, 0⟩
    bbox_max := ⟨point.x - d.1, height / 2, point.z - d.2.1, 0⟩
    angle := d.2.2 }

/-- Lines 594-634: the Portal-1 trigger tested against the prop box `cubeIn`.
`point` is the frame-local `glm::vec4 point`; its content afterwards is
returned with the globals. -/
def placePortal1OnCube (cos : α → α) (M_PI time : α) (g_LeftMouseButtonPressed : Bool)
    (camera_view_vector : Vec4 α) (g : Globals α) (point : Vec4 α) : Globals α × Vec4 α :=
  let c := cubeIn g.cubePosition
  if time - g.lastPortal1Time > 0.5 ∧ g_LeftMouseButtonPressed = true then
    let r := CheckLineBox c.bbox_min c.bbox_max g.camera_position_c camera_view_vector point
    if r.1 then
      ({ g with
          lastPortal1Time := time
          Portal1Created := true
          Portal1OnCube := true
          Portal1Bbox := decalBox cos M_PI c.angle c.bbox_min r.2 }, r.2)
    else (g, r.2)
  else (g, point)

/-- Lines 636-677: the Portal-2 trigger tested against the prop box `cubeIn`. -/
def placePortal2OnCube (cos : α → α) (M_PI time : α) (g_RightMouseButtonPressed : Bool)
    (camera_view_vector : Vec4 α) (g : Globals α) (point : Vec4 α) : Globals α × Vec4 α :=
  let c := cubeIn g.cubePosition
  if time - g.lastPortal2Time > 0.5 ∧ g_RightMouseButtonPressed = true then
    let r := CheckLineBox c.bbox_min c.bbox_max g.camera_position_c camera_view_vector point
    if r.1 then
      ({ g with
          lastPortal2Time := time
          Portal2Created := true
          Portal2OnCube := true
          Portal2Bbox := decalBox cos M_PI c.angle c.bbox_min r.2 }, r.2)
    else (g, r.2)
  else (g, point)

/-- Lines 682-724: the Portal-1 trigger tested against the wall `portalList[i]`;
the angle is the stored `portalList[i].angle`. -/
def placePortal1OnWall (cos : α → α) (M_PI time : α) (g_LeftMouseButtonPressed : Bool)
    (camera_view_vector : Vec4 α) (wall : bbox α) (g : Globals α) (point : Vec4 α) :
    Globals α × Vec4 α :=
  if time - g.lastPortal1Time > 0.5 ∧ g_LeftMouseButtonPressed = true then
    let r := CheckLineBox wall.bbox_min wall.bbox_max g.camera_position_c camera_view_vector point
    if r.1 then
      ({ g with
          lastPortal1Time := time
          Portal1Created := true
          Portal1OnCube := false
          Portal1Bbox := decalBox cos M_PI wall.angle wall.bbox_min r.2 }, r.2)
    else (g, r.2)
  else (g, point)

/-- Lines 726-767: the Portal-2 trigger tested against the wall `portalList[i]`;
the angle is recomputed with `boxAngle`. -/
def placePortal2OnWall (cos : α → α) (atan2 : α → α → α) (M_PI time : α)
    (g_RightMouseButtonPressed : Bool) (camera_view_vector : Vec4 α) (wall : bbox α)
    (g : Globals α) (point : Vec4 α) : Globals α × Vec4 α :=
  if time - g.lastPortal2Time > 0.5 ∧ g_RightMouseButtonPressed = true then
    let r := CheckLineBox wall.bbox_min wall.bbox_max g.camera_position_c camera_view_vector point
    if r.1 then
      ({ g with
          lastPortal2Time := time
          Portal2Created := true
          Portal2OnCube := false
          Portal2Bbox := decalBox cos M_PI (boxAngle atan2 wall.bbox_min wall.bbox_max)
            wall.bbox_min r.2 }, r.2)
    else (g, r.2)
  else (g, point)

/-- One iteration of the loop at lines 679-768.  The loop body declares its own
`glm::vec4 point`, whose initial content is the parameter `point`. -/
def wallIteration (cos : α → α) (atan2 : α → α → α) (M_PI time : α)
    (g_LeftMouseButtonPressed g_RightMouseButtonPressed : Bool) (camera_view_vector : Vec4 α)
    (point : Vec4 α) (g : Globals α) (wall : bbox α) : Globals α :=
  let r1 := placePortal1OnWall cos M_PI time g_LeftMouseButtonPressed camera_view_vector wall g point
  let r2 := placePortal2OnWall cos atan2 M_PI time g_RightMouseButtonPressed camera_view_vector
    wall r1.1 r1.2
  r2.1

/-- The placement step of one frame, lines 588-768: the prop box for Portal 1,
the prop box for Portal 2, then the loop over `portalList`.  `point` stands for
the content of the uninitialised local `glm::vec4 point`. -/
def placementStep (cos : α → α) (atan2 : α → α → α) (M_PI time : α)
    (g_LeftMouseButtonPressed g_RightMouseButtonPressed : Bool) (camera_view_vector : Vec4 α)
    (portalList : List (bbox α)) (point : Vec4 α) (g : Globals α) : Globals α :=
  let r1 := placePortal1OnCube cos M_PI time g_LeftMouseButtonPressed camera_view_vector g point
  let r2 := placePortal2OnCube cos M_PI time g_RightMouseButtonPressed camera_view_vector r1.1 r1.2
  portalList.foldl
    (wallIteration cos atan2 M_PI time g_LeftMouseButtonPressed g_RightMouseButtonPressed
      camera_view_vector point) r2.1

/-- The locals `hitBoxPortal1.bbox_min`, `hitBoxPortal1.bbox_max` after lines
963-986 (`hitBoxPortal2` after 1032-1054) for the portal box `P`. -/
def hitBoxPortal (cos : α → α) (P : bbox α) : Vec4 α × Vec4 α :=
  let d : α × α := if |cos P.angle| > 0.01 then (5, 1) else (1, 5)
  ({ P.bbox_min with x := P.bbox_min.x - d.1, z := P.bbox_min.z - d.2, y := 0 },
   { P.bbox_max with x := P.bbox_max.x + d.1, z := P.bbox_max.z + d.2, y := height })

/-- The locals `deslX`, `deslZ` after lines 998-1013 (1066-1081) for the
destination portal box `Q`. -/
def exitOffset (cos : α → α) (Q : bbox α) : α × α :=
  if |cos Q.angle| > 0.01 then
    (0, if Q.bbox_min.z > 0 then 5 * -1 else 5)
  else
    (if Q.bbox_min.x > 0 then 5 * -1 else 5, 0)

/-- The local `angleCorrection` after lines 994-996 (1062-1064) for source
angle `a` and destination angle `b`. -/
def angleCorrection (cos : α → α) (M_PI a b : α) : α :=
  let c := (a - b) + M_PI * cos (a - b)
  if c = -0 then 0 else c

/-- Lines 961-1020 without the drawing calls: the Portal-1 teleport check. -/
def teleportPortal1 (cos : α → α) (M_PI : α) (g : Globals α) : Globals α :=
  if g.Portal1Created then
    let hb := hitBoxPortal cos g.Portal1Bbox
    if detectColision g.camera_position_c hb.1 hb.2 then
      if g.Portal2Created then
        let d := exitOffset cos g.Portal2Bbox
        { g with
            blockMove := false
            camera_position_c :=
              { g.camera_position_c with
                  x := g.Portal2Bbox.bbox_min.x + d.1
                  z := g.Portal2Bbox.bbox_min.z + d.2 }
            g_CameraTheta := g.g_CameraTheta +
              angleCorrection cos M_PI g.Portal1Bbox.angle g.Portal2Bbox.angle }
      else g
    else g
  else g

/-- Lines 1030-1088 without the drawing calls: the Portal-2 teleport check. -/
def teleportPortal2 (cos : α → α) (M_PI : α) (g : Globals α) : Globals α :=
  if g.Portal2Created then
    let hb := hitBoxPortal cos g.Portal2Bbox
    if detectColision g.camera_position_c hb.1 hb.2 then
      if g.Portal1Created then
        let d := exitOffset cos g.Portal1Bbox
        { g with
            blockMove := false
            camera_position_c :=
              { g.camera_position_c with
                  x := g.Portal1Bbox.bbox_min.x + d.1
                  z := g.Portal1Bbox.bbox_min.z + d.2 }
            g_CameraTheta := g.g_CameraTheta +
              angleCorrection cos M_PI g.Portal2Bbox.angle g.Portal1Bbox.angle }
      else g
    else g
  else g

/-- The local `wallHitbox` after lines 573-580 for the obstacle `b`. -/
def wallHitbox (b : bbox α) : Vec4 α × Vec4 α :=
  ({ b.bbox_min with x := b.bbox_min.x - 1, z := b.bbox_min.z - 1 },
   { b.bbox_max with x := b.bbox_max.x + 1, z := b.bbox_max.z + 1 })

/-- One iteration of the loop at lines 571-586. -/
def collisionIteration (g : Globals α) (b : bbox α) : Globals α :=
  if detectColision g.camera_position_c (wallHitbox b).1 (wallHitbox b).2 then
    { g with blockMove := true }
  else g

/-- Lines 569-586: the collision gate over `collisionList`. -/
def collisionGate (collisionList : List (bbox α)) (g : Globals α) : Globals α :=
  collisionList.foldl collisionIteration { g with blockMove := false }

/-- The local `wall2` of `main`, lines 436-439. -/
def wall2 (atan2 : α → α → α) : bbox α :=
  { bbox_min := ⟨-width, 0, spaceDistance, 0⟩
    bbox_max := ⟨-width, height, width, 0⟩
    angle := boxAngle atan2 ⟨-width, 0, spaceDistance, 0⟩ ⟨-width, height, width, 0⟩ }

/-- The local `wall3` of `main`, lines 441-444. -/
def wall3 (atan2 : α → α → α) : bbox α :=
  { bbox_min := ⟨-width, 0, width, 0⟩
    bbox_max := ⟨width, height, width, 0⟩
    angle := boxAngle atan2 ⟨-width, 0, width, 0⟩ ⟨width, height, width, 0⟩ }

/-- The local `wall4` of `main`, lines 446-449. -/
def wall4 (atan2 : α → α → α) : bbox α :=
  { bbox_min := ⟨width, 0, spaceDistance, 0⟩
    bbox_max := ⟨width, height, width, 0⟩
    angle := boxAngle atan2 ⟨width, 0, spaceDistance, 0⟩ ⟨width, height, width, 0⟩ }

/-- The local `portalList` of `main` after lines 480-485. -/
def portalList (atan2 : α → α → α) : List (bbox α) :=
  [wall2 atan2, wall3 atan2, wall4 atan2]

/-- The local `wall1` of `main`, lines 431-434. -/
def wall1 (atan2 : α → α → α) : bbox α :=
  { bbox_min := ⟨-width, 0, -width, 0⟩
    bbox_max := ⟨width, height, -width, 0⟩
    angle := boxAngle atan2 ⟨-width, 0, -width, 0⟩ ⟨width, height, -width, 0⟩ }

/-- The local `wall5` of `main`, lines 451-454. -/
def wall5 (atan2 : α → α → α) : bbox α :=
  { bbox_min := ⟨-width, 0, -width, 0⟩
    bbox_max := ⟨-width, height, -spaceDistance, 0⟩
    angle := boxAngle atan2 ⟨-width, 0, -width, 0⟩ ⟨-width, height, -spaceDistance, 0⟩ }

/-- The local `wall6` of `main`, lines 456-459. -/
def wall6 (atan2 : α → α → α) : bbox α :=
  { bbox_min := ⟨width, 0, -width, 0⟩
    bbox_max := ⟨width, height, -spaceDistance, 0⟩
    angle := boxAngle atan2 ⟨width, 0, -width, 0⟩ ⟨width, height, -spaceDistance, 0⟩ }

/-- The local `holeIn` of `main`, lines 461-464. -/
def holeIn (atan2 : α → α → α) : bbox α :=
  { bbox_min := ⟨-width - 1, 0, -spaceDistance, 0⟩
    bbox_max := ⟨width + 1, height, -spaceDistance, 0⟩
    angle := boxAngle atan2 ⟨-width - 1, 0, -spaceDistance, 0⟩ ⟨width + 1, height, -spaceDistance, 0⟩ }

/-- The local `holeOut` of `main`, lines 466-469. -/
def holeOut (atan2 : α → α → α) : bbox α :=
  { bbox_min := ⟨-width - 1, 0, spaceDistance, 0⟩
    bbox_max := ⟨width + 1, height, spaceDistance, 0⟩
    angle := boxAngle atan2 ⟨-width - 1, 0, spaceDistance, 0⟩ ⟨width + 1, height, spaceDistance, 0⟩ }

/-- The local `collisionList` of `main` after lines 471-478. -/
def collisionList (atan2 : α → α → α) : List (bbox α) :=
  [wall1 atan2, wall2 atan2, wall3 atan2, wall4 atan2, wall5 atan2, wall6 atan2,
    holeIn atan2, holeOut atan2]

/-- Global `cubePositionOrigin`, line 215. -/
def cubePositionOrigin : Vec3 α := ⟨0, height / 2, -25⟩

/-- Lines 932-934: the prop position from the curve point `bezier_point`. -/
def propFollower (bezier_point : Vec3 α) (g : Globals α) : Globals α :=
  { g with
      cubePosition :=
        ⟨(cubePositionOrigin : Vec3 α).x + bezier_point.x * width,
          (cubePositionOrigin : Vec3 α).y + bezier_point.y * height,
          (cubePositionOrigin : Vec3 α).z + bezier_point.z * width⟩ }

/-- The six assignments of lines 938-943 (948-953) applied to the portal box `P`. -/
def anchorBox (cubePosition : Vec3 α) (P : bbox α) : bbox α :=
  { P with
      bbox_min :=
        { P.bbox_min with x := cubePosition.x, y := cubePosition.y, z := cubePosition.z + 1.01 }
      bbox_max :=
        { P.bbox_max with x := cubePosition.x, y := cubePosition.y, z := cubePosition.z + 1.01 } }

/-- Lines 936-954: the per-frame anchoring update of both portals. -/
def anchoringUpdate (g : Globals α) : Globals α :=
  let g1 := if g.Portal1OnCube then
    { g with Portal1Bbox := anchorBox g.cubePosition g.Portal1Bbox } else g
  if g1.Portal2OnCube then
    { g1 with Portal2Bbox := anchorBox g1.cubePosition g1.Portal2Bbox } else g1

/-- Whether the three nested tests of lines 961, 988 and 990 all pass, that is,
whether the Portal-1 teleport fires. -/
def portal1Fires (cos : α → α) (g : Globals α) : Bool :=
  g.Portal1Created &&
    detectColision g.camera_position_c (hitBoxPortal cos g.Portal1Bbox).1
      (hitBoxPortal cos g.Portal1Bbox).2 &&
    g.Portal2Created

/-- Whether the three nested tests of lines 1030, 1056 and 1058 all pass, that
is, whether the Portal-2 teleport fires. -/
def portal2Fires (cos : α → α) (g : Globals α) : Bool :=
  g.Portal2Created &&
    detectColision g.camera_position_c (hitBoxPortal cos g.Portal2Bbox).1
      (hitBoxPortal cos g.Portal2Bbox).2 &&
    g.Portal1Created

/-- The loop body for `isLookAt == false` up to line 954: the camera is moved by
`Matrix_Camera_View` to `moved` (line 565), then come the collision gate, the
placement step, the prop follower and the anchoring update. -/
def frameBeforeTeleport (cos : α → α) (atan2 : α → α → α) (M_PI time : α)
    (g_LeftMouseButtonPressed g_RightMouseButtonPressed : Bool) (camera_view_vector : Vec4 α)
    (collisionList portalList : List (bbox α)) (point moved : Vec4 α) (bezier_point : Vec3 α)
    (g : Globals α) : Globals α :=
  anchoringUpdate (propFollower bezier_point
    (placementStep cos atan2 M_PI time g_LeftMouseButtonPressed g_RightMouseButtonPressed
      camera_view_vector portalList point
      (collisionGate collisionList { g with camera_position_c := moved })))

/-- The loop body for `isLookAt == false`, lines 563-1098 without the drawing
calls: `lastCameraPos` is the camera position at the start of the frame, and
the last statement restores it when `blockMove` is set. -/
def frameFreeCamera (cos : α → α) (atan2 : α → α → α) (M_PI time : α)
    (g_LeftMouseButtonPressed g_RightMouseButtonPressed : Bool) (camera_view_vector : Vec4 α)
    (collisionList portalList : List (bbox α)) (point moved : Vec4 α) (bezier_point : Vec3 α)
    (g : Globals α) : Globals α :=
  let lastCameraPos := g.camera_position_c
  let g7 := teleportPortal2 cos M_PI (teleportPortal1 cos M_PI
    (frameBeforeTeleport cos atan2 M_PI time g_LeftMouseButtonPressed g_RightMouseButtonPressed
      camera_view_vector collisionList portalList point moved bezier_point g))
  if g7.blockMove then { g7 with camera_position_c := lastCameraPos } else g7

/-- The four globals that belong to Portal 1: created flag, anchored flag,
decal box with its angle, cooldown timer. -/
def portal1State (g : Globals α) : Bool × Bool × bbox α × α :=
  (g.Portal1Created, g.Portal1OnCube, g.Portal1Bbox, g.lastPortal1Time)

/-- The four globals that belong to Portal 2. -/
def portal2State (g : Globals α) : Bool × Bool × bbox α × α :=
  (g.Portal2Created, g.Portal2OnCube, g.Portal2Bbox, g.lastPortal2Time)

/-- The first box of a candidate list, in list order, on which the ray test
`CheckLineBox` from `L1` along `vector_view` succeeds, with the hit point.  It is
the reference against which the placement step is compared. -/
def firstHit (L1 vector_view point : Vec4 α) : List (bbox α) → Option (bbox α × Vec4 α)
  | [] => none
  | c :: cs =>
    if (CheckLineBox c.bbox_min c.bbox_max L1 vector_view point).1 then
      some (c, (CheckLineBox c.bbox_min c.bbox_max L1 vector_view point).2)
    else firstHit L1 vector_view point cs

/-- A state of the globals used to evaluate the checks: Portal 1 placed on the
wall `z = 50` at `x = 0` with angle `a1`, Portal 2 placed on the wall `x = 50`
at `z = 30` with angle `a2`, the prop at its origin, the camera at `cam`. -/
def portalsOnWalls (a1 a2 : α) (cam : Vec4 α) : Globals α :=
  { Portal1Created := true
    Portal1OnCube := false
    Portal1Bbox := ⟨⟨0 + 0, height / 2, 50 + 0.01 * -1, 0⟩, ⟨0 - 0, height / 2, 50 - 0.01 * -1, 0⟩, a1⟩
    Portal2Created := true
    Portal2OnCube := false
    Portal2Bbox := ⟨⟨50 + 0.01 * -1, height / 2, 30 + 0, 0⟩, ⟨50 - 0.01 * -1, height / 2, 30 - 0, 0⟩, a2⟩
    lastPortal1Time := 1
    lastPortal2Time := 2
    cubePosition := ⟨0, height / 2, -25⟩
    blockMove := false
    g_CameraTheta := 0
    camera_position_c := cam }

/-- The values of the globals when the frame loop is entered: the initialisers
of lines 206-219 and 248, the zero-initialised boxes `Portal1Bbox` and
`Portal2Bbox`, and the camera position assigned at line 421 with
`r = g_CameraDistance = width/2`. -/
def initialGlobals : Globals α :=
  { Portal1Created := false
    Portal1OnCube := false
    Portal1Bbox := ⟨⟨0, 0, 0, 0⟩, ⟨0, 0, 0, 0⟩, 0⟩
    Portal2Created := false
    Portal2OnCube := false
    Portal2Bbox := ⟨⟨0, 0, 0, 0⟩, ⟨0, 0, 0, 0⟩, 0⟩
    lastPortal1Time := 0
    lastPortal2Time := 0
    cubePosition := cubePositionOrigin
    blockMove := false
    g_CameraTheta := 0
    camera_position_c := ⟨0, 0, width / 2, 1⟩ }

/-- Componentwise `a + b` of `glm::vec3`. -/
def Vec3.add (a b : Vec3 α) : Vec3 α := ⟨a.x + b.x, a.y + b.y, a.z + b.z⟩

/-- Scalar multiple `s * v` of `glm::vec3`. -/
def Vec3.smul (s : α) (v : Vec3 α) : Vec3 α := ⟨s * v.x, s * v.y, s * v.z⟩

/-- Arithmetic of the 32-bit type `int`: the result reduced to the range
`-2^31 .. 2^31 - 1` (two's complement wrap-around). -/
def wrapInt (z : Int) : Int := (z + 2147483648) % 4294967296 - 2147483648

/-- The function `factorial`, lines 1254-1260: `f` starts at 1 and is multiplied
by `i = 1, .., n` in `int` arithmetic; the loop does not run for `n <= 0`. -/
def factorial (n : Int) : Int :=
  (List.range n.toNat).foldl (fun f i => wrapInt (f * ((i : Int) + 1))) 1

/-- The function `Bernstein`, lines 1262-1265.  Its `float` arguments `k` and `n`
are whole numbers at the only call site (the loop index and `points.size()`),
so they are natural numbers here; the quotient of the factorials is the
truncating `int` division, and `pow` is the power with a whole exponent
(`pow(x, 0) = 1` for every `x`). -/
def Bernstein (k n : Nat) (t : α) : α :=
  ((Int.tdiv (factorial n) (wrapInt (factorial k * factorial ((n : Int) - (k : Int)))) : Int) : α)
    * t ^ k * (1 - t) ^ ((n : Int) - (k : Int))

/-- The function `bezierCurve`, lines 1267-1277: `position` starts at the zero
vector and the loop adds `Bernstein(i, points.size(), time) * points.at(i)` for
`i = 0, .., points.size() - 1`. -/
def bezierCurve (points : List (Vec3 α)) (time : α) : Vec3 α :=
  (List.range points.length).foldl
    (fun position i =>
      Vec3.add position (Vec3.smul (Bernstein i points.length time) (points.getD i ⟨0, 0, 0⟩)))
    ⟨0, 0, 0⟩

/-- The local `bezierCurvePoints` of `main`, lines 487-494. -/
def bezierCurvePoints : List (Vec3 α) :=
  [⟨-1.0, 0.0, 0.0⟩, ⟨-0.8, 0.5, 0.0⟩, ⟨-0.6, 0.0, 0.0⟩, ⟨-0.4, 0.5, 0.0⟩, ⟨-0.2, 0.0, 0.0⟩,
    ⟨0.0, 0.5, 0.0⟩]

/-- Lines 925-929: the curve point of the frame, evaluated at `1 - t_bezier`
when the prop runs backwards and at `t_bezier` otherwise. -/
def bezierPoint (isBackwards : Bool) (t_bezier : α) : Vec3 α :=
  if isBackwards then bezierCurve bezierCurvePoints (1.0 - t_bezier)
  else bezierCurve bezierCurvePoints t_bezier

/-- The Bezier curve of the control points `points` as the specification words
it: the sum over `i = 0, .., n - 1` of `C(n-1, i) * t^i * (1-t)^(n-1-i) * P_i`,
where `n` is the number of control points.  It is the reference with which
`bezierCurve` is compared. -/
def bezierReference (points : List (Vec3 α)) (t : α) : Vec3 α :=
  (List.range points.length).foldl
    (fun position i =>
      Vec3.add position
        (Vec3.smul (((points.length - 1).choose i : α) * t ^ i * (1 - t) ^ (points.length - 1 - i))
          (points.getD i ⟨0, 0, 0⟩)))
    ⟨0, 0, 0⟩

/-- The frame loop of line 509 over a run of free-camera frames.  Each entry of
`frames` holds what one frame reads from outside: the time, the two mouse
buttons, the view vector, the content of the local `point`, the camera position
after `Matrix_Camera_View`, and the curve point. -/
def runFrames (cos : α → α) (atan2 : α → α → α) (M_PI : α)
    (collisionList portalList : List (bbox α))
    (frames : List (α × Bool × Bool × Vec4 α × Vec4 α × Vec4 α × Vec3 α)) (g : Globals α) :
    Globals α :=
  frames.foldl
    (fun g f => frameFreeCamera cos atan2 M_PI f.1 f.2.1 f.2.2.1 f.2.2.2.1 collisionList
      portalList f.2.2.2.2.1 f.2.2.2.2.2.1 f.2.2.2.2.2.2 g)
    g

end Scene

end Portal

namespace Portal

section GeometryFacts

variable {α : Type} [LinearOrderedField α]

/-- The inclusive reading of `detectColision`. -/
theorem detectColision_eq_true_iff (p mn mx : Vec4 α) :
    detectColision p mn mx = true ↔
      mn.x ≤ p.x ∧ p.x ≤ mx.x ∧ mn.y ≤ p.y ∧ p.y ≤ mx.y ∧ mn.z ≤ p.z ∧ p.z ≤ mx.z := by
  unfold detectColision
  constructor
  · intro h
    split_ifs at h with hx hy hz
    push_neg at hx hy hz
    exact ⟨hx.1, hx.2, hy.1, hy.2, hz.1, hz.2⟩
  · rintro ⟨h1, h2, h3, h4, h5, h6⟩
    have hx : ¬ (p.x < mn.x ∨ p.x > mx.x) := by
      push_neg; exact ⟨h1, h2⟩
    have hy : ¬ (p.y < mn.y ∨ p.y > mx.y) := by
      push_neg; exact ⟨h3, h4⟩
    have hz : ¬ (p.z < mn.z ∨ p.z > mx.z) := by
      push_neg; exact ⟨h5, h6⟩
    simp only [hx, hy, hz, if_false]

/-- C1: `detectColision(p, min, max)` is true exactly when `p` lies in
`[min, max]` on every axis, bounds included; so it is true for every point
strictly inside and false for every point outside on some axis. -/
theorem detectColision_inclusive (p mn mx : Vec4 α) :
    (detectColision p mn mx = true ↔
      mn.x ≤ p.x ∧ p.x ≤ mx.x ∧ mn.y ≤ p.y ∧ p.y ≤ mx.y ∧ mn.z ≤ p.z ∧ p.z ≤ mx.z) ∧
    (mn.x < p.x ∧ p.x < mx.x ∧ mn.y < p.y ∧ p.y < mx.y ∧ mn.z < p.z ∧ p.z < mx.z →
      detectColision p mn mx = true) ∧
    (p.x < mn.x ∨ mx.x < p.x ∨ p.y < mn.y ∨ mx.y < p.y ∨ p.z < mn.z ∨ mx.z < p.z →
      detectColision p mn mx = false) := by
  refine ⟨detectColision_eq_true_iff p mn mx, ?_, ?_⟩
  · rintro ⟨h1, h2, h3, h4, h5, h6⟩
    exact (detectColision_eq_true_iff p mn mx).2 ⟨h1.le, h2.le, h3.le, h4.le, h5.le, h6.le⟩
  · intro h
    cases hd : detectColision p mn mx with
    | false => rfl
    | true =>
      obtain ⟨h1, h2, h3, h4, h5, h6⟩ := (detectColision_eq_true_iff p mn mx).1 hd
      rcases h with h | h | h | h | h | h
      · exact absurd h1 (not_le.2 h)
      · exact absurd h2 (not_le.2 h)
      · exact absurd h3 (not_le.2 h)
      · exact absurd h4 (not_le.2 h)
      · exact absurd h5 (not_le.2 h)
      · exact absurd h6 (not_le.2 h)

/-- C1 at a concrete point strictly inside the unit cube. -/
theorem detectColision_inclusive_witness :
    detectColision (⟨1 / 2, 1 / 2, 1 / 2, 1⟩ : Vec4 ℚ) ⟨0, 0, 0, 0⟩ ⟨1, 1, 1, 0⟩ = true :=
  (detectColision_inclusive (⟨1 / 2, 1 / 2, 1 / 2, 1⟩ : Vec4 ℚ) ⟨0, 0, 0, 0⟩ ⟨1, 1, 1, 0⟩).2.1
    (by norm_num)

end GeometryFacts

section TeleportFacts

variable {α : Type} [LinearOrderedField α]

/-- The teleport check of Portal 1 when it fires: every written global. -/
theorem teleportPortal1_fire (cos : α → α) (M_PI : α) (g : Globals α)
    (h1 : g.Portal1Created = true) (h2 : g.Portal2Created = true)
    (hin : detectColision g.camera_position_c (hitBoxPortal cos g.Portal1Bbox).1
      (hitBoxPortal cos g.Portal1Bbox).2 = true) :
    teleportPortal1 cos M_PI g =
      { g with
          blockMove := false
          camera_position_c :=
            { g.camera_position_c with
                x := g.Portal2Bbox.bbox_min.x + (exitOffset cos g.Portal2Bbox).1
                z := g.Portal2Bbox.bbox_min.z + (exitOffset cos g.Portal2Bbox).2 }
          g_CameraTheta := g.g_CameraTheta +
            angleCorrection cos M_PI g.Portal1Bbox.angle g.Portal2Bbox.angle } := by
  simp [teleportPortal1, h1, h2, hin]

/-- The teleport check of Portal 1 when it does not fire: nothing is written. -/
theorem teleportPortal1_idle (cos : α → α) (M_PI : α) (g : Globals α)
    (h : g.Portal1Created = false ∨ g.Portal2Created = false ∨
      detectColision g.camera_position_c (hitBoxPortal cos g.Portal1Bbox).1
        (hitBoxPortal cos g.Portal1Bbox).2 = false) :
    teleportPortal1 cos M_PI g = g := by
  rcases h with h | h | h <;> simp [teleportPortal1, h]

/-- The normalisation of negative zero does not change the value. -/
theorem angleCorrection_eq (cos : α → α) (M_PI a b : α) :
    angleCorrection cos M_PI a b = (a - b) + M_PI * cos (a - b) := by
  unfold angleCorrection
  by_cases h : (a - b) + M_PI * cos (a - b) = 0
  · simp [h]
  · simp [h]

/-- C2: with both portals created and the camera inside Portal 1's trigger
volume, the camera's X/Z become Portal 2's `bbox_min` X/Z plus (0, +5),
(0, -5), (+5, 0) or (-5, 0) according to `|cos(angle2)| > 0.01` and the sign of
`bbox_min.z` resp. `bbox_min.x`, and Y is kept; when the camera is not inside or
Portal 2 is not created, camera position and yaw are kept. -/
theorem teleportPortal1_position (cos : α → α) (M_PI : α) (g : Globals α) :
    (g.Portal1Created = true → g.Portal2Created = true →
      detectColision g.camera_position_c (hitBoxPortal cos g.Portal1Bbox).1
        (hitBoxPortal cos g.Portal1Bbox).2 = true →
      (teleportPortal1 cos M_PI g).camera_position_c.y = g.camera_position_c.y ∧
      (|cos g.Portal2Bbox.angle| > 0.01 → g.Portal2Bbox.bbox_min.z ≤ 0 →
        (teleportPortal1 cos M_PI g).camera_position_c.x = g.Portal2Bbox.bbox_min.x + 0 ∧
        (teleportPortal1 cos M_PI g).camera_position_c.z = g.Portal2Bbox.bbox_min.z + 5) ∧
      (|cos g.Portal2Bbox.angle| > 0.01 → g.Portal2Bbox.bbox_min.z > 0 →
        (teleportPortal1 cos M_PI g).camera_position_c.x = g.Portal2Bbox.bbox_min.x + 0 ∧
        (teleportPortal1 cos M_PI g).camera_position_c.z = g.Portal2Bbox.bbox_min.z + -5) ∧
      (¬ |cos g.Portal2Bbox.angle| > 0.01 → g.Portal2Bbox.bbox_min.x ≤ 0 →
        (teleportPortal1 cos M_PI g).camera_position_c.x = g.Portal2Bbox.bbox_min.x + 5 ∧
        (teleportPortal1 cos M_PI g).camera_position_c.z = g.Portal2Bbox.bbox_min.z + 0) ∧
      (¬ |cos g.Portal2Bbox.angle| > 0.01 → g.Portal2Bbox.bbox_min.x > 0 →
        (teleportPortal1 cos M_PI g).camera_position_c.x = g.Portal2Bbox.bbox_min.x + -5 ∧
        (teleportPortal1 cos M_PI g).camera_position_c.z = g.Portal2Bbox.bbox_min.z + 0)) ∧
    (detectColision g.camera_position_c (hitBoxPortal cos g.Portal1Bbox).1
        (hitBoxPortal cos g.Portal1Bbox).2 = false ∨ g.Portal2Created = false →
      (teleportPortal1 cos M_PI g).camera_position_c = g.camera_position_c ∧
      (teleportPortal1 cos M_PI g).g_CameraTheta = g.g_CameraTheta) := by
  constructor
  · intro h1 h2 hin
    rw [teleportPortal1_fire cos M_PI g h1 h2 hin]
    refine ⟨rfl, ?_, ?_, ?_, ?_⟩
    · intro hc hz
      simp [exitOffset, hc, not_lt.2 hz]
    · intro hc hz
      simp [exitOffset, hc, hz]
    · intro hc hx
      simp [exitOffset, hc, not_lt.2 hx]
    · intro hc hx
      simp [exitOffset, hc, hx]
  · intro h
    rw [teleportPortal1_idle cos M_PI g (by tauto)]
    exact ⟨rfl, rfl⟩

/-- C2 at a concrete state: Portal 1 on the wall `z = 50` (angle 0), Portal 2 on
the wall `x = 50` (angle `π/2`, so X-facing, `bbox_min.x > 0`), the camera inside
Portal 1's trigger volume: the camera lands at `bbox_min.x - 5`. -/
theorem teleportPortal1_position_witness :
    (teleportPortal1 Real.cos Real.pi
      (portalsOnWalls 0 (Real.pi / 2) ⟨1, 1, 99 / 2, 1⟩)).camera_position_c.x =
        (portalsOnWalls (0 : ℝ) (Real.pi / 2) ⟨1, 1, 99 / 2, 1⟩).Portal2Bbox.bbox_min.x + -5 ∧
    (teleportPortal1 Real.cos Real.pi
      (portalsOnWalls 0 (Real.pi / 2) ⟨1, 1, 99 / 2, 1⟩)).camera_position_c.z =
        (portalsOnWalls (0 : ℝ) (Real.pi / 2) ⟨1, 1, 99 / 2, 1⟩).Portal2Bbox.bbox_min.z + 0 :=
  ((teleportPortal1_position Real.cos Real.pi
      (portalsOnWalls 0 (Real.pi / 2) ⟨1, 1, 99 / 2, 1⟩)).1 rfl rfl
    (by
      rw [detectColision_eq_true_iff]
      simp [portalsOnWalls, hitBoxPortal, height]
      norm_num)).2.2.2.2
    (by simp [portalsOnWalls]; norm_num)
    (by simp [portalsOnWalls]; norm_num)

/-- C3: when the Portal-1 teleport fires, `g_CameraTheta` grows by exactly
`(angle1 - angle2) + π cos(angle1 - angle2)`; for `angle1 = 0` and
`angle2 = π/2` this amount is `-π/2`. -/
theorem teleportPortal1_yaw (g : Globals ℝ)
    (h1 : g.Portal1Created = true) (h2 : g.Portal2Created = true)
    (hin : detectColision g.camera_position_c (hitBoxPortal Real.cos g.Portal1Bbox).1
      (hitBoxPortal Real.cos g.Portal1Bbox).2 = true) :
    (teleportPortal1 Real.cos Real.pi g).g_CameraTheta =
      g.g_CameraTheta + ((g.Portal1Bbox.angle - g.Portal2Bbox.angle) +
        Real.pi * Real.cos (g.Portal1Bbox.angle - g.Portal2Bbox.angle)) ∧
    (g.Portal1Bbox.angle = 0 → g.Portal2Bbox.angle = Real.pi / 2 →
      (teleportPortal1 Real.cos Real.pi g).g_CameraTheta = g.g_CameraTheta + -(Real.pi / 2)) := by
  rw [teleportPortal1_fire Real.cos Real.pi g h1 h2 hin]
  refine ⟨?_, ?_⟩
  · simp [angleCorrection_eq]
  · intro ha hb
    simp only [angleCorrection_eq, ha, hb]
    have hc : Real.cos (0 - Real.pi / 2) = 0 := by
      rw [zero_sub, Real.cos_neg, Real.cos_pi_div_two]
    rw [hc]
    ring

/-- C3 at the concrete state of the spec's teleport scenario: the yaw goes from
`0` to `-π/2`. -/
theorem teleportPortal1_yaw_witness :
    (teleportPortal1 Real.cos Real.pi
      (portalsOnWalls 0 (Real.pi / 2) ⟨1, 1, 99 / 2, 1⟩)).g_CameraTheta =
        (portalsOnWalls (0 : ℝ) (Real.pi / 2) ⟨1, 1, 99 / 2, 1⟩).g_CameraTheta + -(Real.pi / 2) :=
  (teleportPortal1_yaw (portalsOnWalls 0 (Real.pi / 2) ⟨1, 1, 99 / 2, 1⟩) rfl rfl
    (by
      rw [detectColision_eq_true_iff]
      simp [portalsOnWalls, hitBoxPortal, height]
      norm_num)).2 rfl rfl

/-- C4: the trigger volume of a portal box `P` is `P` with `bbox_min.x - 5`,
`bbox_max.x + 5`, `bbox_min.z - 1`, `bbox_max.z + 1` when `|cos(angle)| > 0.01`,
and with 1 on X and 5 on Z otherwise; `bbox_min.y = 0` and `bbox_max.y` is the
room height 5.  Both teleport checks test the camera against this volume. -/
theorem hitBoxPortal_spec (cos : α → α) (M_PI : α) (P : bbox α) (g : Globals α) :
    (|cos P.angle| > 0.01 →
      (hitBoxPortal cos P).1.x = P.bbox_min.x - 5 ∧ (hitBoxPortal cos P).2.x = P.bbox_max.x + 5 ∧
      (hitBoxPortal cos P).1.z = P.bbox_min.z - 1 ∧ (hitBoxPortal cos P).2.z = P.bbox_max.z + 1) ∧
    (¬ |cos P.angle| > 0.01 →
      (hitBoxPortal cos P).1.x = P.bbox_min.x - 1 ∧ (hitBoxPortal cos P).2.x = P.bbox_max.x + 1 ∧
      (hitBoxPortal cos P).1.z = P.bbox_min.z - 5 ∧ (hitBoxPortal cos P).2.z = P.bbox_max.z + 5) ∧
    (hitBoxPortal cos P).1.y = 0 ∧ (hitBoxPortal cos P).2.y = 5 ∧
    (teleportPortal1 cos M_PI g ≠ g →
      g.Portal1Created = true ∧
      detectColision g.camera_position_c (hitBoxPortal cos g.Portal1Bbox).1
        (hitBoxPortal cos g.Portal1Bbox).2 = true) ∧
    (teleportPortal2 cos M_PI g ≠ g →
      g.Portal2Created = true ∧
      detectColision g.camera_position_c (hitBoxPortal cos g.Portal2Bbox).1
        (hitBoxPortal cos g.Portal2Bbox).2 = true) := by
  refine ⟨?_, ?_, ?_, ?_, ?_, ?_⟩
  · intro h
    simp [hitBoxPortal, h]
  · intro h
    simp [hitBoxPortal, h]
  · simp [hitBoxPortal]
  · simp [hitBoxPortal, height]
  · intro h
    by_contra hc
    apply h
    unfold teleportPortal1
    by_cases hp : g.Portal1Created = true
    · have hd : detectColision g.camera_position_c (hitBoxPortal cos g.Portal1Bbox).1
          (hitBoxPortal cos g.Portal1Bbox).2 = false := by
        cases hdc : detectColision g.camera_position_c (hitBoxPortal cos g.Portal1Bbox).1
          (hitBoxPortal cos g.Portal1Bbox).2 with
        | false => rfl
        | true => exact absurd ⟨hp, hdc⟩ hc
      simp [hp, hd]
    · simp [hp]
  · intro h
    by_contra hc
    apply h
    unfold teleportPortal2
    by_cases hp : g.Portal2Created = true
    · have hd : detectColision g.camera_position_c (hitBoxPortal cos g.Portal2Bbox).1
          (hitBoxPortal cos g.Portal2Bbox).2 = false := by
        cases hdc : detectColision g.camera_position_c (hitBoxPortal cos g.Portal2Bbox).1
          (hitBoxPortal cos g.Portal2Bbox).2 with
        | false => rfl
        | true => exact absurd ⟨hp, hdc⟩ hc
      simp [hp, hd]
    · simp [hp]

/-- C4 at the box of a portal on the wall `z = 50` with angle 0: the trigger
volume spans `x` in `[-5, 5]`. -/
theorem hitBoxPortal_spec_witness :
    (hitBoxPortal Real.cos (portalsOnWalls (0 : ℝ) 0 ⟨0, 0, 0, 1⟩).Portal1Bbox).1.x =
        (portalsOnWalls (0 : ℝ) 0 ⟨0, 0, 0, 1⟩).Portal1Bbox.bbox_min.x - 5 ∧
    (hitBoxPortal Real.cos (portalsOnWalls (0 : ℝ) 0 ⟨0, 0, 0, 1⟩).Portal1Bbox).2.x =
        (portalsOnWalls (0 : ℝ) 0 ⟨0, 0, 0, 1⟩).Portal1Bbox.bbox_max.x + 5 ∧
    (hitBoxPortal Real.cos (portalsOnWalls (0 : ℝ) 0 ⟨0, 0, 0, 1⟩).Portal1Bbox).1.z =
        (portalsOnWalls (0 : ℝ) 0 ⟨0, 0, 0, 1⟩).Portal1Bbox.bbox_min.z - 1 ∧
    (hitBoxPortal Real.cos (portalsOnWalls (0 : ℝ) 0 ⟨0, 0, 0, 1⟩).Portal1Bbox).2.z =
        (portalsOnWalls (0 : ℝ) 0 ⟨0, 0, 0, 1⟩).Portal1Bbox.bbox_max.z + 1 :=
  (hitBoxPortal_spec Real.cos Real.pi (portalsOnWalls (0 : ℝ) 0 ⟨0, 0, 0, 1⟩).Portal1Bbox
    (portalsOnWalls (0 : ℝ) 0 ⟨0, 0, 0, 1⟩)).1
    (by simp [portalsOnWalls]; norm_num)

/-- The collision loop writes nothing but `blockMove`. -/
theorem collisionIteration_foldl_camera (l : List (bbox α)) (g : Globals α) :
    (l.foldl collisionIteration g).camera_position_c = g.camera_position_c := by
  induction l generalizing g with
  | nil => rfl
  | cons b t ih =>
    rw [List.foldl_cons, ih]
    unfold collisionIteration
    split_ifs <;> rfl

/-- Once set in the collision loop, `blockMove` stays set. -/
theorem collisionIteration_foldl_blocked (l : List (bbox α)) (g : Globals α)
    (h : g.blockMove = true) : (l.foldl collisionIteration g).blockMove = true := by
  induction l generalizing g with
  | nil => exact h
  | cons b t ih =>
    rw [List.foldl_cons]
    apply ih
    unfold collisionIteration
    split_ifs
    · rfl
    · exact h

/-- An obstacle whose inflated box contains the camera sets `blockMove`. -/
theorem collisionIteration_foldl_hit (l : List (bbox α)) (g : Globals α) (b : bbox α)
    (hb : b ∈ l)
    (hin : detectColision g.camera_position_c (wallHitbox b).1 (wallHitbox b).2 = true) :
    (l.foldl collisionIteration g).blockMove = true := by
  induction l generalizing g with
  | nil => cases hb
  | cons c t ih =>
    rw [List.foldl_cons]
    rcases List.mem_cons.1 hb with rfl | hmem
    · apply collisionIteration_foldl_blocked
      simp [collisionIteration, hin]
    · apply ih _ hmem
      have hc : (collisionIteration g c).camera_position_c = g.camera_position_c := by
        unfold collisionIteration
        split_ifs <;> rfl
      rw [hc]
      exact hin

/-- C5, the claim fails: with Portal 1 on the wall `z = 50` (angle 0) and
Portal 2 created, a camera at `x = 5`, exactly the upper X bound of Portal 1's
trigger volume, passes the trigger test and is teleported. -/
theorem teleport_boundary_fires :
    (portalsOnWalls (0 : ℝ) (Real.pi / 2) ⟨5, 1, 99 / 2, 1⟩).camera_position_c.x =
      (hitBoxPortal Real.cos
        (portalsOnWalls (0 : ℝ) (Real.pi / 2) ⟨5, 1, 99 / 2, 1⟩).Portal1Bbox).2.x ∧
    detectColision (portalsOnWalls (0 : ℝ) (Real.pi / 2) ⟨5, 1, 99 / 2, 1⟩).camera_position_c
      (hitBoxPortal Real.cos
        (portalsOnWalls (0 : ℝ) (Real.pi / 2) ⟨5, 1, 99 / 2, 1⟩).Portal1Bbox).1
      (hitBoxPortal Real.cos
        (portalsOnWalls (0 : ℝ) (Real.pi / 2) ⟨5, 1, 99 / 2, 1⟩).Portal1Bbox).2 = true ∧
    (teleportPortal1 Real.cos Real.pi
      (portalsOnWalls (0 : ℝ) (Real.pi / 2) ⟨5, 1, 99 / 2, 1⟩)).camera_position_c =
        ⟨4499 / 100, 1, 30, 1⟩ := by
  have hin : detectColision
      (portalsOnWalls (0 : ℝ) (Real.pi / 2) ⟨5, 1, 99 / 2, 1⟩).camera_position_c
      (hitBoxPortal Real.cos
        (portalsOnWalls (0 : ℝ) (Real.pi / 2) ⟨5, 1, 99 / 2, 1⟩).Portal1Bbox).1
      (hitBoxPortal Real.cos
        (portalsOnWalls (0 : ℝ) (Real.pi / 2) ⟨5, 1, 99 / 2, 1⟩).Portal1Bbox).2 = true := by
    rw [detectColision_eq_true_iff]
    simp [portalsOnWalls, hitBoxPortal, height]
    norm_num
  refine ⟨?_, hin, ?_⟩
  · simp [portalsOnWalls, hitBoxPortal]
    norm_num
  · rw [teleportPortal1_fire _ _ _ rfl rfl hin]
    simp [portalsOnWalls, exitOffset]
    norm_num

/-- C5, amended: the teleport trigger test is the inclusive `detectColision`,
as in the collision gate.  A camera anywhere in the closed trigger volume of
Portal 1, its faces included, passes the test and, with both portals created,
is teleported; a camera anywhere in the closed inflated box of an obstacle,
its faces included, sets `blockMove`. -/
theorem teleport_trigger_inclusive (cos : α → α) (M_PI : α) (g : Globals α)
    (h1 : g.Portal1Created = true) (h2 : g.Portal2Created = true)
    (hx : (hitBoxPortal cos g.Portal1Bbox).1.x ≤ g.camera_position_c.x ∧
      g.camera_position_c.x ≤ (hitBoxPortal cos g.Portal1Bbox).2.x)
    (hy : (hitBoxPortal cos g.Portal1Bbox).1.y ≤ g.camera_position_c.y ∧
      g.camera_position_c.y ≤ (hitBoxPortal cos g.Portal1Bbox).2.y)
    (hz : (hitBoxPortal cos g.Portal1Bbox).1.z ≤ g.camera_position_c.z ∧
      g.camera_position_c.z ≤ (hitBoxPortal cos g.Portal1Bbox).2.z) :
    detectColision g.camera_position_c (hitBoxPortal cos g.Portal1Bbox).1
      (hitBoxPortal cos g.Portal1Bbox).2 = true ∧
    (teleportPortal1 cos M_PI g).camera_position_c.x =
      g.Portal2Bbox.bbox_min.x + (exitOffset cos g.Portal2Bbox).1 ∧
    (teleportPortal1 cos M_PI g).camera_position_c.z =
      g.Portal2Bbox.bbox_min.z + (exitOffset cos g.Portal2Bbox).2 ∧
    (teleportPortal1 cos M_PI g).blockMove = false ∧
    (∀ (collisionList : List (bbox α)) (b : bbox α), b ∈ collisionList →
      (wallHitbox b).1.x ≤ g.camera_position_c.x ∧ g.camera_position_c.x ≤ (wallHitbox b).2.x →
      (wallHitbox b).1.y ≤ g.camera_position_c.y ∧ g.camera_position_c.y ≤ (wallHitbox b).2.y →
      (wallHitbox b).1.z ≤ g.camera_position_c.z ∧ g.camera_position_c.z ≤ (wallHitbox b).2.z →
      (collisionGate collisionList g).blockMove = true) := by
  have hin : detectColision g.camera_position_c (hitBoxPortal cos g.Portal1Bbox).1
      (hitBoxPortal cos g.Portal1Bbox).2 = true :=
    (detectColision_eq_true_iff _ _ _).2 ⟨hx.1, hx.2, hy.1, hy.2, hz.1, hz.2⟩
  refine ⟨hin, ?_, ?_, ?_, ?_⟩
  · rw [teleportPortal1_fire cos M_PI g h1 h2 hin]
  · rw [teleportPortal1_fire cos M_PI g h1 h2 hin]
  · rw [teleportPortal1_fire cos M_PI g h1 h2 hin]
  · intro l b hb bx bz bz2
    unfold collisionGate
    apply collisionIteration_foldl_hit l _ b hb
    exact (detectColision_eq_true_iff _ _ _).2 ⟨bx.1, bx.2, bz.1, bz.2, bz2.1, bz2.2⟩

/-- C5 amended, at the camera position `x = 5` on the upper X face of Portal 1's
trigger volume. -/
theorem teleport_trigger_inclusive_witness :
    detectColision (portalsOnWalls (0 : ℝ) (Real.pi / 2) ⟨5, 1, 99 / 2, 1⟩).camera_position_c
      (hitBoxPortal Real.cos
        (portalsOnWalls (0 : ℝ) (Real.pi / 2) ⟨5, 1, 99 / 2, 1⟩).Portal1Bbox).1
      (hitBoxPortal Real.cos
        (portalsOnWalls (0 : ℝ) (Real.pi / 2) ⟨5, 1, 99 / 2, 1⟩).Portal1Bbox).2 = true :=
  (teleport_trigger_inclusive Real.cos Real.pi
    (portalsOnWalls (0 : ℝ) (Real.pi / 2) ⟨5, 1, 99 / 2, 1⟩) rfl rfl
    (by simp [portalsOnWalls, hitBoxPortal]; norm_num)
    (by simp [portalsOnWalls, hitBoxPortal, height])
    (by simp [portalsOnWalls, hitBoxPortal]; norm_num)).1

end TeleportFacts

section RayFacts

variable {α : Type} [LinearOrderedField α]

/-- `InBox` on axis 1 tests Z and Y strictly. -/
theorem InBox_one (H B1 B2 : Vec4 α) :
    InBox H B1 B2 1 = true ↔ B1.z < H.z ∧ H.z < B2.z ∧ B1.y < H.y ∧ H.y < B2.y := by
  simp [InBox]

/-- `InBox` on axis 2 tests Z and X strictly. -/
theorem InBox_two (H B1 B2 : Vec4 α) :
    InBox H B1 B2 2 = true ↔ B1.z < H.z ∧ H.z < B2.z ∧ B1.x < H.x ∧ H.x < B2.x := by
  simp [InBox]

/-- `InBox` on axis 3 tests X and Y strictly. -/
theorem InBox_three (H B1 B2 : Vec4 α) :
    InBox H B1 B2 3 = true ↔ B1.x < H.x ∧ H.x < B2.x ∧ B1.y < H.y ∧ H.y < B2.y := by
  simp [InBox]

/-- `GetIntersection` reports no crossing, and leaves `Hit`, when the two
distances do not have opposite signs. -/
theorem GetIntersection_none (d1 d2 : α) (P1 P2 Hit : Vec4 α) (h : 0 ≤ d1 * d2) :
    GetIntersection d1 d2 P1 P2 Hit = (false, Hit) := by
  simp [GetIntersection, h]

/-- `GetIntersection` interpolates when the two distances have opposite signs. -/
theorem GetIntersection_some (d1 d2 : α) (P1 P2 Hit : Vec4 α) (h : d1 * d2 < 0) :
    GetIntersection d1 d2 P1 P2 Hit =
      (true, Vec4.add P1 (Vec4.smul (-d1 / (d2 - d1)) (Vec4.sub P2 P1))) := by
  have hne : d1 ≠ d2 := by
    rintro rfl
    exact absurd (mul_self_nonneg d1) (not_le.2 h)
  simp [GetIntersection, not_le.2 h, hne]

/-- The interpolation parameter of a crossing lies strictly between 0 and 1. -/
theorem crossing_param (d1 d2 : α) (h : d1 * d2 < 0) :
    0 < -d1 / (d2 - d1) ∧ -d1 / (d2 - d1) < 1 := by
  rcases lt_trichotomy d1 0 with h1 | h1 | h1
  · have h2 : 0 < d2 := by
      by_contra hc
      exact absurd (mul_nonneg_of_nonpos_of_nonpos h1.le (not_lt.1 hc)) (not_le.2 h)
    have hd : 0 < d2 - d1 := by linarith
    exact ⟨div_pos (by linarith) hd, (div_lt_one hd).2 (by linarith)⟩
  · rw [h1, zero_mul] at h
    exact absurd h (lt_irrefl 0)
  · have h2 : d2 < 0 := by
      by_contra hc
      exact absurd (mul_nonneg h1.le (not_lt.1 hc)) (not_le.2 h)
    have hd : d2 - d1 < 0 := by linarith
    constructor
    · exact div_pos_of_neg_of_neg (by linarith) hd
    · rw [div_lt_one_of_neg hd]
      linarith

/-- The interpolated coordinate on the tested axis is the plane's coordinate. -/
theorem crossing_coord (a b c : α) (h : (a - c) * (b - c) < 0) :
    a + (b - a) * (-(a - c) / ((b - c) - (a - c))) = c := by
  have hne : b - a ≠ 0 := by
    intro h0
    have hab : b = a := by linarith
    rw [hab] at h
    exact absurd (mul_self_nonneg (a - c)) (not_le.2 h)
  have hd : (b - c) - (a - c) = b - a := by ring
  rw [hd]
  field_simp

/-- A successful disjunct of the chain: the distances have opposite signs,
`Hit` is the interpolated point and it passed `InBox`. -/
theorem crossing_true (d1 d2 : α) (L1 L2 B1 B2 : Vec4 α) (Axis : Int) (Hit : Vec4 α)
    (h : (crossing d1 d2 L1 L2 B1 B2 Axis Hit).1 = true) :
    d1 * d2 < 0 ∧
    (crossing d1 d2 L1 L2 B1 B2 Axis Hit).2 =
      Vec4.add L1 (Vec4.smul (-d1 / (d2 - d1)) (Vec4.sub L2 L1)) ∧
    InBox (Vec4.add L1 (Vec4.smul (-d1 / (d2 - d1)) (Vec4.sub L2 L1))) B1 B2 Axis = true := by
  by_cases hd : d1 * d2 < 0
  · rw [crossing, GetIntersection_some d1 d2 L1 L2 Hit hd] at h
    refine ⟨hd, ?_, ?_⟩
    · rw [crossing, GetIntersection_some d1 d2 L1 L2 Hit hd]
      simp
    · simpa using h
  · rw [crossing, GetIntersection_none d1 d2 L1 L2 Hit (not_lt.1 hd)] at h
    simp at h

/-- A disjunct whose distances do not have opposite signs fails and leaves `Hit`. -/
theorem crossing_none (d1 d2 : α) (L1 L2 B1 B2 : Vec4 α) (Axis : Int) (Hit : Vec4 α)
    (h : 0 ≤ d1 * d2) : crossing d1 d2 L1 L2 B1 B2 Axis Hit = (false, Hit) := by
  rw [crossing, GetIntersection_none d1 d2 L1 L2 Hit h]
  simp

/-- A disjunct whose distances have opposite signs returns the verdict of
`InBox` on the interpolated point. -/
theorem crossing_some (d1 d2 : α) (L1 L2 B1 B2 : Vec4 α) (Axis : Int) (Hit : Vec4 α)
    (h : d1 * d2 < 0) :
    crossing d1 d2 L1 L2 B1 B2 Axis Hit =
      (InBox (Vec4.add L1 (Vec4.smul (-d1 / (d2 - d1)) (Vec4.sub L2 L1))) B1 B2 Axis,
        Vec4.add L1 (Vec4.smul (-d1 / (d2 - d1)) (Vec4.sub L2 L1))) := by
  rw [crossing, GetIntersection_some d1 d2 L1 L2 Hit h]
  simp

/-- C6: a ray whose origin is strictly inside the box on all three axes is
reported as a hit, and the hit point is the origin, whatever the direction. -/
theorem CheckLineBox_origin_inside (B1 B2 L1 vector_view Hit : Vec4 α)
    (hx : B1.x < L1.x ∧ L1.x < B2.x) (hy : B1.y < L1.y ∧ L1.y < B2.y)
    (hz : B1.z < L1.z ∧ L1.z < B2.z) :
    CheckLineBox B1 B2 L1 vector_view Hit = (true, L1) := by
  simp [CheckLineBox, hx.1, hx.2, hy.1, hy.2, hz.1, hz.2, hx.1.not_lt, hx.2.not_lt,
    hy.1.not_lt, hy.2.not_lt, hz.1.not_lt, hz.2.not_lt]

/-- C6 at the unit cube, origin at its centre, looking along `-z`. -/
theorem CheckLineBox_origin_inside_witness :
    CheckLineBox (⟨0, 0, 0, 0⟩ : Vec4 ℚ) ⟨1, 1, 1, 0⟩ ⟨1 / 2, 1 / 2, 1 / 2, 1⟩ ⟨0, 0, -1, 0⟩
      ⟨7, 7, 7, 7⟩ = (true, ⟨1 / 2, 1 / 2, 1 / 2, 1⟩) :=
  CheckLineBox_origin_inside (⟨0, 0, 0, 0⟩ : Vec4 ℚ) ⟨1, 1, 1, 0⟩ ⟨1 / 2, 1 / 2, 1 / 2, 1⟩
    ⟨0, 0, -1, 0⟩ ⟨7, 7, 7, 7⟩ (by norm_num) (by norm_num) (by norm_num)

/-- What a reported hit is: either the origin, strictly inside the box, or a
point of the open segment that lies on one of the six planes and passed the
`InBox` test of that plane's axis. -/
theorem CheckLineBox_true_cases (B1 B2 L1 vector_view Hit : Vec4 α)
    (h : (CheckLineBox B1 B2 L1 vector_view Hit).1 = true) :
    ((B1.x < L1.x ∧ L1.x < B2.x ∧ B1.y < L1.y ∧ L1.y < B2.y ∧ B1.z < L1.z ∧ L1.z < B2.z) ∧
      (CheckLineBox B1 B2 L1 vector_view Hit).2 = L1) ∨
    ∃ s : α, 0 < s ∧ s < 1 ∧
      (CheckLineBox B1 B2 L1 vector_view Hit).2 =
        Vec4.add L1 (Vec4.smul s (Vec4.sub (Vec4.add (Vec4.smul 500 vector_view) L1) L1)) ∧
      ((((CheckLineBox B1 B2 L1 vector_view Hit).2.x = B1.x ∨
          (CheckLineBox B1 B2 L1 vector_view Hit).2.x = B2.x) ∧
          InBox (CheckLineBox B1 B2 L1 vector_view Hit).2 B1 B2 1 = true) ∨
        (((CheckLineBox B1 B2 L1 vector_view Hit).2.y = B1.y ∨
          (CheckLineBox B1 B2 L1 vector_view Hit).2.y = B2.y) ∧
          InBox (CheckLineBox B1 B2 L1 vector_view Hit).2 B1 B2 2 = true) ∨
        (((CheckLineBox B1 B2 L1 vector_view Hit).2.z = B1.z ∨
          (CheckLineBox B1 B2 L1 vector_view Hit).2.z = B2.z) ∧
          InBox (CheckLineBox B1 B2 L1 vector_view Hit).2 B1 B2 3 = true)) := by
  generalize hR : CheckLineBox B1 B2 L1 vector_view Hit = R at h ⊢
  unfold CheckLineBox at hR
  simp only [] at hR
  rcases ite_eq_iff.1 hR with ⟨_, hR⟩ | ⟨_, hR⟩
  · subst hR; exact absurd h (by simp)
  rcases ite_eq_iff.1 hR with ⟨_, hR⟩ | ⟨_, hR⟩
  · subst hR; exact absurd h (by simp)
  rcases ite_eq_iff.1 hR with ⟨_, hR⟩ | ⟨_, hR⟩
  · subst hR; exact absurd h (by simp)
  rcases ite_eq_iff.1 hR with ⟨_, hR⟩ | ⟨_, hR⟩
  · subst hR; exact absurd h (by simp)
  rcases ite_eq_iff.1 hR with ⟨_, hR⟩ | ⟨_, hR⟩
  · subst hR; exact absurd h (by simp)
  rcases ite_eq_iff.1 hR with ⟨_, hR⟩ | ⟨_, hR⟩
  · subst hR; exact absurd h (by simp)
  rcases ite_eq_iff.1 hR with ⟨hin, hR⟩ | ⟨_, hR⟩
  · subst hR
    left
    exact ⟨⟨hin.1, hin.2.1, hin.2.2.1, hin.2.2.2.1, hin.2.2.2.2.1, hin.2.2.2.2.2⟩, rfl⟩
  rcases ite_eq_iff.1 hR with ⟨c, hR⟩ | ⟨_, hR⟩
  · subst hR
    right
    obtain ⟨hd, he, hb⟩ := crossing_true _ _ _ _ _ _ _ _ c
    refine ⟨_, (crossing_param _ _ hd).1, (crossing_param _ _ hd).2, he, Or.inl ⟨Or.inl ?_, ?_⟩⟩
    · rw [he]
      exact crossing_coord _ _ _ hd
    · rw [he]
      exact hb
  rcases ite_eq_iff.1 hR with ⟨c, hR⟩ | ⟨_, hR⟩
  · subst hR
    right
    obtain ⟨hd, he, hb⟩ := crossing_true _ _ _ _ _ _ _ _ c
    refine ⟨_, (crossing_param _ _ hd).1, (crossing_param _ _ hd).2, he, Or.inr (Or.inl ⟨Or.inl ?_, ?_⟩)⟩
    · rw [he]
      exact crossing_coord _ _ _ hd
    · rw [he]
      exact hb
  rcases ite_eq_iff.1 hR with ⟨c, hR⟩ | ⟨_, hR⟩
  · subst hR
    right
    obtain ⟨hd, he, hb⟩ := crossing_true _ _ _ _ _ _ _ _ c
    refine ⟨_, (crossing_param _ _ hd).1, (crossing_param _ _ hd).2, he, Or.inr (Or.inr ⟨Or.inl ?_, ?_⟩)⟩
    · rw [he]
      exact crossing_coord _ _ _ hd
    · rw [he]
      exact hb
  rcases ite_eq_iff.1 hR with ⟨c, hR⟩ | ⟨_, hR⟩
  · subst hR
    right
    obtain ⟨hd, he, hb⟩ := crossing_true _ _ _ _ _ _ _ _ c
    refine ⟨_, (crossing_param _ _ hd).1, (crossing_param _ _ hd).2, he, Or.inl ⟨Or.inr ?_, ?_⟩⟩
    · rw [he]
      exact crossing_coord _ _ _ hd
    · rw [he]
      exact hb
  rcases ite_eq_iff.1 hR with ⟨c, hR⟩ | ⟨_, hR⟩
  · subst hR
    right
    obtain ⟨hd, he, hb⟩ := crossing_true _ _ _ _ _ _ _ _ c
    refine ⟨_, (crossing_param _ _ hd).1, (crossing_param _ _ hd).2, he, Or.inr (Or.inl ⟨Or.inr ?_, ?_⟩)⟩
    · rw [he]
      exact crossing_coord _ _ _ hd
    · rw [he]
      exact hb
  rcases ite_eq_iff.1 hR with ⟨c, hR⟩ | ⟨_, hR⟩
  · subst hR
    right
    obtain ⟨hd, he, hb⟩ := crossing_true _ _ _ _ _ _ _ _ c
    refine ⟨_, (crossing_param _ _ hd).1, (crossing_param _ _ hd).2, he, Or.inr (Or.inr ⟨Or.inr ?_, ?_⟩)⟩
    · rw [he]
      exact crossing_coord _ _ _ hd
    · rw [he]
      exact hb
  · subst hR; exact absurd h (by simp)

/-- A reported hit passed the six early rejections. -/
theorem CheckLineBox_true_not_rejected (B1 B2 L1 vector_view Hit : Vec4 α)
    (h : (CheckLineBox B1 B2 L1 vector_view Hit).1 = true) :
    ¬ (vector_view.x * 500 + L1.x < B1.x ∧ L1.x < B1.x) ∧
    ¬ (vector_view.x * 500 + L1.x > B2.x ∧ L1.x > B2.x) ∧
    ¬ (vector_view.y * 500 + L1.y < B1.y ∧ L1.y < B1.y) ∧
    ¬ (vector_view.y * 500 + L1.y > B2.y ∧ L1.y > B2.y) ∧
    ¬ (vector_view.z * 500 + L1.z < B1.z ∧ L1.z < B1.z) ∧
    ¬ (vector_view.z * 500 + L1.z > B2.z ∧ L1.z > B2.z) := by
  generalize hR : CheckLineBox B1 B2 L1 vector_view Hit = R at h
  unfold CheckLineBox at hR
  simp only [] at hR
  rcases ite_eq_iff.1 hR with ⟨_, hR⟩ | ⟨r1, hR⟩
  · subst hR; exact absurd h (by simp)
  rcases ite_eq_iff.1 hR with ⟨_, hR⟩ | ⟨r2, hR⟩
  · subst hR; exact absurd h (by simp)
  rcases ite_eq_iff.1 hR with ⟨_, hR⟩ | ⟨r3, hR⟩
  · subst hR; exact absurd h (by simp)
  rcases ite_eq_iff.1 hR with ⟨_, hR⟩ | ⟨r4, hR⟩
  · subst hR; exact absurd h (by simp)
  rcases ite_eq_iff.1 hR with ⟨_, hR⟩ | ⟨r5, hR⟩
  · subst hR; exact absurd h (by simp)
  rcases ite_eq_iff.1 hR with ⟨_, hR⟩ | ⟨r6, hR⟩
  · subst hR; exact absurd h (by simp)
  exact ⟨r1, r2, r3, r4, r5, r6⟩

/-- The coordinates of a point of the segment, as `CheckLineBox` computes it. -/
theorem segment_point (L1 vector_view : Vec4 α) (s : α) :
    (Vec4.add L1 (Vec4.smul s (Vec4.sub (Vec4.add (Vec4.smul 500 vector_view) L1) L1))).x =
      L1.x + s * (500 * vector_view.x) ∧
    (Vec4.add L1 (Vec4.smul s (Vec4.sub (Vec4.add (Vec4.smul 500 vector_view) L1) L1))).y =
      L1.y + s * (500 * vector_view.y) ∧
    (Vec4.add L1 (Vec4.smul s (Vec4.sub (Vec4.add (Vec4.smul 500 vector_view) L1) L1))).z =
      L1.z + s * (500 * vector_view.z) := by
  refine ⟨?_, ?_, ?_⟩ <;> simp only [Vec4.add, Vec4.smul, Vec4.sub] <;> ring

/-- C8: for a box with `min ≤ max` on every axis, when no point of the segment
from the origin to `origin + 500 * direction` lies in the closed box,
`CheckLineBox` reports no hit; in particular it reports no hit when both ends of
the segment are below `min`, or both above `max`, on one axis. -/
theorem CheckLineBox_miss (B1 B2 L1 vector_view Hit : Vec4 α) :
    (B1.x ≤ B2.x → B1.y ≤ B2.y → B1.z ≤ B2.z →
      (∀ s : α, 0 ≤ s → s ≤ 1 →
        ¬ (B1.x ≤ L1.x + s * (500 * vector_view.x) ∧ L1.x + s * (500 * vector_view.x) ≤ B2.x ∧
           B1.y ≤ L1.y + s * (500 * vector_view.y) ∧ L1.y + s * (500 * vector_view.y) ≤ B2.y ∧
           B1.z ≤ L1.z + s * (500 * vector_view.z) ∧ L1.z + s * (500 * vector_view.z) ≤ B2.z)) →
      (CheckLineBox B1 B2 L1 vector_view Hit).1 = false) ∧
    ((L1.x < B1.x ∧ L1.x + 500 * vector_view.x < B1.x) ∨
      (B2.x < L1.x ∧ B2.x < L1.x + 500 * vector_view.x) ∨
      (L1.y < B1.y ∧ L1.y + 500 * vector_view.y < B1.y) ∨
      (B2.y < L1.y ∧ B2.y < L1.y + 500 * vector_view.y) ∨
      (L1.z < B1.z ∧ L1.z + 500 * vector_view.z < B1.z) ∨
      (B2.z < L1.z ∧ B2.z < L1.z + 500 * vector_view.z) →
      (CheckLineBox B1 B2 L1 vector_view Hit).1 = false) := by
  constructor
  · intro wx wy wz hsep
    by_contra hne
    have h : (CheckLineBox B1 B2 L1 vector_view Hit).1 = true := by
      simpa using hne
    rcases CheckLineBox_true_cases B1 B2 L1 vector_view Hit h with ⟨hin, _⟩ | ⟨s, hs0, hs1, he, hc⟩
    · apply hsep 0 le_rfl zero_le_one
      simp only [zero_mul, add_zero]
      exact ⟨hin.1.le, hin.2.1.le, hin.2.2.1.le, hin.2.2.2.1.le, hin.2.2.2.2.1.le,
        hin.2.2.2.2.2.le⟩
    · apply hsep s hs0.le hs1.le
      obtain ⟨ex, ey, ez⟩ := segment_point L1 vector_view s
      rw [← ex, ← ey, ← ez, ← he]
      rcases hc with ⟨hp, hb⟩ | ⟨hp, hb⟩ | ⟨hp, hb⟩
      · rw [InBox_one] at hb
        rcases hp with hp | hp
        · exact ⟨hp.ge, hp ▸ wx, hb.2.2.1.le, hb.2.2.2.le, hb.1.le, hb.2.1.le⟩
        · exact ⟨hp ▸ wx, hp.le, hb.2.2.1.le, hb.2.2.2.le, hb.1.le, hb.2.1.le⟩
      · rw [InBox_two] at hb
        rcases hp with hp | hp
        · exact ⟨hb.2.2.1.le, hb.2.2.2.le, hp.ge, hp ▸ wy, hb.1.le, hb.2.1.le⟩
        · exact ⟨hb.2.2.1.le, hb.2.2.2.le, hp ▸ wy, hp.le, hb.1.le, hb.2.1.le⟩
      · rw [InBox_three] at hb
        rcases hp with hp | hp
        · exact ⟨hb.1.le, hb.2.1.le, hb.2.2.1.le, hb.2.2.2.le, hp.ge, hp ▸ wz⟩
        · exact ⟨hb.1.le, hb.2.1.le, hb.2.2.1.le, hb.2.2.2.le, hp ▸ wz, hp.le⟩
  · intro hrej
    by_contra hne
    have h : (CheckLineBox B1 B2 L1 vector_view Hit).1 = true := by
      simpa using hne
    obtain ⟨r1, r2, r3, r4, r5, r6⟩ := CheckLineBox_true_not_rejected B1 B2 L1 vector_view Hit h
    rcases hrej with ⟨a, b⟩ | ⟨a, b⟩ | ⟨a, b⟩ | ⟨a, b⟩ | ⟨a, b⟩ | ⟨a, b⟩
    · exact r1 ⟨by linarith, a⟩
    · exact r2 ⟨by linarith, a⟩
    · exact r3 ⟨by linarith, a⟩
    · exact r4 ⟨by linarith, a⟩
    · exact r5 ⟨by linarith, a⟩
    · exact r6 ⟨by linarith, a⟩

/-- C8 at the unit cube, with a ray that starts at `x = 2` and looks along `+x`. -/
theorem CheckLineBox_miss_witness :
    (CheckLineBox (⟨0, 0, 0, 0⟩ : Vec4 ℚ) ⟨1, 1, 1, 0⟩ ⟨2, 1 / 2, 1 / 2, 1⟩ ⟨1, 0, 0, 0⟩
      ⟨7, 7, 7, 7⟩).1 = false :=
  (CheckLineBox_miss (⟨0, 0, 0, 0⟩ : Vec4 ℚ) ⟨1, 1, 1, 0⟩ ⟨2, 1 / 2, 1 / 2, 1⟩ ⟨1, 0, 0, 0⟩
    ⟨7, 7, 7, 7⟩).1 (by norm_num) (by norm_num) (by norm_num)
    (by
      intro s hs0 hs1 hc
      have h2 := hc.2.1
      norm_num at h2
      linarith)

/-- A disjunct of the chain either ignores the previous content of `Hit`, or
fails and leaves it. -/
theorem crossing_irrel (d1 d2 : α) (L1 L2 B1 B2 : Vec4 α) (Axis : Int) (H H' : Vec4 α) :
    crossing d1 d2 L1 L2 B1 B2 Axis H = crossing d1 d2 L1 L2 B1 B2 Axis H' ∨
    (crossing d1 d2 L1 L2 B1 B2 Axis H = (false, H) ∧
      crossing d1 d2 L1 L2 B1 B2 Axis H' = (false, H')) := by
  by_cases hd : d1 * d2 < 0
  · left
    rw [crossing_some _ _ _ _ _ _ _ H hd, crossing_some _ _ _ _ _ _ _ H' hd]
  · right
    exact ⟨crossing_none _ _ _ _ _ _ _ H (not_lt.1 hd), crossing_none _ _ _ _ _ _ _ H' (not_lt.1 hd)⟩

/-- The previous content of `Hit` does not influence `CheckLineBox`, except for
the content of `Hit` after a miss. -/
theorem CheckLineBox_irrel (B1 B2 L1 vector_view H H' : Vec4 α) :
    CheckLineBox B1 B2 L1 vector_view H = CheckLineBox B1 B2 L1 vector_view H' ∨
    ((CheckLineBox B1 B2 L1 vector_view H).1 = false ∧
      (CheckLineBox B1 B2 L1 vector_view H').1 = false) := by
  generalize hR : CheckLineBox B1 B2 L1 vector_view H = R
  generalize hR' : CheckLineBox B1 B2 L1 vector_view H' = R'
  unfold CheckLineBox at hR hR'
  simp only [] at hR hR'
  rcases ite_eq_iff.1 hR with ⟨_, hR⟩ | ⟨r1, hR⟩
  · rcases ite_eq_iff.1 hR' with ⟨_, hR'⟩ | ⟨r1', _⟩
    · subst hR; subst hR'; exact Or.inr ⟨rfl, rfl⟩
    · exact absurd ‹_› r1'
  rw [if_neg r1] at hR'
  rcases ite_eq_iff.1 hR with ⟨_, hR⟩ | ⟨r2, hR⟩
  · rcases ite_eq_iff.1 hR' with ⟨_, hR'⟩ | ⟨r2', _⟩
    · subst hR; subst hR'; exact Or.inr ⟨rfl, rfl⟩
    · exact absurd ‹_› r2'
  rw [if_neg r2] at hR'
  rcases ite_eq_iff.1 hR with ⟨_, hR⟩ | ⟨r3, hR⟩
  · rcases ite_eq_iff.1 hR' with ⟨_, hR'⟩ | ⟨r3', _⟩
    · subst hR; subst hR'; exact Or.inr ⟨rfl, rfl⟩
    · exact absurd ‹_› r3'
  rw [if_neg r3] at hR'
  rcases ite_eq_iff.1 hR with ⟨_, hR⟩ | ⟨r4, hR⟩
  · rcases ite_eq_iff.1 hR' with ⟨_, hR'⟩ | ⟨r4', _⟩
    · subst hR; subst hR'; exact Or.inr ⟨rfl, rfl⟩
    · exact absurd ‹_› r4'
  rw [if_neg r4] at hR'
  rcases ite_eq_iff.1 hR with ⟨_, hR⟩ | ⟨r5, hR⟩
  · rcases ite_eq_iff.1 hR' with ⟨_, hR'⟩ | ⟨r5', _⟩
    · subst hR; subst hR'; exact Or.inr ⟨rfl, rfl⟩
    · exact absurd ‹_› r5'
  rw [if_neg r5] at hR'
  rcases ite_eq_iff.1 hR with ⟨_, hR⟩ | ⟨r6, hR⟩
  · rcases ite_eq_iff.1 hR' with ⟨_, hR'⟩ | ⟨r6', _⟩
    · subst hR; subst hR'; exact Or.inr ⟨rfl, rfl⟩
    · exact absurd ‹_› r6'
  rw [if_neg r6] at hR'
  rcases ite_eq_iff.1 hR with ⟨hin, hR⟩ | ⟨hin, hR⟩
  · rw [if_pos hin] at hR'
    exact Or.inl (hR.symm.trans hR')
  rw [if_neg hin] at hR'
  rcases crossing_irrel (L1.x - B1.x) ((Vec4.add (Vec4.smul 500 vector_view) L1).x - B1.x) L1
    (Vec4.add (Vec4.smul 500 vector_view) L1) B1 B2 1 H H' with he | ⟨h1, h2⟩
  · rw [← he] at hR'
    exact Or.inl (hR.symm.trans hR')
  rw [h1, if_neg (by simp)] at hR
  rw [h2, if_neg (by simp)] at hR'
  dsimp only at hR hR'
  rcases crossing_irrel (L1.y - B1.y) ((Vec4.add (Vec4.smul 500 vector_view) L1).y - B1.y) L1
    (Vec4.add (Vec4.smul 500 vector_view) L1) B1 B2 2 H H' with he | ⟨h1, h2⟩
  · rw [← he] at hR'
    exact Or.inl (hR.symm.trans hR')
  rw [h1, if_neg (by simp)] at hR
  rw [h2, if_neg (by simp)] at hR'
  dsimp only at hR hR'
  rcases crossing_irrel (L1.z - B1.z) ((Vec4.add (Vec4.smul 500 vector_view) L1).z - B1.z) L1
    (Vec4.add (Vec4.smul 500 vector_view) L1) B1 B2 3 H H' with he | ⟨h1, h2⟩
  · rw [← he] at hR'
    exact Or.inl (hR.symm.trans hR')
  rw [h1, if_neg (by simp)] at hR
  rw [h2, if_neg (by simp)] at hR'
  dsimp only at hR hR'
  rcases crossing_irrel (L1.x - B2.x) ((Vec4.add (Vec4.smul 500 vector_view) L1).x - B2.x) L1
    (Vec4.add (Vec4.smul 500 vector_view) L1) B1 B2 1 H H' with he | ⟨h1, h2⟩
  · rw [← he] at hR'
    exact Or.inl (hR.symm.trans hR')
  rw [h1, if_neg (by simp)] at hR
  rw [h2, if_neg (by simp)] at hR'
  dsimp only at hR hR'
  rcases crossing_irrel (L1.y - B2.y) ((Vec4.add (Vec4.smul 500 vector_view) L1).y - B2.y) L1
    (Vec4.add (Vec4.smul 500 vector_view) L1) B1 B2 2 H H' with he | ⟨h1, h2⟩
  · rw [← he] at hR'
    exact Or.inl (hR.symm.trans hR')
  rw [h1, if_neg (by simp)] at hR
  rw [h2, if_neg (by simp)] at hR'
  dsimp only at hR hR'
  rcases crossing_irrel (L1.z - B2.z) ((Vec4.add (Vec4.smul 500 vector_view) L1).z - B2.z) L1
    (Vec4.add (Vec4.smul 500 vector_view) L1) B1 B2 3 H H' with he | ⟨h1, h2⟩
  · rw [← he] at hR'
    exact Or.inl (hR.symm.trans hR')
  rw [h1, if_neg (by simp)] at hR
  rw [h2, if_neg (by simp)] at hR'
  dsimp only at hR hR'
  subst hR
  subst hR'
  exact Or.inr ⟨rfl, rfl⟩

/-- Whether `CheckLineBox` reports a hit does not depend on the previous `Hit`. -/
theorem CheckLineBox_fst_irrel (B1 B2 L1 vector_view H H' : Vec4 α) :
    (CheckLineBox B1 B2 L1 vector_view H).1 = (CheckLineBox B1 B2 L1 vector_view H').1 := by
  rcases CheckLineBox_irrel B1 B2 L1 vector_view H H' with h | ⟨h1, h2⟩
  · rw [h]
  · rw [h1, h2]

/-- The hit point that `CheckLineBox` reports does not depend on the previous `Hit`. -/
theorem CheckLineBox_hit_irrel (B1 B2 L1 vector_view H H' : Vec4 α)
    (h : (CheckLineBox B1 B2 L1 vector_view H).1 = true) :
    CheckLineBox B1 B2 L1 vector_view H = CheckLineBox B1 B2 L1 vector_view H' := by
  rcases CheckLineBox_irrel B1 B2 L1 vector_view H H' with he | ⟨h1, _⟩
  · exact he
  · rw [h1] at h
    exact absurd h (by simp)

/-- C7, the claim fails: the unit cube, a ray from `(2, 1/2, 1/2)` along `-x`,
aimed at the face `x = 1` from outside, perpendicular to it, at distance 1, with
Y and Z strictly inside the face.  The reported hit has `x = 0`: it is on the
opposite face, not on the face aimed at. -/
theorem CheckLineBox_reports_far_face :
    CheckLineBox (⟨0, 0, 0, 0⟩ : Vec4 ℚ) ⟨1, 1, 1, 0⟩ ⟨2, 1 / 2, 1 / 2, 1⟩ ⟨-1, 0, 0, 0⟩
        ⟨7, 7, 7, 7⟩ = (true, ⟨0, 1 / 2, 1 / 2, 1⟩) ∧
    (CheckLineBox (⟨0, 0, 0, 0⟩ : Vec4 ℚ) ⟨1, 1, 1, 0⟩ ⟨2, 1 / 2, 1 / 2, 1⟩ ⟨-1, 0, 0, 0⟩
        ⟨7, 7, 7, 7⟩).2.x ≠ 1 := by
  have h : CheckLineBox (⟨0, 0, 0, 0⟩ : Vec4 ℚ) ⟨1, 1, 1, 0⟩ ⟨2, 1 / 2, 1 / 2, 1⟩ ⟨-1, 0, 0, 0⟩
      ⟨7, 7, 7, 7⟩ = (true, ⟨0, 1 / 2, 1 / 2, 1⟩) := by
    norm_num [CheckLineBox, crossing, GetIntersection, InBox, Vec4.add, Vec4.smul, Vec4.sub]
  rw [h]
  exact ⟨rfl, by norm_num⟩

/-- A ray along `+x` aimed from outside at the face `x = B1.x`. -/
theorem CheckLineBox_face_x_min (B1 B2 L1 vector_view Hit : Vec4 α)
    (wx : B1.x ≤ B2.x) (hvy : vector_view.y = 0) (hvz : vector_view.z = 0)
    (hy : B1.y < L1.y ∧ L1.y < B2.y) (hz : B1.z < L1.z ∧ L1.z < B2.z)
    (ho : L1.x < B1.x) (hr : B1.x - L1.x < 500 * vector_view.x) :
    (CheckLineBox B1 B2 L1 vector_view Hit).1 = true ∧
    (CheckLineBox B1 B2 L1 vector_view Hit).2.x = B1.x ∧
    (CheckLineBox B1 B2 L1 vector_view Hit).2.y = L1.y ∧
    (CheckLineBox B1 B2 L1 vector_view Hit).2.z = L1.z := by
  have e2x : ((Vec4.add (Vec4.smul 500 vector_view) L1)).x = vector_view.x * 500 + L1.x := rfl
  have e2y : ((Vec4.add (Vec4.smul 500 vector_view) L1)).y = L1.y := by
    simp [Vec4.add, Vec4.smul, hvy]
  have e2z : ((Vec4.add (Vec4.smul 500 vector_view) L1)).z = L1.z := by
    simp [Vec4.add, Vec4.smul, hvz]
  have hd : (L1.x - B1.x) * (((Vec4.add (Vec4.smul 500 vector_view) L1)).x - B1.x) < 0 := by
    rw [e2x]
    exact mul_neg_of_neg_of_pos (by linarith) (by linarith)
  obtain ⟨sx, sy, sz⟩ := segment_point L1 vector_view
    (-(L1.x - B1.x) / ((((Vec4.add (Vec4.smul 500 vector_view) L1)).x - B1.x) - (L1.x - B1.x)))
  have hb : InBox (Vec4.add L1 (Vec4.smul
      (-(L1.x - B1.x) / ((((Vec4.add (Vec4.smul 500 vector_view) L1)).x - B1.x) - (L1.x - B1.x)))
      (Vec4.sub (Vec4.add (Vec4.smul 500 vector_view) L1) L1))) B1 B2 1 = true := by
    rw [InBox_one, sz, sy, hvz, hvy]
    simpa using ⟨hz.1, hz.2, hy.1, hy.2⟩
  have hE : CheckLineBox B1 B2 L1 vector_view Hit = (true, (Vec4.add L1 (Vec4.smul
      (-(L1.x - B1.x) / ((((Vec4.add (Vec4.smul 500 vector_view) L1)).x - B1.x) - (L1.x - B1.x)))
      (Vec4.sub (Vec4.add (Vec4.smul 500 vector_view) L1) L1)))) := by
    unfold CheckLineBox
    simp only []
    rw [if_neg (by intro h; linarith [h.1, h.2, e2x, e2y, e2z]),
      if_neg (by intro h; linarith [h.1, h.2, e2x, e2y, e2z]),
      if_neg (by intro h; linarith [h.1, h.2, e2x, e2y, e2z]),
      if_neg (by intro h; linarith [h.1, h.2, e2x, e2y, e2z]),
      if_neg (by intro h; linarith [h.1, h.2, e2x, e2y, e2z]),
      if_neg (by intro h; linarith [h.1, h.2, e2x, e2y, e2z]),
      if_neg (by intro h; linarith [h.1, h.2.1, h.2.2.1, h.2.2.2.1, h.2.2.2.2.1, h.2.2.2.2.2]),
      crossing_some _ _ _ _ _ _ _ _ hd, if_pos hb]
  rw [hE]
  refine ⟨rfl, crossing_coord _ _ _ hd, ?_, ?_⟩
  · rw [sy, hvy]; simp
  · rw [sz, hvz]; simp

/-- A ray along `+y` aimed from outside at the face `y = B1.y`. -/
theorem CheckLineBox_face_y_min (B1 B2 L1 vector_view Hit : Vec4 α)
    (wy : B1.y ≤ B2.y) (hvx : vector_view.x = 0) (hvz : vector_view.z = 0)
    (hx : B1.x < L1.x ∧ L1.x < B2.x) (hz : B1.z < L1.z ∧ L1.z < B2.z)
    (ho : L1.y < B1.y) (hr : B1.y - L1.y < 500 * vector_view.y) :
    (CheckLineBox B1 B2 L1 vector_view Hit).1 = true ∧
    (CheckLineBox B1 B2 L1 vector_view Hit).2.y = B1.y ∧
    (CheckLineBox B1 B2 L1 vector_view Hit).2.x = L1.x ∧
    (CheckLineBox B1 B2 L1 vector_view Hit).2.z = L1.z := by
  have e2y : ((Vec4.add (Vec4.smul 500 vector_view) L1)).y = vector_view.y * 500 + L1.y := rfl
  have e2x : ((Vec4.add (Vec4.smul 500 vector_view) L1)).x = L1.x := by
    simp [Vec4.add, Vec4.smul, hvx]
  have e2z : ((Vec4.add (Vec4.smul 500 vector_view) L1)).z = L1.z := by
    simp [Vec4.add, Vec4.smul, hvz]
  have hd : (L1.y - B1.y) * (((Vec4.add (Vec4.smul 500 vector_view) L1)).y - B1.y) < 0 := by
    rw [e2y]
    exact mul_neg_of_neg_of_pos (by linarith) (by linarith)
  obtain ⟨sx, sy, sz⟩ := segment_point L1 vector_view
    (-(L1.y - B1.y) / ((((Vec4.add (Vec4.smul 500 vector_view) L1)).y - B1.y) - (L1.y - B1.y)))
  have hb : InBox (Vec4.add L1 (Vec4.smul
      (-(L1.y - B1.y) / ((((Vec4.add (Vec4.smul 500 vector_view) L1)).y - B1.y) - (L1.y - B1.y)))
      (Vec4.sub (Vec4.add (Vec4.smul 500 vector_view) L1) L1))) B1 B2 2 = true := by
    rw [InBox_two, sz, sx, hvz, hvx]
    simpa using ⟨hz.1, hz.2, hx.1, hx.2⟩
  have nx : 0 ≤ (L1.x - B1.x) * (((Vec4.add (Vec4.smul 500 vector_view) L1)).x - B1.x) := by
    rw [e2x]; exact mul_self_nonneg _
  have hE : CheckLineBox B1 B2 L1 vector_view Hit = (true, (Vec4.add L1 (Vec4.smul
      (-(L1.y - B1.y) / ((((Vec4.add (Vec4.smul 500 vector_view) L1)).y - B1.y) - (L1.y - B1.y)))
      (Vec4.sub (Vec4.add (Vec4.smul 500 vector_view) L1) L1)))) := by
    unfold CheckLineBox
    simp only []
    rw [if_neg (by intro h; linarith [h.1, h.2, e2x, e2y, e2z]),
      if_neg (by intro h; linarith [h.1, h.2, e2x, e2y, e2z]),
      if_neg (by intro h; linarith [h.1, h.2, e2x, e2y, e2z]),
      if_neg (by intro h; linarith [h.1, h.2, e2x, e2y, e2z]),
      if_neg (by intro h; linarith [h.1, h.2, e2x, e2y, e2z]),
      if_neg (by intro h; linarith [h.1, h.2, e2x, e2y, e2z]),
      if_neg (by intro h; linarith [h.1, h.2.1, h.2.2.1, h.2.2.2.1, h.2.2.2.2.1, h.2.2.2.2.2]),
      crossing_none _ _ _ _ _ _ _ _ nx, if_neg (by simp),
      crossing_some _ _ _ _ _ _ _ _ hd, if_pos hb]
  rw [hE]
  refine ⟨rfl, crossing_coord _ _ _ hd, ?_, ?_⟩
  · rw [sx, hvx]; simp
  · rw [sz, hvz]; simp

/-- A ray along `+z` aimed from outside at the face `z = B1.z`. -/
theorem CheckLineBox_face_z_min (B1 B2 L1 vector_view Hit : Vec4 α)
    (wz : B1.z ≤ B2.z) (hvx : vector_view.x = 0) (hvy : vector_view.y = 0)
    (hx : B1.x < L1.x ∧ L1.x < B2.x) (hy : B1.y < L1.y ∧ L1.y < B2.y)
    (ho : L1.z < B1.z) (hr : B1.z - L1.z < 500 * vector_view.z) :
    (CheckLineBox B1 B2 L1 vector_view Hit).1 = true ∧
    (CheckLineBox B1 B2 L1 vector_view Hit).2.z = B1.z ∧
    (CheckLineBox B1 B2 L1 vector_view Hit).2.x = L1.x ∧
    (CheckLineBox B1 B2 L1 vector_view Hit).2.y = L1.y := by
  have e2z : ((Vec4.add (Vec4.smul 500 vector_view) L1)).z = vector_view.z * 500 + L1.z := rfl
  have e2x : ((Vec4.add (Vec4.smul 500 vector_view) L1)).x = L1.x := by
    simp [Vec4.add, Vec4.smul, hvx]
  have e2y : ((Vec4.add (Vec4.smul 500 vector_view) L1)).y = L1.y := by
    simp [Vec4.add, Vec4.smul, hvy]
  have hd : (L1.z - B1.z) * (((Vec4.add (Vec4.smul 500 vector_view) L1)).z - B1.z) < 0 := by
    rw [e2z]
    exact mul_neg_of_neg_of_pos (by linarith) (by linarith)
  obtain ⟨sx, sy, sz⟩ := segment_point L1 vector_view
    (-(L1.z - B1.z) / ((((Vec4.add (Vec4.smul 500 vector_view) L1)).z - B1.z) - (L1.z - B1.z)))
  have hb : InBox (Vec4.add L1 (Vec4.smul
      (-(L1.z - B1.z) / ((((Vec4.add (Vec4.smul 500 vector_view) L1)).z - B1.z) - (L1.z - B1.z)))
      (Vec4.sub (Vec4.add (Vec4.smul 500 vector_view) L1) L1))) B1 B2 3 = true := by
    rw [InBox_three, sx, sy, hvx, hvy]
    simpa using ⟨hx.1, hx.2, hy.1, hy.2⟩
  have nx : 0 ≤ (L1.x - B1.x) * (((Vec4.add (Vec4.smul 500 vector_view) L1)).x - B1.x) := by
    rw [e2x]; exact mul_self_nonneg _
  have ny : 0 ≤ (L1.y - B1.y) * (((Vec4.add (Vec4.smul 500 vector_view) L1)).y - B1.y) := by
    rw [e2y]; exact mul_self_nonneg _
  have hE : CheckLineBox B1 B2 L1 vector_view Hit = (true, (Vec4.add L1 (Vec4.smul
      (-(L1.z - B1.z) / ((((Vec4.add (Vec4.smul 500 vector_view) L1)).z - B1.z) - (L1.z - B1.z)))
      (Vec4.sub (Vec4.add (Vec4.smul 500 vector_view) L1) L1)))) := by
    unfold CheckLineBox
    simp only []
    rw [if_neg (by intro h; linarith [h.1, h.2, e2x, e2y, e2z]),
      if_neg (by intro h; linarith [h.1, h.2, e2x, e2y, e2z]),
      if_neg (by intro h; linarith [h.1, h.2, e2x, e2y, e2z]),
      if_neg (by intro h; linarith [h.1, h.2, e2x, e2y, e2z]),
      if_neg (by intro h; linarith [h.1, h.2, e2x, e2y, e2z]),
      if_neg (by intro h; linarith [h.1, h.2, e2x, e2y, e2z]),
      if_neg (by intro h; linarith [h.1, h.2.1, h.2.2.1, h.2.2.2.1, h.2.2.2.2.1, h.2.2.2.2.2]),
      crossing_none _ _ _ _ _ _ _ _ nx, if_neg (by simp),
      crossing_none _ _ _ _ _ _ _ _ ny, if_neg (by simp),
      crossing_some _ _ _ _ _ _ _ _ hd, if_pos hb]
  rw [hE]
  refine ⟨rfl, crossing_coord _ _ _ hd, ?_, ?_⟩
  · rw [sx, hvx]; simp
  · rw [sy, hvy]; simp

/-- A ray along `-x` aimed from outside at the face `x = B2.x`: the hit is on
the plane `x = B1.x` when the segment ends beyond it, on `x = B2.x` otherwise. -/
theorem CheckLineBox_face_x_max (B1 B2 L1 vector_view Hit : Vec4 α)
    (wx : B1.x ≤ B2.x) (hvy : vector_view.y = 0) (hvz : vector_view.z = 0)
    (hy : B1.y < L1.y ∧ L1.y < B2.y) (hz : B1.z < L1.z ∧ L1.z < B2.z)
    (ho : B2.x < L1.x) (hr : L1.x - B2.x < 500 * -vector_view.x) :
    (CheckLineBox B1 B2 L1 vector_view Hit).1 = true ∧
    (CheckLineBox B1 B2 L1 vector_view Hit).2.y = L1.y ∧
    (CheckLineBox B1 B2 L1 vector_view Hit).2.z = L1.z ∧
    (L1.x + 500 * vector_view.x < B1.x →
      (CheckLineBox B1 B2 L1 vector_view Hit).2.x = B1.x) ∧
    (B1.x ≤ L1.x + 500 * vector_view.x →
      (CheckLineBox B1 B2 L1 vector_view Hit).2.x = B2.x) := by
  have e2x : ((Vec4.add (Vec4.smul 500 vector_view) L1)).x = vector_view.x * 500 + L1.x := rfl
  have e2y : ((Vec4.add (Vec4.smul 500 vector_view) L1)).y = L1.y := by
    simp [Vec4.add, Vec4.smul, hvy]
  have e2z : ((Vec4.add (Vec4.smul 500 vector_view) L1)).z = L1.z := by
    simp [Vec4.add, Vec4.smul, hvz]
  have hd2 : (L1.x - B2.x) * (((Vec4.add (Vec4.smul 500 vector_view) L1)).x - B2.x) < 0 := by
    rw [e2x]
    exact mul_neg_of_pos_of_neg (by linarith) (by linarith)
  obtain ⟨sx, sy, sz⟩ := segment_point L1 vector_view
    (-(L1.x - B1.x) / ((((Vec4.add (Vec4.smul 500 vector_view) L1)).x - B1.x) - (L1.x - B1.x)))
  obtain ⟨tx, ty, tz⟩ := segment_point L1 vector_view
    (-(L1.x - B2.x) / ((((Vec4.add (Vec4.smul 500 vector_view) L1)).x - B2.x) - (L1.x - B2.x)))
  have hb1 : InBox (Vec4.add L1 (Vec4.smul
      (-(L1.x - B1.x) / ((((Vec4.add (Vec4.smul 500 vector_view) L1)).x - B1.x) - (L1.x - B1.x)))
      (Vec4.sub (Vec4.add (Vec4.smul 500 vector_view) L1) L1))) B1 B2 1 = true := by
    rw [InBox_one, sz, sy, hvz, hvy]
    simpa using ⟨hz.1, hz.2, hy.1, hy.2⟩
  have hb2 : InBox (Vec4.add L1 (Vec4.smul
      (-(L1.x - B2.x) / ((((Vec4.add (Vec4.smul 500 vector_view) L1)).x - B2.x) - (L1.x - B2.x)))
      (Vec4.sub (Vec4.add (Vec4.smul 500 vector_view) L1) L1))) B1 B2 1 = true := by
    rw [InBox_one, tz, ty, hvz, hvy]
    simpa using ⟨hz.1, hz.2, hy.1, hy.2⟩
  have ny : 0 ≤ (L1.y - B1.y) * (((Vec4.add (Vec4.smul 500 vector_view) L1)).y - B1.y) := by
    rw [e2y]; exact mul_self_nonneg _
  have nz : 0 ≤ (L1.z - B1.z) * (((Vec4.add (Vec4.smul 500 vector_view) L1)).z - B1.z) := by
    rw [e2z]; exact mul_self_nonneg _
  by_cases hfar : L1.x + 500 * vector_view.x < B1.x
  · have hd1 : (L1.x - B1.x) * (((Vec4.add (Vec4.smul 500 vector_view) L1)).x - B1.x) < 0 := by
      rw [e2x]
      exact mul_neg_of_pos_of_neg (by linarith) (by linarith)
    have hE : CheckLineBox B1 B2 L1 vector_view Hit = (true, (Vec4.add L1 (Vec4.smul
      (-(L1.x - B1.x) / ((((Vec4.add (Vec4.smul 500 vector_view) L1)).x - B1.x) - (L1.x - B1.x)))
      (Vec4.sub (Vec4.add (Vec4.smul 500 vector_view) L1) L1)))) := by
      unfold CheckLineBox
      simp only []
      rw [if_neg (by intro h; linarith [h.1, h.2, e2x, e2y, e2z]),
      if_neg (by intro h; linarith [h.1, h.2, e2x, e2y, e2z]),
      if_neg (by intro h; linarith [h.1, h.2, e2x, e2y, e2z]),
      if_neg (by intro h; linarith [h.1, h.2, e2x, e2y, e2z]),
      if_neg (by intro h; linarith [h.1, h.2, e2x, e2y, e2z]),
      if_neg (by intro h; linarith [h.1, h.2, e2x, e2y, e2z]),
      if_neg (by intro h; linarith [h.1, h.2.1, h.2.2.1, h.2.2.2.1, h.2.2.2.2.1, h.2.2.2.2.2]),
      crossing_some _ _ _ _ _ _ _ _ hd1, if_pos hb1]
    rw [hE]
    refine ⟨rfl, ?_, ?_, fun _ => crossing_coord _ _ _ hd1, fun hc => absurd hfar (not_lt.2 hc)⟩
    · rw [sy, hvy]; simp
    · rw [sz, hvz]; simp
  · have hd1 : 0 ≤ (L1.x - B1.x) * (((Vec4.add (Vec4.smul 500 vector_view) L1)).x - B1.x) := by
      rw [e2x]
      exact mul_nonneg (by linarith) (by linarith)
    have hE : CheckLineBox B1 B2 L1 vector_view Hit = (true, (Vec4.add L1 (Vec4.smul
      (-(L1.x - B2.x) / ((((Vec4.add (Vec4.smul 500 vector_view) L1)).x - B2.x) - (L1.x - B2.x)))
      (Vec4.sub (Vec4.add (Vec4.smul 500 vector_view) L1) L1)))) := by
      unfold CheckLineBox
      simp only []
      rw [if_neg (by intro h; linarith [h.1, h.2, e2x, e2y, e2z]),
      if_neg (by intro h; linarith [h.1, h.2, e2x, e2y, e2z]),
      if_neg (by intro h; linarith [h.1, h.2, e2x, e2y, e2z]),
      if_neg (by intro h; linarith [h.1, h.2, e2x, e2y, e2z]),
      if_neg (by intro h; linarith [h.1, h.2, e2x, e2y, e2z]),
      if_neg (by intro h; linarith [h.1, h.2, e2x, e2y, e2z]),
      if_neg (by intro h; linarith [h.1, h.2.1, h.2.2.1, h.2.2.2.1, h.2.2.2.2.1, h.2.2.2.2.2]),
      crossing_none _ _ _ _ _ _ _ _ hd1, if_neg (by simp),
      crossing_none _ _ _ _ _ _ _ _ ny, if_neg (by simp),
      crossing_none _ _ _ _ _ _ _ _ nz, if_neg (by simp),
      crossing_some _ _ _ _ _ _ _ _ hd2, if_pos hb2]
    rw [hE]
    refine ⟨rfl, ?_, ?_, fun hc => absurd hc hfar, fun _ => crossing_coord _ _ _ hd2⟩
    · rw [ty, hvy]; simp
    · rw [tz, hvz]; simp

/-- A ray along `-y` aimed from outside at the face `y = B2.y`: the hit is on
the plane `y = B1.y` when the segment ends beyond it, on `y = B2.y` otherwise. -/
theorem CheckLineBox_face_y_max (B1 B2 L1 vector_view Hit : Vec4 α)
    (wy : B1.y ≤ B2.y) (hvx : vector_view.x = 0) (hvz : vector_view.z = 0)
    (hx : B1.x < L1.x ∧ L1.x < B2.x) (hz : B1.z < L1.z ∧ L1.z < B2.z)
    (ho : B2.y < L1.y) (hr : L1.y - B2.y < 500 * -vector_view.y) :
    (CheckLineBox B1 B2 L1 vector_view Hit).1 = true ∧
    (CheckLineBox B1 B2 L1 vector_view Hit).2.x = L1.x ∧
    (CheckLineBox B1 B2 L1 vector_view Hit).2.z = L1.z ∧
    (L1.y + 500 * vector_view.y < B1.y →
      (CheckLineBox B1 B2 L1 vector_view Hit).2.y = B1.y) ∧
    (B1.y ≤ L1.y + 500 * vector_view.y →
      (CheckLineBox B1 B2 L1 vector_view Hit).2.y = B2.y) := by
  have e2y : ((Vec4.add (Vec4.smul 500 vector_view) L1)).y = vector_view.y * 500 + L1.y := rfl
  have e2x : ((Vec4.add (Vec4.smul 500 vector_view) L1)).x = L1.x := by
    simp [Vec4.add, Vec4.smul, hvx]
  have e2z : ((Vec4.add (Vec4.smul 500 vector_view) L1)).z = L1.z := by
    simp [Vec4.add, Vec4.smul, hvz]
  have hd2 : (L1.y - B2.y) * (((Vec4.add (Vec4.smul 500 vector_view) L1)).y - B2.y) < 0 := by
    rw [e2y]
    exact mul_neg_of_pos_of_neg (by linarith) (by linarith)
  obtain ⟨sx, sy, sz⟩ := segment_point L1 vector_view
    (-(L1.y - B1.y) / ((((Vec4.add (Vec4.smul 500 vector_view) L1)).y - B1.y) - (L1.y - B1.y)))
  obtain ⟨tx, ty, tz⟩ := segment_point L1 vector_view
    (-(L1.y - B2.y) / ((((Vec4.add (Vec4.smul 500 vector_view) L1)).y - B2.y) - (L1.y - B2.y)))
  have hb1 : InBox (Vec4.add L1 (Vec4.smul
      (-(L1.y - B1.y) / ((((Vec4.add (Vec4.smul 500 vector_view) L1)).y - B1.y) - (L1.y - B1.y)))
      (Vec4.sub (Vec4.add (Vec4.smul 500 vector_view) L1) L1))) B1 B2 2 = true := by
    rw [InBox_two, sz, sx, hvz, hvx]
    simpa using ⟨hz.1, hz.2, hx.1, hx.2⟩
  have hb2 : InBox (Vec4.add L1 (Vec4.smul
      (-(L1.y - B2.y) / ((((Vec4.add (Vec4.smul 500 vector_view) L1)).y - B2.y) - (L1.y - B2.y)))
      (Vec4.sub (Vec4.add (Vec4.smul 500 vector_view) L1) L1))) B1 B2 2 = true := by
    rw [InBox_two, tz, tx, hvz, hvx]
    simpa using ⟨hz.1, hz.2, hx.1, hx.2⟩
  have nx : 0 ≤ (L1.x - B1.x) * (((Vec4.add (Vec4.smul 500 vector_view) L1)).x - B1.x) := by
    rw [e2x]; exact mul_self_nonneg _
  have nz : 0 ≤ (L1.z - B1.z) * (((Vec4.add (Vec4.smul 500 vector_view) L1)).z - B1.z) := by
    rw [e2z]; exact mul_self_nonneg _
  have mx : 0 ≤ (L1.x - B2.x) * (((Vec4.add (Vec4.smul 500 vector_view) L1)).x - B2.x) := by
    rw [e2x]; exact mul_self_nonneg _
  by_cases hfar : L1.y + 500 * vector_view.y < B1.y
  · have hd1 : (L1.y - B1.y) * (((Vec4.add (Vec4.smul 500 vector_view) L1)).y - B1.y) < 0 := by
      rw [e2y]
      exact mul_neg_of_pos_of_neg (by linarith) (by linarith)
    have hE : CheckLineBox B1 B2 L1 vector_view Hit = (true, (Vec4.add L1 (Vec4.smul
      (-(L1.y - B1.y) / ((((Vec4.add (Vec4.smul 500 vector_view) L1)).y - B1.y) - (L1.y - B1.y)))
      (Vec4.sub (Vec4.add (Vec4.smul 500 vector_view) L1) L1)))) := by
      unfold CheckLineBox
      simp only []
      rw [if_neg (by intro h; linarith [h.1, h.2, e2x, e2y, e2z]),
      if_neg (by intro h; linarith [h.1, h.2, e2x, e2y, e2z]),
      if_neg (by intro h; linarith [h.1, h.2, e2x, e2y, e2z]),
      if_neg (by intro h; linarith [h.1, h.2, e2x, e2y, e2z]),
      if_neg (by intro h; linarith [h.1, h.2, e2x, e2y, e2z]),
      if_neg (by intro h; linarith [h.1, h.2, e2x, e2y, e2z]),
      if_neg (by intro h; linarith [h.1, h.2.1, h.2.2.1, h.2.2.2.1, h.2.2.2.2.1, h.2.2.2.2.2]),
      crossing_none _ _ _ _ _ _ _ _ nx, if_neg (by simp),
      crossing_some _ _ _ _ _ _ _ _ hd1, if_pos hb1]
    rw [hE]
    refine ⟨rfl, ?_, ?_, fun _ => crossing_coord _ _ _ hd1, fun hc => absurd hfar (not_lt.2 hc)⟩
    · rw [sx, hvx]; simp
    · rw [sz, hvz]; simp
  · have hd1 : 0 ≤ (L1.y - B1.y) * (((Vec4.add (Vec4.smul 500 vector_view) L1)).y - B1.y) := by
      rw [e2y]
      exact mul_nonneg (by linarith) (by linarith)
    have hE : CheckLineBox B1 B2 L1 vector_view Hit = (true, (Vec4.add L1 (Vec4.smul
      (-(L1.y - B2.y) / ((((Vec4.add (Vec4.smul 500 vector_view) L1)).y - B2.y) - (L1.y - B2.y)))
      (Vec4.sub (Vec4.add (Vec4.smul 500 vector_view) L1) L1)))) := by
      unfold CheckLineBox
      simp only []
      rw [if_neg (by intro h; linarith [h.1, h.2, e2x, e2y, e2z]),
      if_neg (by intro h; linarith [h.1, h.2, e2x, e2y, e2z]),
      if_neg (by intro h; linarith [h.1, h.2, e2x, e2y, e2z]),
      if_neg (by intro h; linarith [h.1, h.2, e2x, e2y, e2z]),
      if_neg (by intro h; linarith [h.1, h.2, e2x, e2y, e2z]),
      if_neg (by intro h; linarith [h.1, h.2, e2x, e2y, e2z]),
      if_neg (by intro h; linarith [h.1, h.2.1, h.2.2.1, h.2.2.2.1, h.2.2.2.2.1, h.2.2.2.2.2]),
      crossing_none _ _ _ _ _ _ _ _ nx, if_neg (by simp),
      crossing_none _ _ _ _ _ _ _ _ hd1, if_neg (by simp),
      crossing_none _ _ _ _ _ _ _ _ nz, if_neg (by simp),
      crossing_none _ _ _ _ _ _ _ _ mx, if_neg (by simp),
      crossing_some _ _ _ _ _ _ _ _ hd2, if_pos hb2]
    rw [hE]
    refine ⟨rfl, ?_, ?_, fun hc => absurd hc hfar, fun _ => crossing_coord _ _ _ hd2⟩
    · rw [tx, hvx]; simp
    · rw [tz, hvz]; simp

/-- A ray along `-z` aimed from outside at the face `z = B2.z`: the hit is on
the plane `z = B1.z` when the segment ends beyond it, on `z = B2.z` otherwise. -/
theorem CheckLineBox_face_z_max (B1 B2 L1 vector_view Hit : Vec4 α)
    (wz : B1.z ≤ B2.z) (hvx : vector_view.x = 0) (hvy : vector_view.y = 0)
    (hx : B1.x < L1.x ∧ L1.x < B2.x) (hy : B1.y < L1.y ∧ L1.y < B2.y)
    (ho : B2.z < L1.z) (hr : L1.z - B2.z < 500 * -vector_view.z) :
    (CheckLineBox B1 B2 L1 vector_view Hit).1 = true ∧
    (CheckLineBox B1 B2 L1 vector_view Hit).2.x = L1.x ∧
    (CheckLineBox B1 B2 L1 vector_view Hit).2.y = L1.y ∧
    (L1.z + 500 * vector_view.z < B1.z →
      (CheckLineBox B1 B2 L1 vector_view Hit).2.z = B1.z) ∧
    (B1.z ≤ L1.z + 500 * vector_view.z →
      (CheckLineBox B1 B2 L1 vector_view Hit).2.z = B2.z) := by
  have e2z : ((Vec4.add (Vec4.smul 500 vector_view) L1)).z = vector_view.z * 500 + L1.z := rfl
  have e2x : ((Vec4.add (Vec4.smul 500 vector_view) L1)).x = L1.x := by
    simp [Vec4.add, Vec4.smul, hvx]
  have e2y : ((Vec4.add (Vec4.smul 500 vector_view) L1)).y = L1.y := by
    simp [Vec4.add, Vec4.smul, hvy]
  have hd2 : (L1.z - B2.z) * (((Vec4.add (Vec4.smul 500 vector_view) L1)).z - B2.z) < 0 := by
    rw [e2z]
    exact mul_neg_of_pos_of_neg (by linarith) (by linarith)
  obtain ⟨sx, sy, sz⟩ := segment_point L1 vector_view
    (-(L1.z - B1.z) / ((((Vec4.add (Vec4.smul 500 vector_view) L1)).z - B1.z) - (L1.z - B1.z)))
  obtain ⟨tx, ty, tz⟩ := segment_point L1 vector_view
    (-(L1.z - B2.z) / ((((Vec4.add (Vec4.smul 500 vector_view) L1)).z - B2.z) - (L1.z - B2.z)))
  have hb1 : InBox (Vec4.add L1 (Vec4.smul
      (-(L1.z - B1.z) / ((((Vec4.add (Vec4.smul 500 vector_view) L1)).z - B1.z) - (L1.z - B1.z)))
      (Vec4.sub (Vec4.add (Vec4.smul 500 vector_view) L1) L1))) B1 B2 3 = true := by
    rw [InBox_three, sx, sy, hvx, hvy]
    simpa using ⟨hx.1, hx.2, hy.1, hy.2⟩
  have hb2 : InBox (Vec4.add L1 (Vec4.smul
      (-(L1.z - B2.z) / ((((Vec4.add (Vec4.smul 500 vector_view) L1)).z - B2.z) - (L1.z - B2.z)))
      (Vec4.sub (Vec4.add (Vec4.smul 500 vector_view) L1) L1))) B1 B2 3 = true := by
    rw [InBox_three, tx, ty, hvx, hvy]
    simpa using ⟨hx.1, hx.2, hy.1, hy.2⟩
  have nx : 0 ≤ (L1.x - B1.x) * (((Vec4.add (Vec4.smul 500 vector_view) L1)).x - B1.x) := by
    rw [e2x]; exact mul_self_nonneg _
  have ny : 0 ≤ (L1.y - B1.y) * (((Vec4.add (Vec4.smul 500 vector_view) L1)).y - B1.y) := by
    rw [e2y]; exact mul_self_nonneg _
  have mx : 0 ≤ (L1.x - B2.x) * (((Vec4.add (Vec4.smul 500 vector_view) L1)).x - B2.x) := by
    rw [e2x]; exact mul_self_nonneg _
  have my : 0 ≤ (L1.y - B2.y) * (((Vec4.add (Vec4.smul 500 vector_view) L1)).y - B2.y) := by
    rw [e2y]; exact mul_self_nonneg _
  by_cases hfar : L1.z + 500 * vector_view.z < B1.z
  · have hd1 : (L1.z - B1.z) * (((Vec4.add (Vec4.smul 500 vector_view) L1)).z - B1.z) < 0 := by
      rw [e2z]
      exact mul_neg_of_pos_of_neg (by linarith) (by linarith)
    have hE : CheckLineBox B1 B2 L1 vector_view Hit = (true, (Vec4.add L1 (Vec4.smul
      (-(L1.z - B1.z) / ((((Vec4.add (Vec4.smul 500 vector_view) L1)).z - B1.z) - (L1.z - B1.z)))
      (Vec4.sub (Vec4.add (Vec4.smul 500 vector_view) L1) L1)))) := by
      unfold CheckLineBox
      simp only []
      rw [if_neg (by intro h; linarith [h.1, h.2, e2x, e2y, e2z]),
      if_neg (by intro h; linarith [h.1, h.2, e2x, e2y, e2z]),
      if_neg (by intro h; linarith [h.1, h.2, e2x, e2y, e2z]),
      if_neg (by intro h; linarith [h.1, h.2, e2x, e2y, e2z]),
      if_neg (by intro h; linarith [h.1, h.2, e2x, e2y, e2z]),
      if_neg (by intro h; linarith [h.1, h.2, e2x, e2y, e2z]),
      if_neg (by intro h; linarith [h.1, h.2.1, h.2.2.1, h.2.2.2.1, h.2.2.2.2.1, h.2.2.2.2.2]),
      crossing_none _ _ _ _ _ _ _ _ nx, if_neg (by simp),
      crossing_none _ _ _ _ _ _ _ _ ny, if_neg (by simp),
      crossing_some _ _ _ _ _ _ _ _ hd1, if_pos hb1]
    rw [hE]
    refine ⟨rfl, ?_, ?_, fun _ => crossing_coord _ _ _ hd1, fun hc => absurd hfar (not_lt.2 hc)⟩
    · rw [sx, hvx]; simp
    · rw [sy, hvy]; simp
  · have hd1 : 0 ≤ (L1.z - B1.z) * (((Vec4.add (Vec4.smul 500 vector_view) L1)).z - B1.z) := by
      rw [e2z]
      exact mul_nonneg (by linarith) (by linarith)
    have hE : CheckLineBox B1 B2 L1 vector_view Hit = (true, (Vec4.add L1 (Vec4.smul
      (-(L1.z - B2.z) / ((((Vec4.add (Vec4.smul 500 vector_view) L1)).z - B2.z) - (L1.z - B2.z)))
      (Vec4.sub (Vec4.add (Vec4.smul 500 vector_view) L1) L1)))) := by
      unfold CheckLineBox
      simp only []
      rw [if_neg (by intro h; linarith [h.1, h.2, e2x, e2y, e2z]),
      if_neg (by intro h; linarith [h.1, h.2, e2x, e2y, e2z]),
      if_neg (by intro h; linarith [h.1, h.2, e2x, e2y, e2z]),
      if_neg (by intro h; linarith [h.1, h.2, e2x, e2y, e2z]),
      if_neg (by intro h; linarith [h.1, h.2, e2x, e2y, e2z]),
      if_neg (by intro h; linarith [h.1, h.2, e2x, e2y, e2z]),
      if_neg (by intro h; linarith [h.1, h.2.1, h.2.2.1, h.2.2.2.1, h.2.2.2.2.1, h.2.2.2.2.2]),
      crossing_none _ _ _ _ _ _ _ _ nx, if_neg (by simp),
      crossing_none _ _ _ _ _ _ _ _ ny, if_neg (by simp),
      crossing_none _ _ _ _ _ _ _ _ hd1, if_neg (by simp),
      crossing_none _ _ _ _ _ _ _ _ mx, if_neg (by simp),
      crossing_none _ _ _ _ _ _ _ _ my, if_neg (by simp),
      crossing_some _ _ _ _ _ _ _ _ hd2, if_pos hb2]
    rw [hE]
    refine ⟨rfl, ?_, ?_, fun hc => absurd hc hfar, fun _ => crossing_coord _ _ _ hd2⟩
    · rw [tx, hvx]; simp
    · rw [ty, hvy]; simp

/-- C7, amended: take a box with `min ≤ max` on the normal axis of a face, and
a ray from outside, perpendicular to that face and pointing at it, whose other
two origin coordinates are strictly within the face and whose distance to the
face is below 500 times the direction's length.  `CheckLineBox` reports a hit
whose two in-face coordinates are the origin's.  The hit is on the face aimed at
when that face is a `min` face, or when the segment ends before the opposite
`min` plane; for a `max` face with the segment ending beyond the `min` plane the
hit is on the opposite `min` face. -/
theorem CheckLineBox_perpendicular_ray (B1 B2 L1 vector_view Hit : Vec4 α) :
    (B1.x ≤ B2.x → vector_view.y = 0 → vector_view.z = 0 →
      B1.y < L1.y ∧ L1.y < B2.y → B1.z < L1.z ∧ L1.z < B2.z →
      (L1.x < B1.x → B1.x - L1.x < 500 * vector_view.x →
        (CheckLineBox B1 B2 L1 vector_view Hit).1 = true ∧ (CheckLineBox B1 B2 L1 vector_view Hit).2.x = B1.x ∧
        (CheckLineBox B1 B2 L1 vector_view Hit).2.y = L1.y ∧ (CheckLineBox B1 B2 L1 vector_view Hit).2.z = L1.z) ∧
      (B2.x < L1.x → L1.x - B2.x < 500 * -vector_view.x →
        (CheckLineBox B1 B2 L1 vector_view Hit).1 = true ∧
        (CheckLineBox B1 B2 L1 vector_view Hit).2.y = L1.y ∧ (CheckLineBox B1 B2 L1 vector_view Hit).2.z = L1.z ∧
        (L1.x + 500 * vector_view.x < B1.x → (CheckLineBox B1 B2 L1 vector_view Hit).2.x = B1.x) ∧
        (B1.x ≤ L1.x + 500 * vector_view.x → (CheckLineBox B1 B2 L1 vector_view Hit).2.x = B2.x))) ∧
    (B1.y ≤ B2.y → vector_view.x = 0 → vector_view.z = 0 →
      B1.x < L1.x ∧ L1.x < B2.x → B1.z < L1.z ∧ L1.z < B2.z →
      (L1.y < B1.y → B1.y - L1.y < 500 * vector_view.y →
        (CheckLineBox B1 B2 L1 vector_view Hit).1 = true ∧ (CheckLineBox B1 B2 L1 vector_view Hit).2.y = B1.y ∧
        (CheckLineBox B1 B2 L1 vector_view Hit).2.x = L1.x ∧ (CheckLineBox B1 B2 L1 vector_view Hit).2.z = L1.z) ∧
      (B2.y < L1.y → L1.y - B2.y < 500 * -vector_view.y →
        (CheckLineBox B1 B2 L1 vector_view Hit).1 = true ∧
        (CheckLineBox B1 B2 L1 vector_view Hit).2.x = L1.x ∧ (CheckLineBox B1 B2 L1 vector_view Hit).2.z = L1.z ∧
        (L1.y + 500 * vector_view.y < B1.y → (CheckLineBox B1 B2 L1 vector_view Hit).2.y = B1.y) ∧
        (B1.y ≤ L1.y + 500 * vector_view.y → (CheckLineBox B1 B2 L1 vector_view Hit).2.y = B2.y))) ∧
    (B1.z ≤ B2.z → vector_view.x = 0 → vector_view.y = 0 →
      B1.x < L1.x ∧ L1.x < B2.x → B1.y < L1.y ∧ L1.y < B2.y →
      (L1.z < B1.z → B1.z - L1.z < 500 * vector_view.z →
        (CheckLineBox B1 B2 L1 vector_view Hit).1 = true ∧ (CheckLineBox B1 B2 L1 vector_view Hit).2.z = B1.z ∧
        (CheckLineBox B1 B2 L1 vector_view Hit).2.x = L1.x ∧ (CheckLineBox B1 B2 L1 vector_view Hit).2.y = L1.y) ∧
      (B2.z < L1.z → L1.z - B2.z < 500 * -vector_view.z →
        (CheckLineBox B1 B2 L1 vector_view Hit).1 = true ∧
        (CheckLineBox B1 B2 L1 vector_view Hit).2.x = L1.x ∧ (CheckLineBox B1 B2 L1 vector_view Hit).2.y = L1.y ∧
        (L1.z + 500 * vector_view.z < B1.z → (CheckLineBox B1 B2 L1 vector_view Hit).2.z = B1.z) ∧
        (B1.z ≤ L1.z + 500 * vector_view.z → (CheckLineBox B1 B2 L1 vector_view Hit).2.z = B2.z))) := by
  refine ⟨?_, ?_, ?_⟩
  · intro w h1 h2 b1 b2
    exact ⟨fun ho hr => CheckLineBox_face_x_min B1 B2 L1 vector_view Hit w h1 h2 b1 b2 ho hr,
      fun ho hr => CheckLineBox_face_x_max B1 B2 L1 vector_view Hit w h1 h2 b1 b2 ho hr⟩
  · intro w h1 h2 b1 b2
    exact ⟨fun ho hr => CheckLineBox_face_y_min B1 B2 L1 vector_view Hit w h1 h2 b1 b2 ho hr,
      fun ho hr => CheckLineBox_face_y_max B1 B2 L1 vector_view Hit w h1 h2 b1 b2 ho hr⟩
  · intro w h1 h2 b1 b2
    exact ⟨fun ho hr => CheckLineBox_face_z_min B1 B2 L1 vector_view Hit w h1 h2 b1 b2 ho hr,
      fun ho hr => CheckLineBox_face_z_max B1 B2 L1 vector_view Hit w h1 h2 b1 b2 ho hr⟩

/-- C7 amended, at the wall `z = 50` of the room seen from `(3, 2, 0)` along `+z`:
the hit is on the wall, straight ahead. -/
theorem CheckLineBox_perpendicular_ray_witness :
    (CheckLineBox (⟨-50, 0, 50, 0⟩ : Vec4 ℚ) ⟨50, 5, 50, 0⟩ ⟨3, 2, 0, 1⟩ ⟨0, 0, 1, 0⟩
      ⟨7, 7, 7, 7⟩).1 = true ∧
    (CheckLineBox (⟨-50, 0, 50, 0⟩ : Vec4 ℚ) ⟨50, 5, 50, 0⟩ ⟨3, 2, 0, 1⟩ ⟨0, 0, 1, 0⟩
      ⟨7, 7, 7, 7⟩).2.z = 50 ∧
    (CheckLineBox (⟨-50, 0, 50, 0⟩ : Vec4 ℚ) ⟨50, 5, 50, 0⟩ ⟨3, 2, 0, 1⟩ ⟨0, 0, 1, 0⟩
      ⟨7, 7, 7, 7⟩).2.x = 3 ∧
    (CheckLineBox (⟨-50, 0, 50, 0⟩ : Vec4 ℚ) ⟨50, 5, 50, 0⟩ ⟨3, 2, 0, 1⟩ ⟨0, 0, 1, 0⟩
      ⟨7, 7, 7, 7⟩).2.y = 2 :=
  ((CheckLineBox_perpendicular_ray (⟨-50, 0, 50, 0⟩ : Vec4 ℚ) ⟨50, 5, 50, 0⟩ ⟨3, 2, 0, 1⟩
    ⟨0, 0, 1, 0⟩ ⟨7, 7, 7, 7⟩).2.2 (le_refl _) rfl rfl (by norm_num) (by norm_num)).1
    (by norm_num) (by norm_num)

end RayFacts

section PlacementFacts

variable {α : Type} [LinearOrderedField α]

/-- Right after a placement at `time` the cooldown test at the same `time` fails. -/
theorem cooldown_just_set (time : α) (b : Bool) : ¬ (time - time > 0.5 ∧ b = true) := by
  rintro ⟨h, _⟩
  rw [sub_self] at h
  norm_num at h

/-- The Portal-1 test on the prop box: what it writes to Portal 1. -/
theorem placePortal1OnCube_portal1 (cos : α → α) (M_PI time : α) (left : Bool)
    (view : Vec4 α) (g : Globals α) (point : Vec4 α) :
    portal1State (placePortal1OnCube cos M_PI time left view g point).1 =
      if time - g.lastPortal1Time > 0.5 ∧ left = true then
        if (CheckLineBox (cubeIn g.cubePosition).bbox_min (cubeIn g.cubePosition).bbox_max
            g.camera_position_c view point).1 = true then
          (true, true, decalBox cos M_PI (cubeIn g.cubePosition).angle
            (cubeIn g.cubePosition).bbox_min
            (CheckLineBox (cubeIn g.cubePosition).bbox_min (cubeIn g.cubePosition).bbox_max
              g.camera_position_c view point).2, time)
        else portal1State g
      else portal1State g := by
  unfold placePortal1OnCube
  simp only []
  split_ifs <;> rfl

/-- The Portal-1 test on the prop box: what it leaves alone. -/
theorem placePortal1OnCube_frame (cos : α → α) (M_PI time : α) (left : Bool)
    (view : Vec4 α) (g : Globals α) (point : Vec4 α) :
    (placePortal1OnCube cos M_PI time left view g point).1.camera_position_c =
      g.camera_position_c ∧
    (placePortal1OnCube cos M_PI time left view g point).1.cubePosition = g.cubePosition ∧
    portal2State (placePortal1OnCube cos M_PI time left view g point).1 = portal2State g := by
  unfold placePortal1OnCube
  simp only []
  split_ifs <;> exact ⟨rfl, rfl, rfl⟩

/-- The Portal-2 test on the prop box: what it leaves alone. -/
theorem placePortal2OnCube_frame (cos : α → α) (M_PI time : α) (right : Bool)
    (view : Vec4 α) (g : Globals α) (point : Vec4 α) :
    (placePortal2OnCube cos M_PI time right view g point).1.camera_position_c =
      g.camera_position_c ∧
    (placePortal2OnCube cos M_PI time right view g point).1.cubePosition = g.cubePosition ∧
    portal1State (placePortal2OnCube cos M_PI time right view g point).1 = portal1State g := by
  unfold placePortal2OnCube
  simp only []
  split_ifs <;> exact ⟨rfl, rfl, rfl⟩

/-- The Portal-2 test on the prop box does nothing during the cooldown. -/
theorem placePortal2OnCube_blocked (cos : α → α) (M_PI time : α) (right : Bool)
    (view : Vec4 α) (g : Globals α) (point : Vec4 α)
    (h : ¬ (time - g.lastPortal2Time > 0.5 ∧ right = true)) :
    (placePortal2OnCube cos M_PI time right view g point).1 = g := by
  unfold placePortal2OnCube
  simp only []
  rw [if_neg h]

/-- One loop iteration: what it writes to Portal 1. -/
theorem wallIteration_portal1 (cos : α → α) (atan2 : α → α → α) (M_PI time : α)
    (left right : Bool) (view point : Vec4 α) (g : Globals α) (wall : bbox α) :
    portal1State (wallIteration cos atan2 M_PI time left right view point g wall) =
      if time - g.lastPortal1Time > 0.5 ∧ left = true then
        if (CheckLineBox wall.bbox_min wall.bbox_max g.camera_position_c view point).1 = true then
          (true, false, decalBox cos M_PI wall.angle wall.bbox_min
            (CheckLineBox wall.bbox_min wall.bbox_max g.camera_position_c view point).2, time)
        else portal1State g
      else portal1State g := by
  unfold wallIteration placePortal2OnWall placePortal1OnWall
  simp only []
  split_ifs <;> rfl

/-- One loop iteration: it moves neither the camera nor the prop. -/
theorem wallIteration_frame (cos : α → α) (atan2 : α → α → α) (M_PI time : α)
    (left right : Bool) (view point : Vec4 α) (g : Globals α) (wall : bbox α) :
    (wallIteration cos atan2 M_PI time left right view point g wall).camera_position_c =
      g.camera_position_c ∧
    (wallIteration cos atan2 M_PI time left right view point g wall).cubePosition =
      g.cubePosition := by
  unfold wallIteration placePortal2OnWall placePortal1OnWall
  simp only []
  split_ifs <;> exact ⟨rfl, rfl⟩

/-- One loop iteration does nothing to Portal 2 during its cooldown. -/
theorem wallIteration_portal2_blocked (cos : α → α) (atan2 : α → α → α) (M_PI time : α)
    (left right : Bool) (view point : Vec4 α) (g : Globals α) (wall : bbox α)
    (h : ¬ (time - g.lastPortal2Time > 0.5 ∧ right = true)) :
    portal2State (wallIteration cos atan2 M_PI time left right view point g wall) =
      portal2State g := by
  have h2 : ¬ (time - (placePortal1OnWall cos M_PI time left view wall g point).1.lastPortal2Time
      > 0.5 ∧ right = true) := by
    unfold placePortal1OnWall
    simp only []
    split_ifs <;> exact h
  unfold wallIteration placePortal2OnWall
  simp only []
  rw [if_neg h2]
  unfold placePortal1OnWall
  simp only []
  split_ifs <;> rfl

/-- The loop over `portalList` moves neither the camera nor the prop. -/
theorem wallLoop_frame (cos : α → α) (atan2 : α → α → α) (M_PI time : α)
    (left right : Bool) (view point : Vec4 α) (ws : List (bbox α)) (g : Globals α) :
    (ws.foldl (wallIteration cos atan2 M_PI time left right view point) g).camera_position_c =
      g.camera_position_c ∧
    (ws.foldl (wallIteration cos atan2 M_PI time left right view point) g).cubePosition =
      g.cubePosition := by
  induction ws generalizing g with
  | nil => exact ⟨rfl, rfl⟩
  | cons w t ih =>
    rw [List.foldl_cons]
    obtain ⟨h1, h2⟩ := ih (wallIteration cos atan2 M_PI time left right view point g w)
    obtain ⟨h3, h4⟩ := wallIteration_frame cos atan2 M_PI time left right view point g w
    exact ⟨h1.trans h3, h2.trans h4⟩

/-- The loop over `portalList`: what it writes to Portal 1.  Only the first wall
that the ray hits is used, and only when the cooldown has elapsed. -/
theorem wallLoop_portal1 (cos : α → α) (atan2 : α → α → α) (M_PI time : α)
    (left right : Bool) (view point : Vec4 α) (ws : List (bbox α)) (g : Globals α) :
    portal1State (ws.foldl (wallIteration cos atan2 M_PI time left right view point) g) =
      if time - g.lastPortal1Time > 0.5 ∧ left = true then
        match firstHit g.camera_position_c view point ws with
        | some (w, p) => (true, false, decalBox cos M_PI w.angle w.bbox_min p, time)
        | none => portal1State g
      else portal1State g := by
  induction ws generalizing g with
  | nil => simp [firstHit]
  | cons w t ih =>
    rw [List.foldl_cons, ih]
    have hl : (wallIteration cos atan2 M_PI time left right view point g w).lastPortal1Time =
        (portal1State (wallIteration cos atan2 M_PI time left right view point g w)).2.2.2 := rfl
    rw [hl, (wallIteration_frame cos atan2 M_PI time left right view point g w).1,
      wallIteration_portal1]
    by_cases hc : time - g.lastPortal1Time > 0.5 ∧ left = true
    · by_cases hh : (CheckLineBox w.bbox_min w.bbox_max g.camera_position_c view point).1 = true
      · simp only [if_pos hc, if_pos hh, firstHit]
        rw [if_neg (cooldown_just_set time left)]
      · simp only [if_pos hc, if_neg hh, firstHit]
        have hl2 : (portal1State g).2.2.2 = g.lastPortal1Time := rfl
        rw [hl2, if_pos hc]
    · simp only [if_neg hc]
      have hl2 : (portal1State g).2.2.2 = g.lastPortal1Time := rfl
      rw [hl2, if_neg hc]

/-- The loop over `portalList` does nothing to Portal 2 during its cooldown. -/
theorem wallLoop_portal2_blocked (cos : α → α) (atan2 : α → α → α) (M_PI time : α)
    (left right : Bool) (view point : Vec4 α) (ws : List (bbox α)) (g : Globals α)
    (h : ¬ (time - g.lastPortal2Time > 0.5 ∧ right = true)) :
    portal2State (ws.foldl (wallIteration cos atan2 M_PI time left right view point) g) =
      portal2State g := by
  induction ws generalizing g with
  | nil => rfl
  | cons w t ih =>
    rw [List.foldl_cons]
    have hs := wallIteration_portal2_blocked cos atan2 M_PI time left right view point g w h
    have hl : (wallIteration cos atan2 M_PI time left right view point g w).lastPortal2Time =
        g.lastPortal2Time := congrArg (fun q => q.2.2.2) hs
    rw [ih _ (by rw [hl]; exact h), hs]

/-- The placement step: what it writes to Portal 1.  With the trigger held and
the cooldown elapsed, Portal 1 is placed on the prop when the ray hits the prop
box, else on the first wall of `portalList` that the ray hits; otherwise Portal 1
is left as it was. -/
theorem placementStep_portal1 (cos : α → α) (atan2 : α → α → α) (M_PI time : α)
    (left right : Bool) (view : Vec4 α) (ws : List (bbox α)) (point : Vec4 α) (g : Globals α) :
    portal1State (placementStep cos atan2 M_PI time left right view ws point g) =
      if time - g.lastPortal1Time > 0.5 ∧ left = true then
        if (CheckLineBox (cubeIn g.cubePosition).bbox_min (cubeIn g.cubePosition).bbox_max
            g.camera_position_c view point).1 = true then
          (true, true, decalBox cos M_PI (cubeIn g.cubePosition).angle
            (cubeIn g.cubePosition).bbox_min
            (CheckLineBox (cubeIn g.cubePosition).bbox_min (cubeIn g.cubePosition).bbox_max
              g.camera_position_c view point).2, time)
        else
          match firstHit g.camera_position_c view point ws with
          | some (w, p) => (true, false, decalBox cos M_PI w.angle w.bbox_min p, time)
          | none => portal1State g
      else portal1State g := by
  unfold placementStep
  simp only []
  rw [wallLoop_portal1]
  obtain ⟨c2, _, p2⟩ := placePortal2OnCube_frame cos M_PI time right view
    (placePortal1OnCube cos M_PI time left view g point).1
    (placePortal1OnCube cos M_PI time left view g point).2
  obtain ⟨c1, _, _⟩ := placePortal1OnCube_frame cos M_PI time left view g point
  have hl : (placePortal2OnCube cos M_PI time right view
      (placePortal1OnCube cos M_PI time left view g point).1
      (placePortal1OnCube cos M_PI time left view g point).2).1.lastPortal1Time =
      (portal1State (placePortal1OnCube cos M_PI time left view g point).1).2.2.2 :=
    congrArg (fun q => q.2.2.2) p2
  rw [hl, c2, c1, p2, placePortal1OnCube_portal1]
  by_cases hc : time - g.lastPortal1Time > 0.5 ∧ left = true
  · by_cases hh : (CheckLineBox (cubeIn g.cubePosition).bbox_min
        (cubeIn g.cubePosition).bbox_max g.camera_position_c view point).1 = true
    · simp only [if_pos hc, if_pos hh]
      rw [if_neg (cooldown_just_set time left)]
    · simp only [if_pos hc, if_neg hh]
      have hl2 : (portal1State g).2.2.2 = g.lastPortal1Time := rfl
      rw [hl2, if_pos hc]
  · simp only [if_neg hc]
    have hl2 : (portal1State g).2.2.2 = g.lastPortal1Time := rfl
    rw [hl2, if_neg hc]

/-- The placement step does nothing to Portal 2 during its cooldown. -/
theorem placementStep_portal2_blocked (cos : α → α) (atan2 : α → α → α) (M_PI time : α)
    (left right : Bool) (view : Vec4 α) (ws : List (bbox α)) (point : Vec4 α) (g : Globals α)
    (h : ¬ (time - g.lastPortal2Time > 0.5 ∧ right = true)) :
    portal2State (placementStep cos atan2 M_PI time left right view ws point g) =
      portal2State g := by
  unfold placementStep
  simp only []
  obtain ⟨_, _, p1⟩ := placePortal1OnCube_frame cos M_PI time left view g point
  have hl : (placePortal1OnCube cos M_PI time left view g point).1.lastPortal2Time =
      g.lastPortal2Time := congrArg (fun q => q.2.2.2) p1
  have h1 : ¬ (time - (placePortal1OnCube cos M_PI time left view g point).1.lastPortal2Time
      > 0.5 ∧ right = true) := by rw [hl]; exact h
  rw [placePortal2OnCube_blocked cos M_PI time right view _ _ h1,
    wallLoop_portal2_blocked cos atan2 M_PI time left right view point ws _ h1, p1]

/-- The Portal-1 test on a wall: what it leaves alone. -/
theorem placePortal1OnWall_frame (cos : α → α) (M_PI time : α) (left : Bool)
    (view : Vec4 α) (wall : bbox α) (g : Globals α) (point : Vec4 α) :
    (placePortal1OnWall cos M_PI time left view wall g point).1.camera_position_c =
      g.camera_position_c ∧
    (placePortal1OnWall cos M_PI time left view wall g point).1.cubePosition = g.cubePosition ∧
    portal2State (placePortal1OnWall cos M_PI time left view wall g point).1 =
      portal2State g := by
  unfold placePortal1OnWall
  simp only []
  split_ifs <;> exact ⟨rfl, rfl, rfl⟩

/-- The Portal-2 test on the prop box: what it writes to Portal 2.  The ray test
may be read with any previous content `H` of `point`. -/
theorem placePortal2OnCube_portal2 (cos : α → α) (M_PI time : α) (right : Bool)
    (view : Vec4 α) (g : Globals α) (point H : Vec4 α) :
    portal2State (placePortal2OnCube cos M_PI time right view g point).1 =
      if time - g.lastPortal2Time > 0.5 ∧ right = true then
        if (CheckLineBox (cubeIn g.cubePosition).bbox_min (cubeIn g.cubePosition).bbox_max
            g.camera_position_c view H).1 = true then
          (true, true, decalBox cos M_PI (cubeIn g.cubePosition).angle
            (cubeIn g.cubePosition).bbox_min
            (CheckLineBox (cubeIn g.cubePosition).bbox_min (cubeIn g.cubePosition).bbox_max
              g.camera_position_c view H).2, time)
        else portal2State g
      else portal2State g := by
  rw [CheckLineBox_fst_irrel _ _ _ _ H point]
  by_cases hh : (CheckLineBox (cubeIn g.cubePosition).bbox_min
      (cubeIn g.cubePosition).bbox_max g.camera_position_c view point).1 = true
  · rw [← CheckLineBox_hit_irrel _ _ _ _ point H hh]
    unfold placePortal2OnCube
    simp only []
    split_ifs <;> rfl
  · unfold placePortal2OnCube
    simp only []
    split_ifs <;> rfl

/-- One loop iteration: what it writes to Portal 2. -/
theorem wallIteration_portal2 (cos : α → α) (atan2 : α → α → α) (M_PI time : α)
    (left right : Bool) (view point : Vec4 α) (g : Globals α) (wall : bbox α) :
    portal2State (wallIteration cos atan2 M_PI time left right view point g wall) =
      if time - g.lastPortal2Time > 0.5 ∧ right = true then
        if (CheckLineBox wall.bbox_min wall.bbox_max g.camera_position_c view point).1 = true then
          (true, false, decalBox cos M_PI (boxAngle atan2 wall.bbox_min wall.bbox_max)
            wall.bbox_min
            (CheckLineBox wall.bbox_min wall.bbox_max g.camera_position_c view point).2, time)
        else portal2State g
      else portal2State g := by
  obtain ⟨c1, _, p1⟩ := placePortal1OnWall_frame cos M_PI time left view wall g point
  have hl : (placePortal1OnWall cos M_PI time left view wall g point).1.lastPortal2Time =
      g.lastPortal2Time := congrArg (fun q => q.2.2.2) p1
  have key : portal2State (wallIteration cos atan2 M_PI time left right view point g wall) =
      if time - g.lastPortal2Time > 0.5 ∧ right = true then
        if (CheckLineBox wall.bbox_min wall.bbox_max g.camera_position_c view
            (placePortal1OnWall cos M_PI time left view wall g point).2).1 = true then
          (true, false, decalBox cos M_PI (boxAngle atan2 wall.bbox_min wall.bbox_max)
            wall.bbox_min
            (CheckLineBox wall.bbox_min wall.bbox_max g.camera_position_c view
              (placePortal1OnWall cos M_PI time left view wall g point).2).2, time)
        else portal2State g
      else portal2State g := by
    rw [← hl, ← c1, ← p1]
    unfold wallIteration placePortal2OnWall
    simp only []
    split_ifs <;> rfl
  rw [key, CheckLineBox_fst_irrel _ _ _ _
    (placePortal1OnWall cos M_PI time left view wall g point).2 point]
  by_cases hh : (CheckLineBox wall.bbox_min wall.bbox_max g.camera_position_c view point).1 = true
  · rw [← CheckLineBox_hit_irrel _ _ _ _ point
      (placePortal1OnWall cos M_PI time left view wall g point).2 hh]
  · rw [if_neg hh, if_neg hh]

/-- The first wall of a list that the ray hits, as Portal 2 uses it: the angle
is recomputed with `boxAngle`. -/
theorem wallLoop_portal2 (cos : α → α) (atan2 : α → α → α) (M_PI time : α)
    (left right : Bool) (view point : Vec4 α) (ws : List (bbox α)) (g : Globals α) :
    portal2State (ws.foldl (wallIteration cos atan2 M_PI time left right view point) g) =
      if time - g.lastPortal2Time > 0.5 ∧ right = true then
        match firstHit g.camera_position_c view point ws with
        | some (w, p) =>
          (true, false, decalBox cos M_PI (boxAngle atan2 w.bbox_min w.bbox_max) w.bbox_min p,
            time)
        | none => portal2State g
      else portal2State g := by
  induction ws generalizing g with
  | nil => simp [firstHit]
  | cons w t ih =>
    rw [List.foldl_cons, ih]
    have hl : (wallIteration cos atan2 M_PI time left right view point g w).lastPortal2Time =
        (portal2State (wallIteration cos atan2 M_PI time left right view point g w)).2.2.2 := rfl
    rw [hl, (wallIteration_frame cos atan2 M_PI time left right view point g w).1,
      wallIteration_portal2]
    have hl2 : (portal2State g).2.2.2 = g.lastPortal2Time := rfl
    by_cases hc : time - g.lastPortal2Time > 0.5 ∧ right = true
    · by_cases hh : (CheckLineBox w.bbox_min w.bbox_max g.camera_position_c view point).1 = true
      · simp only [if_pos hc, if_pos hh, firstHit]
        rw [if_neg (cooldown_just_set time right)]
      · simp only [if_pos hc, if_neg hh, firstHit]
        rw [hl2, if_pos hc]
    · simp only [if_neg hc]
      rw [hl2, if_neg hc]

/-- The placement step: what it writes to Portal 2.  With the trigger held and
the cooldown elapsed, Portal 2 is placed on the prop when the ray hits the prop
box, else on the first wall of `portalList` that the ray hits; otherwise Portal 2
is left as it was. -/
theorem placementStep_portal2 (cos : α → α) (atan2 : α → α → α) (M_PI time : α)
    (left right : Bool) (view : Vec4 α) (ws : List (bbox α)) (point : Vec4 α) (g : Globals α) :
    portal2State (placementStep cos atan2 M_PI time left right view ws point g) =
      if time - g.lastPortal2Time > 0.5 ∧ right = true then
        if (CheckLineBox (cubeIn g.cubePosition).bbox_min (cubeIn g.cubePosition).bbox_max
            g.camera_position_c view point).1 = true then
          (true, true, decalBox cos M_PI (cubeIn g.cubePosition).angle
            (cubeIn g.cubePosition).bbox_min
            (CheckLineBox (cubeIn g.cubePosition).bbox_min (cubeIn g.cubePosition).bbox_max
              g.camera_position_c view point).2, time)
        else
          match firstHit g.camera_position_c view point ws with
          | some (w, p) =>
            (true, false, decalBox cos M_PI (boxAngle atan2 w.bbox_min w.bbox_max) w.bbox_min p,
              time)
          | none => portal2State g
      else portal2State g := by
  unfold placementStep
  simp only []
  rw [wallLoop_portal2]
  obtain ⟨c2, _, _⟩ := placePortal2OnCube_frame cos M_PI time right view
    (placePortal1OnCube cos M_PI time left view g point).1
    (placePortal1OnCube cos M_PI time left view g point).2
  obtain ⟨c1, q1, p1⟩ := placePortal1OnCube_frame cos M_PI time left view g point
  have hl : (placePortal2OnCube cos M_PI time right view
      (placePortal1OnCube cos M_PI time left view g point).1
      (placePortal1OnCube cos M_PI time left view g point).2).1.lastPortal2Time =
      (portal2State (placePortal2OnCube cos M_PI time right view
        (placePortal1OnCube cos M_PI time left view g point).1
        (placePortal1OnCube cos M_PI time left view g point).2).1).2.2.2 := rfl
  have hl1 : (placePortal1OnCube cos M_PI time left view g point).1.lastPortal2Time =
      g.lastPortal2Time := congrArg (fun q => q.2.2.2) p1
  rw [hl, c2, c1, placePortal2OnCube_portal2 cos M_PI time right view _ _ point, hl1, c1, q1, p1]
  have hl2 : (portal2State g).2.2.2 = g.lastPortal2Time := rfl
  by_cases hc : time - g.lastPortal2Time > 0.5 ∧ right = true
  · by_cases hh : (CheckLineBox (cubeIn g.cubePosition).bbox_min
        (cubeIn g.cubePosition).bbox_max g.camera_position_c view point).1 = true
    · simp only [if_pos hc, if_pos hh]
      rw [if_neg (cooldown_just_set time right)]
    · simp only [if_pos hc, if_neg hh]
      rw [hl2, if_pos hc]
  · simp only [if_neg hc]
    rw [hl2, if_neg hc]

/-- A candidate that the ray hits makes `firstHit` succeed, and what it returns
is a candidate of the list together with the hit point of the ray on it. -/
theorem firstHit_spec (L1 view point : Vec4 α) (l : List (bbox α)) :
    ((∃ c ∈ l, (CheckLineBox c.bbox_min c.bbox_max L1 view point).1 = true) →
      ∃ c p, firstHit L1 view point l = some (c, p)) ∧
    (∀ c p, firstHit L1 view point l = some (c, p) →
      c ∈ l ∧ CheckLineBox c.bbox_min c.bbox_max L1 view point = (true, p)) := by
  induction l with
  | nil =>
    refine ⟨?_, ?_⟩
    · rintro ⟨c, hc, _⟩
      cases hc
    · intro c p h
      simp [firstHit] at h
  | cons d t ih =>
    by_cases hd : (CheckLineBox d.bbox_min d.bbox_max L1 view point).1 = true
    · refine ⟨fun _ => ⟨d, (CheckLineBox d.bbox_min d.bbox_max L1 view point).2, ?_⟩, ?_⟩
      · simp [firstHit, hd]
      · intro c p h
        simp only [firstHit, hd, if_true, Option.some.injEq, Prod.mk.injEq] at h
        obtain ⟨rfl, rfl⟩ := h
        exact ⟨List.mem_cons_self _ _, Prod.ext hd rfl⟩
    · refine ⟨?_, ?_⟩
      · rintro ⟨c, hc, hh⟩
        rcases List.mem_cons.1 hc with rfl | hm
        · exact absurd hh hd
        · obtain ⟨c', p', h'⟩ := ih.1 ⟨c, hm, hh⟩
          exact ⟨c', p', by simp [firstHit, hd, h']⟩
      · intro c p h
        simp only [firstHit, hd] at h
        obtain ⟨hm, he⟩ := ih.2 c p h
        exact ⟨List.mem_cons_of_mem _ hm, he⟩

/-- C9: in a state whose Portal-1 timer holds `t0` (the timer is written only
by a successful placement, with that frame's time), a placement step at a time
`t` with `t - t0 < 0.5` leaves Portal 1's decal box with its angle, created
flag, anchored flag and timer as they were, whatever the buttons, the camera,
the aim and the candidate walls; the same holds for Portal 2. -/
theorem placementStep_within_cooldown (cos : α → α) (atan2 : α → α → α) (M_PI time : α)
    (left right : Bool) (view : Vec4 α) (ws : List (bbox α)) (point : Vec4 α) (g : Globals α)
    (t0 : α) :
    (g.lastPortal1Time = t0 → time - t0 < 0.5 →
      (placementStep cos atan2 M_PI time left right view ws point g).Portal1Bbox =
        g.Portal1Bbox ∧
      (placementStep cos atan2 M_PI time left right view ws point g).Portal1Created =
        g.Portal1Created ∧
      (placementStep cos atan2 M_PI time left right view ws point g).Portal1OnCube =
        g.Portal1OnCube ∧
      (placementStep cos atan2 M_PI time left right view ws point g).lastPortal1Time = t0) ∧
    (g.lastPortal2Time = t0 → time - t0 < 0.5 →
      (placementStep cos atan2 M_PI time left right view ws point g).Portal2Bbox =
        g.Portal2Bbox ∧
      (placementStep cos atan2 M_PI time left right view ws point g).Portal2Created =
        g.Portal2Created ∧
      (placementStep cos atan2 M_PI time left right view ws point g).Portal2OnCube =
        g.Portal2OnCube ∧
      (placementStep cos atan2 M_PI time left right view ws point g).lastPortal2Time = t0) := by
  constructor
  · intro h0 ht
    have hc : ¬ (time - g.lastPortal1Time > 0.5 ∧ left = true) := by
      rw [h0]
      intro h
      exact absurd h.1 (not_lt.2 ht.le)
    have hs := placementStep_portal1 cos atan2 M_PI time left right view ws point g
    rw [if_neg hc] at hs
    exact ⟨congrArg (fun q => q.2.2.1) hs, congrArg (fun q => q.1) hs,
      congrArg (fun q => q.2.1) hs, (congrArg (fun q => q.2.2.2) hs).trans h0⟩
  · intro h0 ht
    have hc : ¬ (time - g.lastPortal2Time > 0.5 ∧ right = true) := by
      rw [h0]
      intro h
      exact absurd h.1 (not_lt.2 ht.le)
    have hs := placementStep_portal2_blocked cos atan2 M_PI time left right view ws point g hc
    exact ⟨congrArg (fun q => q.2.2.1) hs, congrArg (fun q => q.1) hs,
      congrArg (fun q => q.2.1) hs, (congrArg (fun q => q.2.2.2) hs).trans h0⟩

/-- C9 at a concrete state: Portal 1 was placed on the wall `z = 50` at time 1;
at time 1.2 the trigger is held again with the camera at `(3, 2, 0)` looking
along `+z`, an aim that hits the same wall elsewhere: Portal 1 is not moved. -/
theorem placementStep_within_cooldown_witness :
    (placementStep Real.cos (fun y x => Complex.arg ⟨x, y⟩) Real.pi (6 / 5) true true
      ⟨0, 0, 1, 0⟩ (portalList (fun y x => Complex.arg ⟨x, y⟩)) ⟨0, 0, 0, 0⟩
      (portalsOnWalls (0 : ℝ) (Real.pi / 2) ⟨3, 2, 0, 1⟩)).Portal1Bbox =
      (portalsOnWalls (0 : ℝ) (Real.pi / 2) ⟨3, 2, 0, 1⟩).Portal1Bbox ∧
    (placementStep Real.cos (fun y x => Complex.arg ⟨x, y⟩) Real.pi (6 / 5) true true
      ⟨0, 0, 1, 0⟩ (portalList (fun y x => Complex.arg ⟨x, y⟩)) ⟨0, 0, 0, 0⟩
      (portalsOnWalls (0 : ℝ) (Real.pi / 2) ⟨3, 2, 0, 1⟩)).Portal1Created =
      (portalsOnWalls (0 : ℝ) (Real.pi / 2) ⟨3, 2, 0, 1⟩).Portal1Created ∧
    (placementStep Real.cos (fun y x => Complex.arg ⟨x, y⟩) Real.pi (6 / 5) true true
      ⟨0, 0, 1, 0⟩ (portalList (fun y x => Complex.arg ⟨x, y⟩)) ⟨0, 0, 0, 0⟩
      (portalsOnWalls (0 : ℝ) (Real.pi / 2) ⟨3, 2, 0, 1⟩)).Portal1OnCube =
      (portalsOnWalls (0 : ℝ) (Real.pi / 2) ⟨3, 2, 0, 1⟩).Portal1OnCube ∧
    (placementStep Real.cos (fun y x => Complex.arg ⟨x, y⟩) Real.pi (6 / 5) true true
      ⟨0, 0, 1, 0⟩ (portalList (fun y x => Complex.arg ⟨x, y⟩)) ⟨0, 0, 0, 0⟩
      (portalsOnWalls (0 : ℝ) (Real.pi / 2) ⟨3, 2, 0, 1⟩)).lastPortal1Time = 1 :=
  (placementStep_within_cooldown Real.cos (fun y x => Complex.arg ⟨x, y⟩) Real.pi (6 / 5) true true
    ⟨0, 0, 1, 0⟩ (portalList (fun y x => Complex.arg ⟨x, y⟩)) ⟨0, 0, 0, 0⟩
    (portalsOnWalls (0 : ℝ) (Real.pi / 2) ⟨3, 2, 0, 1⟩) 1).1 rfl (by norm_num)

/-- C10, the claim fails at exactly 0.5: Portal 1 was placed at time 1 at
`x = 0` on the wall `z = 50`; at time 1.5 the trigger is held with the camera at
`(3, 2, 0)` looking along `+z`, and the ray hits `wall3` at `x = 3`.  The
placement step does not take effect: the timer stays at 1 and the decal box
stays at `x = 0`. -/
theorem placementStep_at_half_second :
    (portalsOnWalls (0 : ℝ) (Real.pi / 2) ⟨3, 2, 0, 1⟩).lastPortal1Time = 1 ∧
    (3 / 2 : ℝ) - 1 ≥ 0.5 ∧
    wall3 (fun y x => Complex.arg ⟨x, y⟩) ∈
      cubeIn (portalsOnWalls (0 : ℝ) (Real.pi / 2) ⟨3, 2, 0, 1⟩).cubePosition ::
        portalList (fun y x => Complex.arg ⟨x, y⟩) ∧
    (CheckLineBox (wall3 (fun y x => Complex.arg ⟨x, y⟩)).bbox_min
      (wall3 (fun y x => Complex.arg ⟨x, y⟩)).bbox_max
      (portalsOnWalls (0 : ℝ) (Real.pi / 2) ⟨3, 2, 0, 1⟩).camera_position_c ⟨0, 0, 1, 0⟩
      ⟨0, 0, 0, 0⟩).1 = true ∧
    (CheckLineBox (wall3 (fun y x => Complex.arg ⟨x, y⟩)).bbox_min
      (wall3 (fun y x => Complex.arg ⟨x, y⟩)).bbox_max
      (portalsOnWalls (0 : ℝ) (Real.pi / 2) ⟨3, 2, 0, 1⟩).camera_position_c ⟨0, 0, 1, 0⟩
      ⟨0, 0, 0, 0⟩).2.x = 3 ∧
    (placementStep Real.cos (fun y x => Complex.arg ⟨x, y⟩) Real.pi (3 / 2) true false
      ⟨0, 0, 1, 0⟩ (portalList (fun y x => Complex.arg ⟨x, y⟩)) ⟨0, 0, 0, 0⟩
      (portalsOnWalls (0 : ℝ) (Real.pi / 2) ⟨3, 2, 0, 1⟩)).lastPortal1Time ≠ 3 / 2 ∧
    (placementStep Real.cos (fun y x => Complex.arg ⟨x, y⟩) Real.pi (3 / 2) true false
      ⟨0, 0, 1, 0⟩ (portalList (fun y x => Complex.arg ⟨x, y⟩)) ⟨0, 0, 0, 0⟩
      (portalsOnWalls (0 : ℝ) (Real.pi / 2) ⟨3, 2, 0, 1⟩)).Portal1Bbox.bbox_min.x = 0 := by
  have h1 : (portalsOnWalls (0 : ℝ) (Real.pi / 2) ⟨3, 2, 0, 1⟩).lastPortal1Time = 1 := rfl
  have hc : ¬ ((3 / 2 : ℝ) -
      (portalsOnWalls (0 : ℝ) (Real.pi / 2) ⟨3, 2, 0, 1⟩).lastPortal1Time > 0.5 ∧ true = true) := by
    rw [h1]
    norm_num
  have hs := placementStep_portal1 Real.cos (fun y x => Complex.arg ⟨x, y⟩) Real.pi (3 / 2) true false
    ⟨0, 0, 1, 0⟩ (portalList (fun y x => Complex.arg ⟨x, y⟩)) ⟨0, 0, 0, 0⟩
    (portalsOnWalls (0 : ℝ) (Real.pi / 2) ⟨3, 2, 0, 1⟩)
  rw [if_neg hc] at hs
  have hE : (CheckLineBox (wall3 (fun y x => Complex.arg ⟨x, y⟩)).bbox_min
      (wall3 (fun y x => Complex.arg ⟨x, y⟩)).bbox_max
      (portalsOnWalls (0 : ℝ) (Real.pi / 2) ⟨3, 2, 0, 1⟩).camera_position_c ⟨0, 0, 1, 0⟩
      ⟨0, 0, 0, 0⟩) = (true, ⟨3, 2, 50, 1⟩) := by
    norm_num [CheckLineBox, crossing, GetIntersection, InBox, Vec4.add, Vec4.smul, Vec4.sub,
      wall3, width, height, portalsOnWalls]
  refine ⟨rfl, by norm_num, by simp [portalList], ?_, ?_, ?_, ?_⟩
  · rw [hE]
  · rw [hE]
  · have h2 := congrArg (fun q => q.2.2.2) hs
    simp only [portal1State] at h2
    rw [h2, h1]
    norm_num
  · have h2 := congrArg (fun q => q.2.2.1.bbox_min.x) hs
    simp only [portal1State] at h2
    rw [h2]
    simp [portalsOnWalls]

/-- C10, amended: in a state whose Portal-1 timer holds `t0`, a placement step
at a time `t` with `t - t0 > 0.5` (strictly), the Portal-1 trigger held and the
ray hitting some candidate (the prop box or a wall of `portalList`), takes
effect: Portal 1's decal box is the one computed from the hit point on the
first candidate that the ray hits, the timer becomes `t`, and the portal is
created. -/
theorem placementStep_after_cooldown (cos : α → α) (atan2 : α → α → α) (M_PI time : α)
    (right : Bool) (view : Vec4 α) (ws : List (bbox α)) (point : Vec4 α) (g : Globals α)
    (t0 : α) (h0 : g.lastPortal1Time = t0) (ht : time - t0 > 0.5)
    (hhit : ∃ c ∈ cubeIn g.cubePosition :: ws,
      (CheckLineBox c.bbox_min c.bbox_max g.camera_position_c view point).1 = true) :
    ∃ c p, firstHit g.camera_position_c view point (cubeIn g.cubePosition :: ws) = some (c, p) ∧
      c ∈ cubeIn g.cubePosition :: ws ∧
      CheckLineBox c.bbox_min c.bbox_max g.camera_position_c view point = (true, p) ∧
      (placementStep cos atan2 M_PI time true right view ws point g).Portal1Bbox =
        decalBox cos M_PI c.angle c.bbox_min p ∧
      (placementStep cos atan2 M_PI time true right view ws point g).lastPortal1Time = time ∧
      (placementStep cos atan2 M_PI time true right view ws point g).Portal1Created = true := by
  obtain ⟨c, p, hf⟩ := (firstHit_spec g.camera_position_c view point
    (cubeIn g.cubePosition :: ws)).1 hhit
  obtain ⟨hm, he⟩ := (firstHit_spec g.camera_position_c view point
    (cubeIn g.cubePosition :: ws)).2 c p hf
  have hc : time - g.lastPortal1Time > 0.5 ∧ true = true := ⟨by rw [h0]; exact ht, rfl⟩
  have hs := placementStep_portal1 cos atan2 M_PI time true right view ws point g
  rw [if_pos hc] at hs
  refine ⟨c, p, hf, hm, he, ?_⟩
  by_cases hh : (CheckLineBox (cubeIn g.cubePosition).bbox_min
      (cubeIn g.cubePosition).bbox_max g.camera_position_c view point).1 = true
  · rw [if_pos hh] at hs
    simp only [firstHit, hh, if_true, Option.some.injEq, Prod.mk.injEq] at hf
    obtain ⟨rfl, rfl⟩ := hf
    exact ⟨congrArg (fun q => q.2.2.1) hs, congrArg (fun q => q.2.2.2) hs,
      congrArg (fun q => q.1) hs⟩
  · rw [if_neg hh] at hs
    simp only [firstHit, hh, Bool.false_eq_true, if_false] at hf
    rw [hf] at hs
    exact ⟨congrArg (fun q => q.2.2.1) hs, congrArg (fun q => q.2.2.2) hs,
      congrArg (fun q => q.1) hs⟩

/-- C10 amended, at a concrete state: Portal 1 was placed at time 1; at time 2
the trigger is held with the camera at `(3, 2, 0)` looking along `+z`, and the
ray hits `wall3`: the timer becomes 2. -/
theorem placementStep_after_cooldown_witness :
    ∃ c p,
      firstHit (portalsOnWalls (0 : ℝ) (Real.pi / 2) ⟨3, 2, 0, 1⟩).camera_position_c
        ⟨0, 0, 1, 0⟩ ⟨0, 0, 0, 0⟩
        (cubeIn (portalsOnWalls (0 : ℝ) (Real.pi / 2) ⟨3, 2, 0, 1⟩).cubePosition ::
          portalList (fun y x => Complex.arg ⟨x, y⟩)) = some (c, p) ∧
      c ∈ cubeIn (portalsOnWalls (0 : ℝ) (Real.pi / 2) ⟨3, 2, 0, 1⟩).cubePosition ::
        portalList (fun y x => Complex.arg ⟨x, y⟩) ∧
      CheckLineBox c.bbox_min c.bbox_max
        (portalsOnWalls (0 : ℝ) (Real.pi / 2) ⟨3, 2, 0, 1⟩).camera_position_c
        ⟨0, 0, 1, 0⟩ ⟨0, 0, 0, 0⟩ = (true, p) ∧
      (placementStep Real.cos (fun y x => Complex.arg ⟨x, y⟩) Real.pi 2 true false
      ⟨0, 0, 1, 0⟩ (portalList (fun y x => Complex.arg ⟨x, y⟩)) ⟨0, 0, 0, 0⟩
      (portalsOnWalls (0 : ℝ) (Real.pi / 2) ⟨3, 2, 0, 1⟩)).Portal1Bbox =
        decalBox Real.cos Real.pi c.angle c.bbox_min p ∧
      (placementStep Real.cos (fun y x => Complex.arg ⟨x, y⟩) Real.pi 2 true false
      ⟨0, 0, 1, 0⟩ (portalList (fun y x => Complex.arg ⟨x, y⟩)) ⟨0, 0, 0, 0⟩
      (portalsOnWalls (0 : ℝ) (Real.pi / 2) ⟨3, 2, 0, 1⟩)).lastPortal1Time = 2 ∧
      (placementStep Real.cos (fun y x => Complex.arg ⟨x, y⟩) Real.pi 2 true false
      ⟨0, 0, 1, 0⟩ (portalList (fun y x => Complex.arg ⟨x, y⟩)) ⟨0, 0, 0, 0⟩
      (portalsOnWalls (0 : ℝ) (Real.pi / 2) ⟨3, 2, 0, 1⟩)).Portal1Created = true :=
  placementStep_after_cooldown Real.cos (fun y x => Complex.arg ⟨x, y⟩) Real.pi 2 false ⟨0, 0, 1, 0⟩
    (portalList (fun y x => Complex.arg ⟨x, y⟩)) ⟨0, 0, 0, 0⟩
    (portalsOnWalls (0 : ℝ) (Real.pi / 2) ⟨3, 2, 0, 1⟩) 1 rfl (by norm_num)
    ⟨wall3 (fun y x => Complex.arg ⟨x, y⟩), by simp [portalList], by
      norm_num [CheckLineBox, crossing, GetIntersection, InBox, Vec4.add, Vec4.smul, Vec4.sub,
        wall3, width, height, portalsOnWalls]⟩

end PlacementFacts

section FirstHitFacts

variable {α : Type} [LinearOrderedField α]

/-- Candidates after the first one that the ray hits do not change `firstHit`. -/
theorem firstHit_append (L1 view point : Vec4 α) (pre post : List (bbox α))
    (x : bbox α × Vec4 α) (h : firstHit L1 view point pre = some x) :
    firstHit L1 view point (pre ++ post) = some x := by
  induction pre with
  | nil => simp [firstHit] at h
  | cons d t ih =>
    by_cases hd : (CheckLineBox d.bbox_min d.bbox_max L1 view point).1 = true
    · simp only [List.cons_append, firstHit, hd, if_true] at h ⊢
      exact h
    · simp only [List.cons_append, firstHit, hd, Bool.false_eq_true, if_false] at h ⊢
      exact ih h

/-- `firstHit` finds nothing exactly when the ray misses every candidate. -/
theorem firstHit_eq_none_iff (L1 view point : Vec4 α) (l : List (bbox α)) :
    firstHit L1 view point l = none ↔
      ∀ c ∈ l, (CheckLineBox c.bbox_min c.bbox_max L1 view point).1 = false := by
  induction l with
  | nil => simp [firstHit]
  | cons d t ih =>
    by_cases hd : (CheckLineBox d.bbox_min d.bbox_max L1 view point).1 = true
    · simp [firstHit, hd]
    · simp [firstHit, hd, ih]

/-- The first candidate of `cubeIn :: ws` that the ray hits, read off the two
levels of the placement step: the prop box, then the walls. -/
theorem firstHit_cube_cons (L1 view point : Vec4 α) (cube : bbox α) (ws : List (bbox α)) :
    firstHit L1 view point (cube :: ws) =
      if (CheckLineBox cube.bbox_min cube.bbox_max L1 view point).1 = true then
        some (cube, (CheckLineBox cube.bbox_min cube.bbox_max L1 view point).2)
      else firstHit L1 view point ws := by
  simp only [firstHit]

/-- The Portal-1 state after a placement step whose trigger is held with the
cooldown elapsed, in terms of the first candidate of `cubeIn :: ws` that the ray
hits. -/
theorem placementStep_portal1_first (cos : α → α) (atan2 : α → α → α) (M_PI time : α)
    (left right : Bool) (view : Vec4 α) (ws : List (bbox α)) (point : Vec4 α) (g : Globals α)
    (hc : time - g.lastPortal1Time > 0.5 ∧ left = true) (c : bbox α) (p : Vec4 α)
    (hf : firstHit g.camera_position_c view point (cubeIn g.cubePosition :: ws) = some (c, p)) :
    (placementStep cos atan2 M_PI time left right view ws point g).Portal1Bbox =
      decalBox cos M_PI c.angle c.bbox_min p ∧
    (placementStep cos atan2 M_PI time left right view ws point g).Portal1Created = true ∧
    (placementStep cos atan2 M_PI time left right view ws point g).lastPortal1Time = time := by
  have hs := placementStep_portal1 cos atan2 M_PI time left right view ws point g
  rw [if_pos hc] at hs
  rw [firstHit_cube_cons] at hf
  by_cases hh : (CheckLineBox (cubeIn g.cubePosition).bbox_min
      (cubeIn g.cubePosition).bbox_max g.camera_position_c view point).1 = true
  · rw [if_pos hh] at hs hf
    simp only [Option.some.injEq, Prod.mk.injEq] at hf
    obtain ⟨rfl, rfl⟩ := hf
    exact ⟨congrArg (fun q => q.2.2.1) hs, congrArg (fun q => q.1) hs,
      congrArg (fun q => q.2.2.2) hs⟩
  · rw [if_neg hh] at hs hf
    rw [hf] at hs
    exact ⟨congrArg (fun q => q.2.2.1) hs, congrArg (fun q => q.1) hs,
      congrArg (fun q => q.2.2.2) hs⟩

/-- The Portal-2 state after a placement step whose trigger is held with the
cooldown elapsed, in terms of the first candidate of `cubeIn :: ws` that the ray
hits, for walls whose stored angle is their `boxAngle` (lines 439, 444, 449). -/
theorem placementStep_portal2_first (cos : α → α) (atan2 : α → α → α) (M_PI time : α)
    (left right : Bool) (view : Vec4 α) (ws : List (bbox α)) (point : Vec4 α) (g : Globals α)
    (hc : time - g.lastPortal2Time > 0.5 ∧ right = true) (c : bbox α) (p : Vec4 α)
    (hf : firstHit g.camera_position_c view point (cubeIn g.cubePosition :: ws) = some (c, p))
    (ha : ∀ w ∈ ws, w.angle = boxAngle atan2 w.bbox_min w.bbox_max) :
    (placementStep cos atan2 M_PI time left right view ws point g).Portal2Bbox =
      decalBox cos M_PI c.angle c.bbox_min p ∧
    (placementStep cos atan2 M_PI time left right view ws point g).Portal2Created = true ∧
    (placementStep cos atan2 M_PI time left right view ws point g).lastPortal2Time = time := by
  have hs := placementStep_portal2 cos atan2 M_PI time left right view ws point g
  rw [if_pos hc] at hs
  rw [firstHit_cube_cons] at hf
  by_cases hh : (CheckLineBox (cubeIn g.cubePosition).bbox_min
      (cubeIn g.cubePosition).bbox_max g.camera_position_c view point).1 = true
  · rw [if_pos hh] at hs hf
    simp only [Option.some.injEq, Prod.mk.injEq] at hf
    obtain ⟨rfl, rfl⟩ := hf
    exact ⟨congrArg (fun q => q.2.2.1) hs, congrArg (fun q => q.1) hs,
      congrArg (fun q => q.2.2.2) hs⟩
  · rw [if_neg hh] at hs hf
    rw [hf] at hs
    have hm : c ∈ ws := ((firstHit_spec g.camera_position_c view point ws).2 c p hf).1
    simp only [← ha c hm] at hs
    exact ⟨congrArg (fun q => q.2.2.1) hs, congrArg (fun q => q.1) hs,
      congrArg (fun q => q.2.2.2) hs⟩

/-- Walls after the first candidate that the ray hits do not change what the
placement step writes to Portal 1. -/
theorem placementStep_portal1_append (cos : α → α) (atan2 : α → α → α) (M_PI time : α)
    (left right : Bool) (view : Vec4 α) (pre post : List (bbox α)) (point : Vec4 α)
    (g : Globals α) (x : bbox α × Vec4 α)
    (hf : firstHit g.camera_position_c view point (cubeIn g.cubePosition :: pre) = some x) :
    portal1State (placementStep cos atan2 M_PI time left right view (pre ++ post) point g) =
      portal1State (placementStep cos atan2 M_PI time left right view pre point g) := by
  rw [placementStep_portal1, placementStep_portal1]
  rw [firstHit_cube_cons] at hf
  by_cases hh : (CheckLineBox (cubeIn g.cubePosition).bbox_min
      (cubeIn g.cubePosition).bbox_max g.camera_position_c view point).1 = true
  · simp only [if_pos hh]
  · rw [if_neg hh] at hf
    simp only [if_neg hh, firstHit_append _ _ _ pre post x hf, hf]

/-- Walls after the first candidate that the ray hits do not change what the
placement step writes to Portal 2. -/
theorem placementStep_portal2_append (cos : α → α) (atan2 : α → α → α) (M_PI time : α)
    (left right : Bool) (view : Vec4 α) (pre post : List (bbox α)) (point : Vec4 α)
    (g : Globals α) (x : bbox α × Vec4 α)
    (hf : firstHit g.camera_position_c view point (cubeIn g.cubePosition :: pre) = some x) :
    portal2State (placementStep cos atan2 M_PI time left right view (pre ++ post) point g) =
      portal2State (placementStep cos atan2 M_PI time left right view pre point g) := by
  rw [placementStep_portal2, placementStep_portal2]
  rw [firstHit_cube_cons] at hf
  by_cases hh : (CheckLineBox (cubeIn g.cubePosition).bbox_min
      (cubeIn g.cubePosition).bbox_max g.camera_position_c view point).1 = true
  · simp only [if_pos hh]
  · rw [if_neg hh] at hf
    simp only [if_neg hh, firstHit_append _ _ _ pre post x hf, hf]

end FirstHitFacts

section PlacementOrder

variable {α : Type} [LinearOrderedField α]

/-- C11: the candidates are tested in the order prop box, then `portalList`
(`wall2`, `wall3`, `wall4`).  When `(c, p)` is the first candidate and hit point
that the ray finds among the prop box and the walls `pre`, every later wall
`post` leaves both portals exactly as the step over `pre` alone does, whether
the ray hits it or not, and a portal whose trigger is held with the cooldown
elapsed gets the decal box and angle computed from `c` and `p`. -/
theorem placementStep_first_hit_wins (cos : α → α) (atan2 : α → α → α) (M_PI time : α)
    (left right : Bool) (view : Vec4 α) (pre post : List (bbox α)) (point : Vec4 α)
    (g : Globals α) (c : bbox α) (p : Vec4 α)
    (hf : firstHit g.camera_position_c view point (cubeIn g.cubePosition :: pre) = some (c, p))
    (ha : ∀ w ∈ pre ++ post, w.angle = boxAngle atan2 w.bbox_min w.bbox_max) :
    portal1State (placementStep cos atan2 M_PI time left right view (pre ++ post) point g) =
      portal1State (placementStep cos atan2 M_PI time left right view pre point g) ∧
    portal2State (placementStep cos atan2 M_PI time left right view (pre ++ post) point g) =
      portal2State (placementStep cos atan2 M_PI time left right view pre point g) ∧
    (time - g.lastPortal1Time > 0.5 ∧ left = true →
      (placementStep cos atan2 M_PI time left right view (pre ++ post) point g).Portal1Bbox =
        decalBox cos M_PI c.angle c.bbox_min p ∧
      (placementStep cos atan2 M_PI time left right view (pre ++ post) point g).Portal1Created = true) ∧
    (time - g.lastPortal2Time > 0.5 ∧ right = true →
      (placementStep cos atan2 M_PI time left right view (pre ++ post) point g).Portal2Bbox =
        decalBox cos M_PI c.angle c.bbox_min p ∧
      (placementStep cos atan2 M_PI time left right view (pre ++ post) point g).Portal2Created = true) ∧
    portalList atan2 = [wall2 atan2, wall3 atan2, wall4 atan2] := by
  have hf2 := firstHit_append g.camera_position_c view point (cubeIn g.cubePosition :: pre) post
    (c, p) hf
  rw [List.cons_append] at hf2
  refine ⟨placementStep_portal1_append cos atan2 M_PI time left right view pre post point g _ hf,
    placementStep_portal2_append cos atan2 M_PI time left right view pre post point g _ hf,
    ?_, ?_, rfl⟩
  · intro hc
    obtain ⟨h1, h2, _⟩ := placementStep_portal1_first cos atan2 M_PI time left right view
      (pre ++ post) point g hc c p hf2
    exact ⟨h1, h2⟩
  · intro hc
    obtain ⟨h1, h2, _⟩ := placementStep_portal2_first cos atan2 M_PI time left right view
      (pre ++ post) point g hc c p hf2 ha
    exact ⟨h1, h2⟩

/-- C11 at a concrete frame: from `(0, 5/2, -40)` looking along `+z` the ray hits
the prop box at `z = -24` and, behind it, `wall3`; the walls change nothing. -/
theorem placementStep_first_hit_wins_witness :
    portal1State (placementStep Real.cos (fun y x => Complex.arg ⟨x, y⟩) Real.pi 3 true true
      ⟨0, 0, 1, 0⟩ ([] ++ portalList (fun y x => Complex.arg ⟨x, y⟩)) ⟨0, 0, 0, 0⟩
      (portalsOnWalls (0 : ℝ) (Real.pi / 2) ⟨0, 5 / 2, -40, 1⟩)) =
      portal1State (placementStep Real.cos (fun y x => Complex.arg ⟨x, y⟩) Real.pi 3 true true
      ⟨0, 0, 1, 0⟩ [] ⟨0, 0, 0, 0⟩
      (portalsOnWalls (0 : ℝ) (Real.pi / 2) ⟨0, 5 / 2, -40, 1⟩)) ∧
    (CheckLineBox (wall3 (fun y x => Complex.arg ⟨x, y⟩)).bbox_min
      (wall3 (fun y x => Complex.arg ⟨x, y⟩)).bbox_max
      (portalsOnWalls (0 : ℝ) (Real.pi / 2) ⟨0, 5 / 2, -40, 1⟩).camera_position_c
      ⟨0, 0, 1, 0⟩ ⟨0, 0, 0, 0⟩).1 = true :=
  ⟨(placementStep_first_hit_wins Real.cos (fun y x => Complex.arg ⟨x, y⟩) Real.pi 3 true true ⟨0, 0, 1, 0⟩
    [] (portalList (fun y x => Complex.arg ⟨x, y⟩)) ⟨0, 0, 0, 0⟩
    (portalsOnWalls (0 : ℝ) (Real.pi / 2) ⟨0, 5 / 2, -40, 1⟩)
    (cubeIn (portalsOnWalls (0 : ℝ) (Real.pi / 2) ⟨0, 5 / 2, -40, 1⟩).cubePosition)
    ⟨0, 5 / 2, -24, 1⟩
    (by
      norm_num [firstHit, CheckLineBox, crossing, GetIntersection, InBox, Vec4.add, Vec4.smul, Vec4.sub,
        cubeIn, cubeWidth, height, portalsOnWalls])
    (by
      intro w hw
      simp only [List.nil_append, portalList, List.mem_cons, List.mem_singleton,
        List.not_mem_nil, or_false] at hw
      rcases hw with rfl | rfl | rfl <;> rfl)).1,
    by
      norm_num [CheckLineBox, crossing, GetIntersection, InBox, Vec4.add, Vec4.smul, Vec4.sub,
        wall3, width, height, portalsOnWalls]⟩

/-- C12: when the ray misses the prop box and every wall of `portalList`, the
placement step leaves the created flag, the anchored flag, the decal box with
its angle and the cooldown timer of both portals as they were. -/
theorem placementStep_no_hit (cos : α → α) (atan2 : α → α → α) (M_PI time : α)
    (left right : Bool) (view : Vec4 α) (ws : List (bbox α)) (point : Vec4 α) (g : Globals α)
    (hcube : (CheckLineBox (cubeIn g.cubePosition).bbox_min (cubeIn g.cubePosition).bbox_max
      g.camera_position_c view point).1 = false)
    (hwalls : ∀ w ∈ ws,
      (CheckLineBox w.bbox_min w.bbox_max g.camera_position_c view point).1 = false) :
    ((placementStep cos atan2 M_PI time left right view ws point g).Portal1Created = g.Portal1Created ∧
      (placementStep cos atan2 M_PI time left right view ws point g).Portal1OnCube = g.Portal1OnCube ∧
      (placementStep cos atan2 M_PI time left right view ws point g).Portal1Bbox = g.Portal1Bbox ∧
      (placementStep cos atan2 M_PI time left right view ws point g).lastPortal1Time = g.lastPortal1Time) ∧
    ((placementStep cos atan2 M_PI time left right view ws point g).Portal2Created = g.Portal2Created ∧
      (placementStep cos atan2 M_PI time left right view ws point g).Portal2OnCube = g.Portal2OnCube ∧
      (placementStep cos atan2 M_PI time left right view ws point g).Portal2Bbox = g.Portal2Bbox ∧
      (placementStep cos atan2 M_PI time left right view ws point g).lastPortal2Time = g.lastPortal2Time) := by
  have hn := (firstHit_eq_none_iff g.camera_position_c view point ws).2 hwalls
  have hcube2 : ¬ (CheckLineBox (cubeIn g.cubePosition).bbox_min
      (cubeIn g.cubePosition).bbox_max g.camera_position_c view point).1 = true := by
    rw [hcube]
    simp
  have h1 := placementStep_portal1 cos atan2 M_PI time left right view ws point g
  have h2 := placementStep_portal2 cos atan2 M_PI time left right view ws point g
  rw [if_neg hcube2, hn] at h1 h2
  simp only [ite_self] at h1 h2
  exact ⟨⟨congrArg (fun q => q.1) h1, congrArg (fun q => q.2.1) h1,
      congrArg (fun q => q.2.2.1) h1, congrArg (fun q => q.2.2.2) h1⟩,
    ⟨congrArg (fun q => q.1) h2, congrArg (fun q => q.2.1) h2,
      congrArg (fun q => q.2.2.1) h2, congrArg (fun q => q.2.2.2) h2⟩⟩

/-- C12 at a concrete frame: from `(3, 2, 0)` looking along `-z` the ray misses
the prop box and the three walls, and Portal 1 stays on the wall `z = 50`. -/
theorem placementStep_no_hit_witness :
    (placementStep Real.cos (fun y x => Complex.arg ⟨x, y⟩) Real.pi 3 true true
      ⟨0, 0, -1, 0⟩ (portalList (fun y x => Complex.arg ⟨x, y⟩)) ⟨0, 0, 0, 0⟩
      (portalsOnWalls (0 : ℝ) (Real.pi / 2) ⟨3, 2, 0, 1⟩)).Portal1Bbox =
      (portalsOnWalls (0 : ℝ) (Real.pi / 2) ⟨3, 2, 0, 1⟩).Portal1Bbox ∧
    (placementStep Real.cos (fun y x => Complex.arg ⟨x, y⟩) Real.pi 3 true true
      ⟨0, 0, -1, 0⟩ (portalList (fun y x => Complex.arg ⟨x, y⟩)) ⟨0, 0, 0, 0⟩
      (portalsOnWalls (0 : ℝ) (Real.pi / 2) ⟨3, 2, 0, 1⟩)).lastPortal1Time =
      1 :=
  ⟨(placementStep_no_hit Real.cos (fun y x => Complex.arg ⟨x, y⟩) Real.pi 3 true true ⟨0, 0, -1, 0⟩
    (portalList (fun y x => Complex.arg ⟨x, y⟩)) ⟨0, 0, 0, 0⟩
    (portalsOnWalls (0 : ℝ) (Real.pi / 2) ⟨3, 2, 0, 1⟩)
    (by
      norm_num [CheckLineBox, crossing, GetIntersection, InBox, Vec4.add, Vec4.smul, Vec4.sub,
        cubeIn, cubeWidth, height, portalsOnWalls])
    (by
      intro w hw
      simp only [portalList, List.mem_cons, List.mem_singleton, List.not_mem_nil,
        or_false] at hw
      rcases hw with rfl | rfl | rfl <;>
        norm_num [CheckLineBox, crossing, GetIntersection, InBox, Vec4.add, Vec4.smul, Vec4.sub,
          wall2, wall3, wall4, width, height, spaceDistance, portalsOnWalls])).1.2.2.1,
    (placementStep_no_hit Real.cos (fun y x => Complex.arg ⟨x, y⟩) Real.pi 3 true true ⟨0, 0, -1, 0⟩
    (portalList (fun y x => Complex.arg ⟨x, y⟩)) ⟨0, 0, 0, 0⟩
    (portalsOnWalls (0 : ℝ) (Real.pi / 2) ⟨3, 2, 0, 1⟩)
    (by
      norm_num [CheckLineBox, crossing, GetIntersection, InBox, Vec4.add, Vec4.smul, Vec4.sub,
        cubeIn, cubeWidth, height, portalsOnWalls])
    (by
      intro w hw
      simp only [portalList, List.mem_cons, List.mem_singleton, List.not_mem_nil,
        or_false] at hw
      rcases hw with rfl | rfl | rfl <;>
        norm_num [CheckLineBox, crossing, GetIntersection, InBox, Vec4.add, Vec4.smul, Vec4.sub,
          wall2, wall3, wall4, width, height, spaceDistance, portalsOnWalls])).1.2.2.2⟩

end PlacementOrder

section PlacementResult

variable {α : Type} [LinearOrderedField α]

/-- C17: after a successful placement of a portal (trigger held, cooldown
elapsed, a candidate hit) its created flag is true, and its anchored flag is
true when the prop box is hit and false when the prop box is missed and a wall
is hit, whatever the flag was before. -/
theorem placementStep_flags (cos : α → α) (atan2 : α → α → α) (M_PI time : α)
    (left right : Bool) (view : Vec4 α) (ws : List (bbox α)) (point : Vec4 α) (g : Globals α) :
    (time - g.lastPortal1Time > 0.5 ∧ left = true →
      ((CheckLineBox (cubeIn g.cubePosition).bbox_min (cubeIn g.cubePosition).bbox_max
          g.camera_position_c view point).1 = true →
        (placementStep cos atan2 M_PI time left right view ws point g).Portal1Created = true ∧
        (placementStep cos atan2 M_PI time left right view ws point g).Portal1OnCube = true) ∧
      ((CheckLineBox (cubeIn g.cubePosition).bbox_min (cubeIn g.cubePosition).bbox_max
          g.camera_position_c view point).1 = false →
        (∃ w ∈ ws, (CheckLineBox w.bbox_min w.bbox_max g.camera_position_c view point).1 = true) →
        (placementStep cos atan2 M_PI time left right view ws point g).Portal1Created = true ∧
        (placementStep cos atan2 M_PI time left right view ws point g).Portal1OnCube = false)) ∧
    (time - g.lastPortal2Time > 0.5 ∧ right = true →
      ((CheckLineBox (cubeIn g.cubePosition).bbox_min (cubeIn g.cubePosition).bbox_max
          g.camera_position_c view point).1 = true →
        (placementStep cos atan2 M_PI time left right view ws point g).Portal2Created = true ∧
        (placementStep cos atan2 M_PI time left right view ws point g).Portal2OnCube = true) ∧
      ((CheckLineBox (cubeIn g.cubePosition).bbox_min (cubeIn g.cubePosition).bbox_max
          g.camera_position_c view point).1 = false →
        (∃ w ∈ ws, (CheckLineBox w.bbox_min w.bbox_max g.camera_position_c view point).1 = true) →
        (placementStep cos atan2 M_PI time left right view ws point g).Portal2Created = true ∧
        (placementStep cos atan2 M_PI time left right view ws point g).Portal2OnCube = false)) := by
  constructor
  · intro hc
    have hs := placementStep_portal1 cos atan2 M_PI time left right view ws point g
    rw [if_pos hc] at hs
    constructor
    · intro hh
      rw [if_pos hh] at hs
      exact ⟨congrArg (fun q => q.1) hs, congrArg (fun q => q.2.1) hs⟩
    · intro hh hw
      obtain ⟨w, p, hf⟩ := (firstHit_spec g.camera_position_c view point ws).1 hw
      rw [if_neg (by rw [hh]; simp), hf] at hs
      exact ⟨congrArg (fun q => q.1) hs, congrArg (fun q => q.2.1) hs⟩
  · intro hc
    have hs := placementStep_portal2 cos atan2 M_PI time left right view ws point g
    rw [if_pos hc] at hs
    constructor
    · intro hh
      rw [if_pos hh] at hs
      exact ⟨congrArg (fun q => q.1) hs, congrArg (fun q => q.2.1) hs⟩
    · intro hh hw
      obtain ⟨w, p, hf⟩ := (firstHit_spec g.camera_position_c view point ws).1 hw
      rw [if_neg (by rw [hh]; simp), hf] at hs
      exact ⟨congrArg (fun q => q.1) hs, congrArg (fun q => q.2.1) hs⟩

/-- C17 at a concrete frame: Portal 1 is anchored to the prop, and is placed
again from `(3, 2, 0)` looking along `+z`, on `wall3`: it is no longer anchored. -/
theorem placementStep_flags_witness :
    (placementStep Real.cos (fun y x => Complex.arg ⟨x, y⟩) Real.pi 3 true false
      ⟨0, 0, 1, 0⟩ (portalList (fun y x => Complex.arg ⟨x, y⟩)) ⟨0, 0, 0, 0⟩
      { portalsOnWalls (0 : ℝ) (Real.pi / 2) ⟨3, 2, 0, 1⟩ with Portal1OnCube := true }).Portal1Created = true ∧
    (placementStep Real.cos (fun y x => Complex.arg ⟨x, y⟩) Real.pi 3 true false
      ⟨0, 0, 1, 0⟩ (portalList (fun y x => Complex.arg ⟨x, y⟩)) ⟨0, 0, 0, 0⟩
      { portalsOnWalls (0 : ℝ) (Real.pi / 2) ⟨3, 2, 0, 1⟩ with Portal1OnCube := true }).Portal1OnCube = false :=
  ((placementStep_flags Real.cos (fun y x => Complex.arg ⟨x, y⟩) Real.pi 3 true false ⟨0, 0, 1, 0⟩
    (portalList (fun y x => Complex.arg ⟨x, y⟩)) ⟨0, 0, 0, 0⟩
    { portalsOnWalls (0 : ℝ) (Real.pi / 2) ⟨3, 2, 0, 1⟩ with Portal1OnCube := true }).1
    ⟨by norm_num [portalsOnWalls], rfl⟩).2
    (by
      norm_num [CheckLineBox, crossing, GetIntersection, InBox, Vec4.add, Vec4.smul, Vec4.sub,
        cubeIn, cubeWidth, height, portalsOnWalls])
    ⟨wall3 (fun y x => Complex.arg ⟨x, y⟩), by simp [portalList], by
      norm_num [CheckLineBox, crossing, GetIntersection, InBox, Vec4.add, Vec4.smul, Vec4.sub,
        wall3, width, height, portalsOnWalls]⟩

/-- The corners of the decal box: Y is the room's mid-height; the offset is along
Z when `cos(angle) > 0.01` and along X otherwise; the other horizontal
coordinate is the hit point's. -/
theorem decalBox_corners (cos : α → α) (M_PI a : α) (surfaceMin p : Vec4 α) :
    (decalBox cos M_PI a surfaceMin p).bbox_min.y = height / 2 ∧
    (decalBox cos M_PI a surfaceMin p).bbox_max.y = height / 2 ∧
    (cos (if a < 0.1 then 0 else a) > 0.01 →
      (decalBox cos M_PI a surfaceMin p).bbox_min.x = p.x ∧
      (decalBox cos M_PI a surfaceMin p).bbox_max.x = p.x ∧
      (((decalBox cos M_PI a surfaceMin p).bbox_min.z = p.z + 0.01 ∧
          (decalBox cos M_PI a surfaceMin p).bbox_max.z = p.z - 0.01) ∨
        ((decalBox cos M_PI a surfaceMin p).bbox_min.z = p.z - 0.01 ∧
          (decalBox cos M_PI a surfaceMin p).bbox_max.z = p.z + 0.01))) ∧
    (¬ cos (if a < 0.1 then 0 else a) > 0.01 →
      (decalBox cos M_PI a surfaceMin p).bbox_min.z = p.z ∧
      (decalBox cos M_PI a surfaceMin p).bbox_max.z = p.z ∧
      (((decalBox cos M_PI a surfaceMin p).bbox_min.x = p.x + 0.01 ∧
          (decalBox cos M_PI a surfaceMin p).bbox_max.x = p.x - 0.01) ∨
        ((decalBox cos M_PI a surfaceMin p).bbox_min.x = p.x - 0.01 ∧
          (decalBox cos M_PI a surfaceMin p).bbox_max.x = p.x + 0.01))) := by
  refine ⟨rfl, rfl, ?_, ?_⟩
  · intro hc
    by_cases hz : surfaceMin.z > 0
    · refine ⟨?_, ?_, Or.inr ⟨?_, ?_⟩⟩ <;>
        simp only [decalBox, placementOffsets, if_pos hc, if_pos hz] <;> ring
    · refine ⟨?_, ?_, Or.inl ⟨?_, ?_⟩⟩ <;>
        simp only [decalBox, placementOffsets, if_pos hc, if_neg hz] <;> ring
  · intro hc
    by_cases hx : surfaceMin.x > 0
    · refine ⟨?_, ?_, Or.inr ⟨?_, ?_⟩⟩ <;>
        simp only [decalBox, placementOffsets, if_neg hc, if_pos hx] <;> ring
    · refine ⟨?_, ?_, Or.inl ⟨?_, ?_⟩⟩ <;>
        simp only [decalBox, placementOffsets, if_neg hc, if_neg hx] <;> ring

/-- C13, the claim fails on Y: from `(0, 1, -40)` looking along `+z` the ray
hits the prop box at `(0, 1, -24)`, and both corners of the placed decal box
have `y = 5/2`, not the hit point's `y = 1`. -/
theorem placementStep_decal_height :
    CheckLineBox (cubeIn (portalsOnWalls (0 : ℝ) (Real.pi / 2) ⟨0, 1, -40, 1⟩).cubePosition).bbox_min
      (cubeIn (portalsOnWalls (0 : ℝ) (Real.pi / 2) ⟨0, 1, -40, 1⟩).cubePosition).bbox_max
      (portalsOnWalls (0 : ℝ) (Real.pi / 2) ⟨0, 1, -40, 1⟩).camera_position_c
      ⟨0, 0, 1, 0⟩ ⟨0, 0, 0, 0⟩ = (true, ⟨0, 1, -24, 1⟩) ∧
    (placementStep Real.cos (fun y x => Complex.arg ⟨x, y⟩) Real.pi 3 true false
      ⟨0, 0, 1, 0⟩ (portalList (fun y x => Complex.arg ⟨x, y⟩)) ⟨0, 0, 0, 0⟩
      (portalsOnWalls (0 : ℝ) (Real.pi / 2) ⟨0, 1, -40, 1⟩)).Portal1Bbox.bbox_min.y = 5 / 2 ∧
    (placementStep Real.cos (fun y x => Complex.arg ⟨x, y⟩) Real.pi 3 true false
      ⟨0, 0, 1, 0⟩ (portalList (fun y x => Complex.arg ⟨x, y⟩)) ⟨0, 0, 0, 0⟩
      (portalsOnWalls (0 : ℝ) (Real.pi / 2) ⟨0, 1, -40, 1⟩)).Portal1Bbox.bbox_max.y = 5 / 2 ∧
    (5 / 2 : ℝ) ≠ 1 := by
  have hE : CheckLineBox (cubeIn (portalsOnWalls (0 : ℝ) (Real.pi / 2) ⟨0, 1, -40, 1⟩).cubePosition).bbox_min
      (cubeIn (portalsOnWalls (0 : ℝ) (Real.pi / 2) ⟨0, 1, -40, 1⟩).cubePosition).bbox_max
      (portalsOnWalls (0 : ℝ) (Real.pi / 2) ⟨0, 1, -40, 1⟩).camera_position_c
      ⟨0, 0, 1, 0⟩ ⟨0, 0, 0, 0⟩ = (true, ⟨0, 1, -24, 1⟩) := by
    norm_num [CheckLineBox, crossing, GetIntersection, InBox, Vec4.add, Vec4.smul, Vec4.sub,
      cubeIn, cubeWidth, height, portalsOnWalls]
  have hf : firstHit (portalsOnWalls (0 : ℝ) (Real.pi / 2) ⟨0, 1, -40, 1⟩).camera_position_c
      ⟨0, 0, 1, 0⟩ ⟨0, 0, 0, 0⟩
      (cubeIn (portalsOnWalls (0 : ℝ) (Real.pi / 2) ⟨0, 1, -40, 1⟩).cubePosition ::
        portalList (fun y x => Complex.arg ⟨x, y⟩)) =
      some (cubeIn (portalsOnWalls (0 : ℝ) (Real.pi / 2) ⟨0, 1, -40, 1⟩).cubePosition,
        ⟨0, 1, -24, 1⟩) := by
    rw [firstHit_cube_cons, hE]
    simp
  obtain ⟨hb, _, _⟩ := placementStep_portal1_first Real.cos (fun y x => Complex.arg ⟨x, y⟩) Real.pi 3
    true false ⟨0, 0, 1, 0⟩ (portalList (fun y x => Complex.arg ⟨x, y⟩)) ⟨0, 0, 0, 0⟩
    (portalsOnWalls (0 : ℝ) (Real.pi / 2) ⟨0, 1, -40, 1⟩)
    ⟨by norm_num [portalsOnWalls], rfl⟩ _ _ hf
  rw [hb]
  refine ⟨hE, ?_, ?_, by norm_num⟩
  · simp only [decalBox, height]
  · simp only [decalBox, height]

/-- C13, amended: on a successful placement of Portal 1 or Portal 2 from the
first candidate `c` hit at `p`, the two corners of the decal box are `p` plus and
minus the 0.01 offset along the disambiguated axis (Z when `cos(angle) > 0.01`,
else X), on the other horizontal axis both corners have the hit point's
coordinate, and on Y both corners are at the room's mid-height `height / 2`,
whatever the hit point's Y. -/
theorem placementStep_decal_corners (cos : α → α) (atan2 : α → α → α) (M_PI time : α)
    (left right : Bool) (view : Vec4 α) (ws : List (bbox α)) (point : Vec4 α) (g : Globals α)
    (c : bbox α) (p : Vec4 α)
    (hf : firstHit g.camera_position_c view point (cubeIn g.cubePosition :: ws) = some (c, p))
    (ha : ∀ w ∈ ws, w.angle = boxAngle atan2 w.bbox_min w.bbox_max)
    (B : bbox α)
    (hB : (time - g.lastPortal1Time > 0.5 ∧ left = true ∧
        B = (placementStep cos atan2 M_PI time left right view ws point g).Portal1Bbox) ∨
      (time - g.lastPortal2Time > 0.5 ∧ right = true ∧
        B = (placementStep cos atan2 M_PI time left right view ws point g).Portal2Bbox)) :
    B.bbox_min.y = height / 2 ∧ B.bbox_max.y = height / 2 ∧
    (cos (if c.angle < 0.1 then 0 else c.angle) > 0.01 →
      B.bbox_min.x = p.x ∧ B.bbox_max.x = p.x ∧
      ((B.bbox_min.z = p.z + 0.01 ∧ B.bbox_max.z = p.z - 0.01) ∨
        (B.bbox_min.z = p.z - 0.01 ∧ B.bbox_max.z = p.z + 0.01))) ∧
    (¬ cos (if c.angle < 0.1 then 0 else c.angle) > 0.01 →
      B.bbox_min.z = p.z ∧ B.bbox_max.z = p.z ∧
      ((B.bbox_min.x = p.x + 0.01 ∧ B.bbox_max.x = p.x - 0.01) ∨
        (B.bbox_min.x = p.x - 0.01 ∧ B.bbox_max.x = p.x + 0.01))) := by
  have hE : B = decalBox cos M_PI c.angle c.bbox_min p := by
    rcases hB with ⟨h1, h2, rfl⟩ | ⟨h1, h2, rfl⟩
    · exact (placementStep_portal1_first cos atan2 M_PI time left right view ws point g
        ⟨h1, h2⟩ c p hf).1
    · exact (placementStep_portal2_first cos atan2 M_PI time left right view ws point g
        ⟨h1, h2⟩ c p hf ha).1
  rw [hE]
  exact decalBox_corners cos M_PI c.angle c.bbox_min p

/-- C13 amended, at the frame of the prop-box hit at `(0, 1, -24)`: the decal box
of Portal 1 is at mid-height. -/
theorem placementStep_decal_corners_witness :
    (placementStep Real.cos (fun y x => Complex.arg ⟨x, y⟩) Real.pi 3 true false
      ⟨0, 0, 1, 0⟩ (portalList (fun y x => Complex.arg ⟨x, y⟩)) ⟨0, 0, 0, 0⟩
      (portalsOnWalls (0 : ℝ) (Real.pi / 2) ⟨0, 1, -40, 1⟩)).Portal1Bbox.bbox_min.y = height / 2 :=
  (placementStep_decal_corners Real.cos (fun y x => Complex.arg ⟨x, y⟩) Real.pi 3 true false
    ⟨0, 0, 1, 0⟩ (portalList (fun y x => Complex.arg ⟨x, y⟩)) ⟨0, 0, 0, 0⟩
    (portalsOnWalls (0 : ℝ) (Real.pi / 2) ⟨0, 1, -40, 1⟩)
    (cubeIn (portalsOnWalls (0 : ℝ) (Real.pi / 2) ⟨0, 1, -40, 1⟩).cubePosition)
    ⟨0, 1, -24, 1⟩
    (by
      norm_num [firstHit, CheckLineBox, crossing, GetIntersection, InBox, Vec4.add, Vec4.smul, Vec4.sub,
        cubeIn, cubeWidth, height, portalsOnWalls])
    (by
      intro w hw
      simp only [portalList, List.mem_cons, List.mem_singleton, List.not_mem_nil,
        or_false] at hw
      rcases hw with rfl | rfl | rfl <;> rfl)
    _ (Or.inl ⟨by norm_num [portalsOnWalls], rfl, rfl⟩)).1

end PlacementResult

section ClassificationFacts

variable {α : Type} [LinearOrderedField α]

/-- The placement code tests the signed `cos(angle) > 0.01`.  For a surface
angle `π`, which no candidate surface of the program has, `|cos(angle)| = 1`
exceeds 0.01 while the signed test fails, and the offset is 0.01 along X. -/
theorem placementOffsets_at_pi :
    ¬ (Real.pi < 0.1) ∧ |Real.cos Real.pi| > 0.01 ∧
    (placementOffsets Real.cos Real.pi Real.pi ⟨0, 0, 0, 0⟩).1 = 0.01 ∧
    (placementOffsets Real.cos Real.pi Real.pi ⟨0, 0, 0, 0⟩).2.1 = 0 := by
  have hpi : ¬ (Real.pi < 0.1) := by
    have := Real.pi_gt_three
    intro h
    norm_num at h
    linarith
  have hcos : ¬ (Real.cos Real.pi > 0.01) := by
    rw [Real.cos_pi]
    norm_num
  refine ⟨hpi, by rw [Real.cos_pi]; norm_num, ?_, ?_⟩
  · simp only [placementOffsets, if_neg hpi, if_neg hcos]
    norm_num
  · simp only [placementOffsets, if_neg hpi, if_neg hcos]
    norm_num

/-- The placement offsets by the signed test: with `angle` the surface angle
after the snap to 0, the offset is 0.01 along Z and none along X when
`cos(angle) > 0.01`, and 0.01 along X and none along Z otherwise; the signed
test agrees with `|cos(angle)| > 0.01` whenever `cos(angle) ≥ 0`. -/
theorem placementOffsets_classification (cos : α → α) (M_PI a : α) (surfaceMin : Vec4 α) :
    (cos (if a < 0.1 then 0 else a) > 0.01 →
      (placementOffsets cos M_PI a surfaceMin).1 = 0 ∧
      |(placementOffsets cos M_PI a surfaceMin).2.1| = 0.01) ∧
    (¬ cos (if a < 0.1 then 0 else a) > 0.01 →
      |(placementOffsets cos M_PI a surfaceMin).1| = 0.01 ∧
      (placementOffsets cos M_PI a surfaceMin).2.1 = 0) ∧
    (0 ≤ cos (if a < 0.1 then 0 else a) →
      (cos (if a < 0.1 then 0 else a) > 0.01 ↔ |cos (if a < 0.1 then 0 else a)| > 0.01)) := by
  have h1 : |(0.01 : α)| = 0.01 := abs_of_pos (by norm_num)
  have h2 : |(0.01 : α) * -1| = 0.01 := by
    rw [mul_neg_one, abs_neg, h1]
  refine ⟨?_, ?_, ?_⟩
  · intro hc
    by_cases hz : surfaceMin.z > 0
    · simp only [placementOffsets, if_pos hc, if_pos hz]
      exact ⟨trivial, h2⟩
    · simp only [placementOffsets, if_pos hc, if_neg hz]
      exact ⟨trivial, h1⟩
  · intro hc
    by_cases hx : surfaceMin.x > 0
    · simp only [placementOffsets, if_neg hc, if_pos hx]
      exact ⟨h2, trivial⟩
    · simp only [placementOffsets, if_neg hc, if_neg hx]
      exact ⟨h1, trivial⟩
  · intro h0
    rw [abs_of_nonneg h0]

/-- The signed classification at the surface angle 0 of the prop box, the prop
at its origin: the offset is 0.01 along Z. -/
theorem placementOffsets_classification_witness :
    (placementOffsets Real.cos Real.pi 0 (cubeIn (⟨0, 5 / 2, -25⟩ : Vec3 ℝ)).bbox_min).1 = 0 ∧
    |(placementOffsets Real.cos Real.pi 0 (cubeIn (⟨0, 5 / 2, -25⟩ : Vec3 ℝ)).bbox_min).2.1| =
      0.01 :=
  (placementOffsets_classification Real.cos Real.pi 0
    (cubeIn (⟨0, 5 / 2, -25⟩ : Vec3 ℝ)).bbox_min).1
    (by norm_num [Real.cos_zero])

end ClassificationFacts

section AnchoringFacts

variable {α : Type} [LinearOrderedField α]

/-- C18: the anchoring update sets the X, Y, Z of both corners of an anchored
portal's box to `(prop.x, prop.y, prop.z + 1.01)` and keeps its angle; it keeps
the box of a portal that is not anchored; it changes no flag, timer, prop or
camera global; applied twice it gives the same state as applied once. -/
theorem anchoringUpdate_spec (g : Globals α) :
    (g.Portal1OnCube = true →
      (anchoringUpdate g).Portal1Bbox.bbox_min.x = g.cubePosition.x ∧
      (anchoringUpdate g).Portal1Bbox.bbox_min.y = g.cubePosition.y ∧
      (anchoringUpdate g).Portal1Bbox.bbox_min.z = g.cubePosition.z + 1.01 ∧
      (anchoringUpdate g).Portal1Bbox.bbox_max.x = g.cubePosition.x ∧
      (anchoringUpdate g).Portal1Bbox.bbox_max.y = g.cubePosition.y ∧
      (anchoringUpdate g).Portal1Bbox.bbox_max.z = g.cubePosition.z + 1.01 ∧
      (anchoringUpdate g).Portal1Bbox.angle = g.Portal1Bbox.angle) ∧
    (g.Portal1OnCube = false → (anchoringUpdate g).Portal1Bbox = g.Portal1Bbox) ∧
    (g.Portal2OnCube = true →
      (anchoringUpdate g).Portal2Bbox.bbox_min.x = g.cubePosition.x ∧
      (anchoringUpdate g).Portal2Bbox.bbox_min.y = g.cubePosition.y ∧
      (anchoringUpdate g).Portal2Bbox.bbox_min.z = g.cubePosition.z + 1.01 ∧
      (anchoringUpdate g).Portal2Bbox.bbox_max.x = g.cubePosition.x ∧
      (anchoringUpdate g).Portal2Bbox.bbox_max.y = g.cubePosition.y ∧
      (anchoringUpdate g).Portal2Bbox.bbox_max.z = g.cubePosition.z + 1.01 ∧
      (anchoringUpdate g).Portal2Bbox.angle = g.Portal2Bbox.angle) ∧
    (g.Portal2OnCube = false → (anchoringUpdate g).Portal2Bbox = g.Portal2Bbox) ∧
    ((anchoringUpdate g).Portal1Created = g.Portal1Created ∧
      (anchoringUpdate g).Portal1OnCube = g.Portal1OnCube ∧
      (anchoringUpdate g).Portal2Created = g.Portal2Created ∧
      (anchoringUpdate g).Portal2OnCube = g.Portal2OnCube ∧
      (anchoringUpdate g).lastPortal1Time = g.lastPortal1Time ∧
      (anchoringUpdate g).lastPortal2Time = g.lastPortal2Time ∧
      (anchoringUpdate g).cubePosition = g.cubePosition ∧
      (anchoringUpdate g).blockMove = g.blockMove ∧
      (anchoringUpdate g).g_CameraTheta = g.g_CameraTheta ∧
      (anchoringUpdate g).camera_position_c = g.camera_position_c) ∧
    anchoringUpdate (anchoringUpdate g) = anchoringUpdate g := by
  refine ⟨?_, ?_, ?_, ?_, ?_, ?_⟩
  · intro h
    cases h2 : g.Portal2OnCube <;> simp [anchoringUpdate, anchorBox, h, h2]
  · intro h
    cases h2 : g.Portal2OnCube <;> simp [anchoringUpdate, h, h2]
  · intro h
    cases h1 : g.Portal1OnCube <;> simp [anchoringUpdate, anchorBox, h, h1]
  · intro h
    cases h1 : g.Portal1OnCube <;> simp [anchoringUpdate, h, h1]
  · cases h1 : g.Portal1OnCube <;> cases h2 : g.Portal2OnCube <;>
      simp [anchoringUpdate, h1, h2]
  · cases h1 : g.Portal1OnCube <;> cases h2 : g.Portal2OnCube <;>
      simp [anchoringUpdate, anchorBox, h1, h2]

/-- C18 at a concrete state: Portal 1 anchored, the prop at `(-10, 3, -25)`. -/
theorem anchoringUpdate_spec_witness :
    (anchoringUpdate { portalsOnWalls (0 : ℚ) 0 ⟨0, 0, 0, 1⟩ with
      Portal1OnCube := true
      cubePosition := ⟨-10, 3, -25⟩ }).Portal1Bbox.bbox_min.z = -25 + 1.01 :=
  ((anchoringUpdate_spec { portalsOnWalls (0 : ℚ) 0 ⟨0, 0, 0, 1⟩ with
      Portal1OnCube := true
      cubePosition := ⟨-10, 3, -25⟩ }).1 rfl).2.2.1

end AnchoringFacts

section CollisionFacts

variable {α : Type} [LinearOrderedField α]

/-- The collision loop sets `blockMove` exactly when it was set before or some
obstacle's inflated box contains the camera. -/
theorem collisionIteration_foldl_iff (l : List (bbox α)) (g : Globals α) :
    (l.foldl collisionIteration g).blockMove = true ↔
      g.blockMove = true ∨
      ∃ b ∈ l, detectColision g.camera_position_c (wallHitbox b).1 (wallHitbox b).2 = true := by
  induction l generalizing g with
  | nil => simp
  | cons c t ih =>
    rw [List.foldl_cons, ih]
    have hc : (collisionIteration g c).camera_position_c = g.camera_position_c := by
      unfold collisionIteration
      split_ifs <;> rfl
    rw [hc]
    by_cases hd : detectColision g.camera_position_c (wallHitbox c).1 (wallHitbox c).2 = true
    · have hb : (collisionIteration g c).blockMove = true := by
        simp [collisionIteration, hd]
      simp [hb, hd]
    · have hb : (collisionIteration g c).blockMove = g.blockMove := by
        simp [collisionIteration, hd]
      simp [hb, hd]

/-- C19: after the collision gate over the eight boxes of `collisionList`,
`blockMove` is true exactly when one of them, with `min` lowered and `max` raised
by 1 on X and on Z and unchanged on Y, contains the camera position, bounds
included. -/
theorem collisionGate_blockMove_iff (atan2 : α → α → α) (g : Globals α) :
    ((collisionGate (collisionList atan2) g).blockMove = true ↔
      ∃ b ∈ collisionList atan2,
        b.bbox_min.x - 1 ≤ g.camera_position_c.x ∧ g.camera_position_c.x ≤ b.bbox_max.x + 1 ∧
        b.bbox_min.y ≤ g.camera_position_c.y ∧ g.camera_position_c.y ≤ b.bbox_max.y ∧
        b.bbox_min.z - 1 ≤ g.camera_position_c.z ∧ g.camera_position_c.z ≤ b.bbox_max.z + 1) ∧
    (collisionList atan2).length = 8 ∧
    (collisionGate (collisionList atan2) g).camera_position_c = g.camera_position_c := by
  refine ⟨?_, rfl, ?_⟩
  · unfold collisionGate
    rw [collisionIteration_foldl_iff]
    simp only [Bool.false_eq_true, false_or, detectColision_eq_true_iff, wallHitbox]
  · unfold collisionGate
    rw [collisionIteration_foldl_camera]

end CollisionFacts

section FlatBoxFacts

variable {α : Type} [LinearOrderedField α]

/-- Every hit that `CheckLineBox` reports on a box that is flat on X lies on its
plane. -/
theorem CheckLineBox_flat_x (B1 B2 L1 vector_view Hit : Vec4 α) (hflat : B1.x = B2.x)
    (h : (CheckLineBox B1 B2 L1 vector_view Hit).1 = true) :
    (CheckLineBox B1 B2 L1 vector_view Hit).2.x = B1.x := by
  rcases CheckLineBox_true_cases B1 B2 L1 vector_view Hit h with ⟨hin, _⟩ | ⟨s, _, _, _, hc⟩
  · exact absurd (hin.1.trans hin.2.1) (by rw [hflat]; exact lt_irrefl _)
  · rcases hc with ⟨hp, _⟩ | ⟨_, hb⟩ | ⟨_, hb⟩
    · rcases hp with hp | hp
      · exact hp
      · rw [hflat]; exact hp
    · rw [InBox_two] at hb
      exact absurd (hb.2.2.1.trans hb.2.2.2) (by rw [hflat]; exact lt_irrefl _)
    · rw [InBox_three] at hb
      exact absurd (hb.1.trans hb.2.1) (by rw [hflat]; exact lt_irrefl _)

/-- Every hit that `CheckLineBox` reports on a box that is flat on Z lies on its
plane. -/
theorem CheckLineBox_flat_z (B1 B2 L1 vector_view Hit : Vec4 α) (hflat : B1.z = B2.z)
    (h : (CheckLineBox B1 B2 L1 vector_view Hit).1 = true) :
    (CheckLineBox B1 B2 L1 vector_view Hit).2.z = B1.z := by
  rcases CheckLineBox_true_cases B1 B2 L1 vector_view Hit h with ⟨hin, _⟩ | ⟨s, _, _, _, hc⟩
  · exact absurd (hin.2.2.2.2.1.trans hin.2.2.2.2.2) (by rw [hflat]; exact lt_irrefl _)
  · rcases hc with ⟨_, hb⟩ | ⟨_, hb⟩ | ⟨hp, _⟩
    · rw [InBox_one] at hb
      exact absurd (hb.1.trans hb.2.1) (by rw [hflat]; exact lt_irrefl _)
    · rw [InBox_two] at hb
      exact absurd (hb.1.trans hb.2.1) (by rw [hflat]; exact lt_irrefl _)
    · rcases hp with hp | hp
      · exact hp
      · rw [hflat]; exact hp

end FlatBoxFacts

section ConfiguredSurfaces

/-- The angle `atan2(5, 0)` of a wall along Z is `π/2`. -/
theorem arg_side : Complex.arg ⟨0, 5⟩ = Real.pi / 2 :=
  Complex.arg_eq_pi_div_two_iff.2 ⟨rfl, by norm_num⟩

/-- The angle `atan2(5, 100)` of the wall `z = 50` is positive and below 0.1. -/
theorem arg_front : 0 < Complex.arg ⟨100, 5⟩ ∧ Complex.arg ⟨100, 5⟩ < 0.1 := by
  have ht : Real.tan (Complex.arg ⟨100, 5⟩) = 5 / 100 := Complex.tan_arg _
  have hlt : |Complex.arg ⟨100, 5⟩| < Real.pi / 2 :=
    Complex.abs_arg_lt_pi_div_two_iff.2 (Or.inl (by norm_num))
  have h0 : 0 ≤ Complex.arg ⟨100, 5⟩ := Complex.arg_nonneg_iff.2 (by norm_num)
  have hpi := Real.pi_gt_three
  constructor
  · rcases h0.lt_or_eq with h | h
    · exact h
    · rw [← h, Real.tan_zero] at ht
      norm_num at ht
  · by_contra hc
    have h1 : (0.1 : ℝ) ≤ Complex.arg ⟨100, 5⟩ := not_lt.1 hc
    have h2 : Real.tan 0.1 ≤ Real.tan (Complex.arg ⟨100, 5⟩) := by
      rcases h1.lt_or_eq with h | h
      · exact (Real.tan_lt_tan_of_nonneg_of_lt_pi_div_two (by norm_num) (abs_lt.1 hlt).2 h).le
      · rw [h]
    have h3 : (0.1 : ℝ) < Real.tan 0.1 :=
      Real.lt_tan (by norm_num) (by norm_num; linarith)
    rw [ht] at h2
    norm_num at h2 h3
    linarith

/-- The stored angle of `wall2` is `π/2`. -/
theorem wall2_angle : (wall2 (fun y x => Complex.arg ⟨x, y⟩)).angle = Real.pi / 2 := by
  have h : (wall2 (fun y x => Complex.arg ⟨x, y⟩)).angle = Complex.arg ⟨0, 5⟩ := by
    simp only [wall2, boxAngle, width, height]
    norm_num
  rw [h, arg_side]

/-- The stored angle of `wall4` is `π/2`. -/
theorem wall4_angle : (wall4 (fun y x => Complex.arg ⟨x, y⟩)).angle = Real.pi / 2 := by
  have h : (wall4 (fun y x => Complex.arg ⟨x, y⟩)).angle = Complex.arg ⟨0, 5⟩ := by
    simp only [wall4, boxAngle, width, height]
    norm_num
  rw [h, arg_side]

/-- The stored angle of `wall3` is positive and below the snap threshold 0.1. -/
theorem wall3_angle : 0 < (wall3 (fun y x => Complex.arg ⟨x, y⟩)).angle ∧
    (wall3 (fun y x => Complex.arg ⟨x, y⟩)).angle < 0.1 := by
  have h : (wall3 (fun y x => Complex.arg ⟨x, y⟩)).angle = Complex.arg ⟨100, 5⟩ := by
    simp only [wall3, boxAngle, width, height]
    norm_num
  rw [h]
  exact arg_front

/-- On `wall2` the decal is offset by +0.01 along X and turned to `π/2 + π`. -/
theorem placementOffsets_wall2 :
    placementOffsets Real.cos Real.pi (wall2 (fun y x => Complex.arg ⟨x, y⟩)).angle
      (wall2 (fun y x => Complex.arg ⟨x, y⟩)).bbox_min = (0.01, 0, Real.pi / 2 + Real.pi) := by
  have hpi := Real.pi_gt_three
  rw [wall2_angle]
  have h1 : ¬ (Real.pi / 2 < 0.1) := by
    intro h
    norm_num at h
    linarith
  have h2 : ¬ (Real.cos (Real.pi / 2) > 0.01) := by
    rw [Real.cos_pi_div_two]
    norm_num
  have h3 : ¬ ((wall2 (fun y x => Complex.arg ⟨x, y⟩)).bbox_min.x > 0) := by
    simp only [wall2, width]
    norm_num
  simp only [placementOffsets, if_neg h1, if_neg h2, if_neg h3]

/-- On `wall3` the decal is offset by -0.01 along Z and keeps the angle 0. -/
theorem placementOffsets_wall3 :
    placementOffsets Real.cos Real.pi (wall3 (fun y x => Complex.arg ⟨x, y⟩)).angle
      (wall3 (fun y x => Complex.arg ⟨x, y⟩)).bbox_min = (0, 0.01 * -1, 0) := by
  have h1 : (wall3 (fun y x => Complex.arg ⟨x, y⟩)).angle < 0.1 := wall3_angle.2
  have h2 : Real.cos 0 > 0.01 := by
    rw [Real.cos_zero]
    norm_num
  have h3 : (wall3 (fun y x => Complex.arg ⟨x, y⟩)).bbox_min.z > 0 := by
    simp only [wall3, width]
    norm_num
  simp only [placementOffsets, if_pos h1, if_pos h2, if_pos h3]

/-- On `wall4` the decal is offset by -0.01 along X and keeps the angle `π/2`. -/
theorem placementOffsets_wall4 :
    placementOffsets Real.cos Real.pi (wall4 (fun y x => Complex.arg ⟨x, y⟩)).angle
      (wall4 (fun y x => Complex.arg ⟨x, y⟩)).bbox_min = (0.01 * -1, 0, Real.pi / 2) := by
  have hpi := Real.pi_gt_three
  rw [wall4_angle]
  have h1 : ¬ (Real.pi / 2 < 0.1) := by
    intro h
    norm_num at h
    linarith
  have h2 : ¬ (Real.cos (Real.pi / 2) > 0.01) := by
    rw [Real.cos_pi_div_two]
    norm_num
  have h3 : (wall4 (fun y x => Complex.arg ⟨x, y⟩)).bbox_min.x > 0 := by
    simp only [wall4, width]
    norm_num
  simp only [placementOffsets, if_neg h1, if_neg h2, if_pos h3]

/-- On the prop box the decal is offset along Z; it keeps the angle 0 when the
box's `bbox_min.z` is positive and is turned to `π` otherwise. -/
theorem placementOffsets_cube (cp : Vec3 ℝ) :
    placementOffsets Real.cos Real.pi (cubeIn cp).angle (cubeIn cp).bbox_min =
      if cp.z + 1 > 0 then (0, 0.01 * -1, 0) else (0, 0.01, 0 + Real.pi) := by
  have h1 : (0 : ℝ) < 0.1 := by norm_num
  have h2 : Real.cos 0 > 0.01 := by
    rw [Real.cos_zero]
    norm_num
  simp only [placementOffsets, cubeIn, if_pos h1, if_pos h2]

/-- The angle of the decal box on each configured candidate surface. -/
theorem decalBox_angle_configured (cp : Vec3 ℝ) (c : bbox ℝ)
    (hc : c ∈ cubeIn cp :: portalList (fun y x => Complex.arg ⟨x, y⟩)) (p : Vec4 ℝ) :
    (decalBox Real.cos Real.pi c.angle c.bbox_min p).angle = 0 ∨
    (decalBox Real.cos Real.pi c.angle c.bbox_min p).angle = Real.pi / 2 ∨
    (decalBox Real.cos Real.pi c.angle c.bbox_min p).angle = Real.pi ∨
    (decalBox Real.cos Real.pi c.angle c.bbox_min p).angle = Real.pi / 2 + Real.pi := by
  simp only [portalList, List.mem_cons, List.mem_singleton, List.not_mem_nil, or_false] at hc
  rcases hc with rfl | rfl | rfl | rfl
  · simp only [decalBox, placementOffsets_cube]
    split_ifs
    · exact Or.inl rfl
    · exact Or.inr (Or.inr (Or.inl (zero_add _)))
  · right; right; right
    simp only [decalBox, placementOffsets_wall2]
  · left
    simp only [decalBox, placementOffsets_wall3]
  · right; left
    simp only [decalBox, placementOffsets_wall4]

/-- C14, the claim fails: from `(0, 5/2, -40)` looking along `+z` the ray hits
the prop box, and the angle assigned to Portal 1 is `π`, which is not below `π`. -/
theorem placementStep_angle_pi :
    (placementStep Real.cos (fun y x => Complex.arg ⟨x, y⟩) Real.pi 3 true false
      ⟨0, 0, 1, 0⟩ (portalList (fun y x => Complex.arg ⟨x, y⟩)) ⟨0, 0, 0, 0⟩
      (portalsOnWalls (0 : ℝ) (Real.pi / 2) ⟨0, 5 / 2, -40, 1⟩)).Portal1Bbox.angle = Real.pi ∧
    ¬ ((placementStep Real.cos (fun y x => Complex.arg ⟨x, y⟩) Real.pi 3 true false
      ⟨0, 0, 1, 0⟩ (portalList (fun y x => Complex.arg ⟨x, y⟩)) ⟨0, 0, 0, 0⟩
      (portalsOnWalls (0 : ℝ) (Real.pi / 2) ⟨0, 5 / 2, -40, 1⟩)).Portal1Bbox.angle < Real.pi) := by
  have hf : firstHit (portalsOnWalls (0 : ℝ) (Real.pi / 2) ⟨0, 5 / 2, -40, 1⟩).camera_position_c
      ⟨0, 0, 1, 0⟩ ⟨0, 0, 0, 0⟩
      (cubeIn (portalsOnWalls (0 : ℝ) (Real.pi / 2) ⟨0, 5 / 2, -40, 1⟩).cubePosition ::
        portalList (fun y x => Complex.arg ⟨x, y⟩)) =
      some (cubeIn (portalsOnWalls (0 : ℝ) (Real.pi / 2) ⟨0, 5 / 2, -40, 1⟩).cubePosition,
        ⟨0, 5 / 2, -24, 1⟩) := by
    norm_num [firstHit, CheckLineBox, crossing, GetIntersection, InBox, Vec4.add, Vec4.smul, Vec4.sub,
      cubeIn, cubeWidth, height, portalsOnWalls]
  obtain ⟨hb, _, _⟩ := placementStep_portal1_first Real.cos (fun y x => Complex.arg ⟨x, y⟩) Real.pi 3
    true false ⟨0, 0, 1, 0⟩ (portalList (fun y x => Complex.arg ⟨x, y⟩)) ⟨0, 0, 0, 0⟩
    (portalsOnWalls (0 : ℝ) (Real.pi / 2) ⟨0, 5 / 2, -40, 1⟩)
    ⟨by norm_num [portalsOnWalls], rfl⟩ _ _ hf
  have ha : (decalBox Real.cos Real.pi
      (cubeIn (portalsOnWalls (0 : ℝ) (Real.pi / 2) ⟨0, 5 / 2, -40, 1⟩).cubePosition).angle
      (cubeIn (portalsOnWalls (0 : ℝ) (Real.pi / 2) ⟨0, 5 / 2, -40, 1⟩).cubePosition).bbox_min
      ⟨0, 5 / 2, -24, 1⟩).angle = Real.pi := by
    simp only [decalBox, placementOffsets_cube]
    norm_num [portalsOnWalls]
  rw [hb, ha]
  exact ⟨rfl, lt_irrefl _⟩

/-- C14, amended: every angle assigned to Portal 1 or Portal 2 by a successful
placement on a configured candidate surface (prop box, `wall2`, `wall3`,
`wall4`) lies in `[0, 2π)`. -/
theorem placementStep_angle_range (time : ℝ) (left right : Bool) (view point : Vec4 ℝ)
    (g : Globals ℝ) (c : bbox ℝ) (p : Vec4 ℝ)
    (hf : firstHit g.camera_position_c view point
      (cubeIn g.cubePosition :: portalList (fun y x => Complex.arg ⟨x, y⟩)) = some (c, p))
    (a : ℝ)
    (hB : (time - g.lastPortal1Time > 0.5 ∧ left = true ∧
        a = (placementStep Real.cos (fun y x => Complex.arg ⟨x, y⟩) Real.pi time left right view
        (portalList (fun y x => Complex.arg ⟨x, y⟩)) point g).Portal1Bbox.angle) ∨
      (time - g.lastPortal2Time > 0.5 ∧ right = true ∧
        a = (placementStep Real.cos (fun y x => Complex.arg ⟨x, y⟩) Real.pi time left right view
        (portalList (fun y x => Complex.arg ⟨x, y⟩)) point g).Portal2Bbox.angle)) :
    0 ≤ a ∧ a < 2 * Real.pi := by
  have hm := ((firstHit_spec g.camera_position_c view point _).2 c p hf).1
  have hE : a = (decalBox Real.cos Real.pi c.angle c.bbox_min p).angle := by
    rcases hB with ⟨h1, h2, rfl⟩ | ⟨h1, h2, rfl⟩
    · rw [(placementStep_portal1_first Real.cos (fun y x => Complex.arg ⟨x, y⟩) Real.pi time left right
        view _ point g ⟨h1, h2⟩ c p hf).1]
    · rw [(placementStep_portal2_first Real.cos (fun y x => Complex.arg ⟨x, y⟩) Real.pi time left right
        view _ point g ⟨h1, h2⟩ c p hf (by
          intro w hw
          simp only [portalList, List.mem_cons, List.mem_singleton, List.not_mem_nil,
            or_false] at hw
          rcases hw with rfl | rfl | rfl <;> rfl)).1]
  have hpi := Real.pi_gt_three
  rw [hE]
  rcases decalBox_angle_configured g.cubePosition c hm p with h | h | h | h <;> rw [h] <;>
    constructor <;> linarith

/-- C14 amended, at the frame of the prop-box hit: the angle `π` of Portal 1 is
in `[0, 2π)`. -/
theorem placementStep_angle_range_witness :
    0 ≤ (placementStep Real.cos (fun y x => Complex.arg ⟨x, y⟩) Real.pi 3 true false
      ⟨0, 0, 1, 0⟩ (portalList (fun y x => Complex.arg ⟨x, y⟩)) ⟨0, 0, 0, 0⟩
      (portalsOnWalls (0 : ℝ) (Real.pi / 2) ⟨0, 5 / 2, -40, 1⟩)).Portal1Bbox.angle ∧
    (placementStep Real.cos (fun y x => Complex.arg ⟨x, y⟩) Real.pi 3 true false
      ⟨0, 0, 1, 0⟩ (portalList (fun y x => Complex.arg ⟨x, y⟩)) ⟨0, 0, 0, 0⟩
      (portalsOnWalls (0 : ℝ) (Real.pi / 2) ⟨0, 5 / 2, -40, 1⟩)).Portal1Bbox.angle < 2 * Real.pi :=
  placementStep_angle_range 3 true false ⟨0, 0, 1, 0⟩ ⟨0, 0, 0, 0⟩
    (portalsOnWalls (0 : ℝ) (Real.pi / 2) ⟨0, 5 / 2, -40, 1⟩)
    (cubeIn (portalsOnWalls (0 : ℝ) (Real.pi / 2) ⟨0, 5 / 2, -40, 1⟩).cubePosition)
    ⟨0, 5 / 2, -24, 1⟩
    (by
      norm_num [firstHit, CheckLineBox, crossing, GetIntersection, InBox, Vec4.add, Vec4.smul, Vec4.sub,
        cubeIn, cubeWidth, height, portalsOnWalls])
    _ (Or.inl ⟨by norm_num [portalsOnWalls], rfl, rfl⟩)

end ConfiguredSurfaces

section WallDecals

/-- C16: when the first candidate hit is one of the static walls, the `bbox_min`
corner of the decal box placed for Portal 1 or Portal 2 is 0.01 off the wall
plane, on the room's side: `x = -49.99` on `wall2` (plane `x = -50`),
`z = 49.99` on `wall3` (plane `z = 50`), `x = 49.99` on `wall4` (plane
`x = 50`); its other horizontal coordinate is the hit point's. -/
theorem placementStep_wall_decal (time : ℝ) (left right : Bool) (view point : Vec4 ℝ)
    (g : Globals ℝ) (c : bbox ℝ) (p : Vec4 ℝ)
    (hf : firstHit g.camera_position_c view point
      (cubeIn g.cubePosition :: portalList (fun y x => Complex.arg ⟨x, y⟩)) = some (c, p))
    (B : bbox ℝ)
    (hB : (time - g.lastPortal1Time > 0.5 ∧ left = true ∧
        B = (placementStep Real.cos (fun y x => Complex.arg ⟨x, y⟩) Real.pi time left right view
        (portalList (fun y x => Complex.arg ⟨x, y⟩)) point g).Portal1Bbox) ∨
      (time - g.lastPortal2Time > 0.5 ∧ right = true ∧
        B = (placementStep Real.cos (fun y x => Complex.arg ⟨x, y⟩) Real.pi time left right view
        (portalList (fun y x => Complex.arg ⟨x, y⟩)) point g).Portal2Bbox)) :
    (c = wall2 (fun y x => Complex.arg ⟨x, y⟩) →
      p.x = -50 ∧ B.bbox_min.x = -49.99 ∧ B.bbox_min.z = p.z) ∧
    (c = wall3 (fun y x => Complex.arg ⟨x, y⟩) →
      p.z = 50 ∧ B.bbox_min.z = 49.99 ∧ B.bbox_min.x = p.x) ∧
    (c = wall4 (fun y x => Complex.arg ⟨x, y⟩) →
      p.x = 50 ∧ B.bbox_min.x = 49.99 ∧ B.bbox_min.z = p.z) := by
  have hhit := ((firstHit_spec g.camera_position_c view point _).2 c p hf).2
  have hE : B = decalBox Real.cos Real.pi c.angle c.bbox_min p := by
    rcases hB with ⟨h1, h2, rfl⟩ | ⟨h1, h2, rfl⟩
    · exact (placementStep_portal1_first Real.cos (fun y x => Complex.arg ⟨x, y⟩) Real.pi time left right
        view _ point g ⟨h1, h2⟩ c p hf).1
    · exact (placementStep_portal2_first Real.cos (fun y x => Complex.arg ⟨x, y⟩) Real.pi time left right
        view _ point g ⟨h1, h2⟩ c p hf (by
          intro w hw
          simp only [portalList, List.mem_cons, List.mem_singleton, List.not_mem_nil,
            or_false] at hw
          rcases hw with rfl | rfl | rfl <;> rfl)).1
  have h1 : (CheckLineBox c.bbox_min c.bbox_max g.camera_position_c view point).1 = true := by
    rw [hhit]
  have h2 : (CheckLineBox c.bbox_min c.bbox_max g.camera_position_c view point).2 = p := by
    rw [hhit]
  refine ⟨?_, ?_, ?_⟩
  · intro hc
    have hp : p.x = -50 := by
      rw [← h2, CheckLineBox_flat_x _ _ _ _ _ (by rw [hc]; rfl) h1, hc]
      simp only [wall2, width]
    rw [hE, hc]
    simp only [decalBox, placementOffsets_wall2, hp]
    norm_num
  · intro hc
    have hp : p.z = 50 := by
      rw [← h2, CheckLineBox_flat_z _ _ _ _ _ (by rw [hc]; rfl) h1, hc]
      simp only [wall3, width]
    rw [hE, hc]
    simp only [decalBox, placementOffsets_wall3, hp]
    norm_num
  · intro hc
    have hp : p.x = 50 := by
      rw [← h2, CheckLineBox_flat_x _ _ _ _ _ (by rw [hc]; rfl) h1, hc]
      simp only [wall4, width]
    rw [hE, hc]
    simp only [decalBox, placementOffsets_wall4, hp]
    norm_num

/-- C16 at a concrete frame: from `(3, 2, 0)` looking along `+z` the ray hits
`wall3` at `(3, 2, 50)`, and Portal 1's decal is placed at `z = 49.99`, `x = 3`. -/
theorem placementStep_wall_decal_witness :
    (⟨3, 2, 50, 1⟩ : Vec4 ℝ).z = 50 ∧
    (placementStep Real.cos (fun y x => Complex.arg ⟨x, y⟩) Real.pi 3 true false
      ⟨0, 0, 1, 0⟩ (portalList (fun y x => Complex.arg ⟨x, y⟩)) ⟨0, 0, 0, 0⟩
      (portalsOnWalls (0 : ℝ) (Real.pi / 2) ⟨3, 2, 0, 1⟩)).Portal1Bbox.bbox_min.z = 49.99 ∧
    (placementStep Real.cos (fun y x => Complex.arg ⟨x, y⟩) Real.pi 3 true false
      ⟨0, 0, 1, 0⟩ (portalList (fun y x => Complex.arg ⟨x, y⟩)) ⟨0, 0, 0, 0⟩
      (portalsOnWalls (0 : ℝ) (Real.pi / 2) ⟨3, 2, 0, 1⟩)).Portal1Bbox.bbox_min.x =
      (⟨3, 2, 50, 1⟩ : Vec4 ℝ).x :=
  (placementStep_wall_decal 3 true false ⟨0, 0, 1, 0⟩ ⟨0, 0, 0, 0⟩
    (portalsOnWalls (0 : ℝ) (Real.pi / 2) ⟨3, 2, 0, 1⟩)
    (wall3 (fun y x => Complex.arg ⟨x, y⟩)) ⟨3, 2, 50, 1⟩
    (by
      norm_num [firstHit, portalList, CheckLineBox, crossing, GetIntersection, InBox, Vec4.add, Vec4.smul, Vec4.sub,
        cubeIn, cubeWidth, wall2, wall3, width, height, spaceDistance, portalsOnWalls])
    _ (Or.inl ⟨by norm_num [portalsOnWalls], rfl, rfl⟩)).2.1 rfl

end WallDecals

section FrameFacts

variable {α : Type} [LinearOrderedField α]

/-- The teleport check of Portal 2 when it fires: every written global. -/
theorem teleportPortal2_fire (cos : α → α) (M_PI : α) (g : Globals α)
    (h2 : g.Portal2Created = true) (h1 : g.Portal1Created = true)
    (hin : detectColision g.camera_position_c (hitBoxPortal cos g.Portal2Bbox).1
      (hitBoxPortal cos g.Portal2Bbox).2 = true) :
    teleportPortal2 cos M_PI g =
      { g with
          blockMove := false
          camera_position_c :=
            { g.camera_position_c with
                x := g.Portal1Bbox.bbox_min.x + (exitOffset cos g.Portal1Bbox).1
                z := g.Portal1Bbox.bbox_min.z + (exitOffset cos g.Portal1Bbox).2 }
          g_CameraTheta := g.g_CameraTheta +
            angleCorrection cos M_PI g.Portal2Bbox.angle g.Portal1Bbox.angle } := by
  simp [teleportPortal2, h1, h2, hin]

/-- The teleport check of Portal 2 when it does not fire: nothing is written. -/
theorem teleportPortal2_idle (cos : α → α) (M_PI : α) (g : Globals α)
    (h : g.Portal2Created = false ∨ g.Portal1Created = false ∨
      detectColision g.camera_position_c (hitBoxPortal cos g.Portal2Bbox).1
        (hitBoxPortal cos g.Portal2Bbox).2 = false) :
    teleportPortal2 cos M_PI g = g := by
  rcases h with h | h | h <;> simp [teleportPortal2, h]

/-- `portal1Fires` is the conjunction of the three tests. -/
theorem portal1Fires_eq_true_iff (cos : α → α) (g : Globals α) :
    portal1Fires cos g = true ↔
      g.Portal1Created = true ∧
      detectColision g.camera_position_c (hitBoxPortal cos g.Portal1Bbox).1
        (hitBoxPortal cos g.Portal1Bbox).2 = true ∧
      g.Portal2Created = true := by
  simp [portal1Fires, and_assoc]

/-- `portal2Fires` is the conjunction of the three tests. -/
theorem portal2Fires_eq_true_iff (cos : α → α) (g : Globals α) :
    portal2Fires cos g = true ↔
      g.Portal2Created = true ∧
      detectColision g.camera_position_c (hitBoxPortal cos g.Portal2Bbox).1
        (hitBoxPortal cos g.Portal2Bbox).2 = true ∧
      g.Portal1Created = true := by
  simp [portal2Fires, and_assoc]

/-- The Portal-1 check writes nothing when it does not fire. -/
theorem teleportPortal1_of_not_fires (cos : α → α) (M_PI : α) (g : Globals α)
    (h : portal1Fires cos g = false) : teleportPortal1 cos M_PI g = g := by
  apply teleportPortal1_idle
  by_contra hc
  push_neg at hc
  have : portal1Fires cos g = true :=
    (portal1Fires_eq_true_iff cos g).2
      ⟨by simpa using hc.1, by simpa using hc.2.2, by simpa using hc.2.1⟩
  rw [h] at this
  exact absurd this (by simp)

/-- The Portal-2 check writes nothing when it does not fire. -/
theorem teleportPortal2_of_not_fires (cos : α → α) (M_PI : α) (g : Globals α)
    (h : portal2Fires cos g = false) : teleportPortal2 cos M_PI g = g := by
  apply teleportPortal2_idle
  by_contra hc
  push_neg at hc
  have : portal2Fires cos g = true :=
    (portal2Fires_eq_true_iff cos g).2
      ⟨by simpa using hc.1, by simpa using hc.2.2, by simpa using hc.2.1⟩
  rw [h] at this
  exact absurd this (by simp)

/-- The Portal-1 check clears `blockMove` and moves the camera when it fires,
and keeps both portal boxes. -/
theorem teleportPortal1_of_fires (cos : α → α) (M_PI : α) (g : Globals α)
    (h : portal1Fires cos g = true) :
    (teleportPortal1 cos M_PI g).blockMove = false ∧
    (teleportPortal1 cos M_PI g).camera_position_c.x =
      g.Portal2Bbox.bbox_min.x + (exitOffset cos g.Portal2Bbox).1 ∧
    (teleportPortal1 cos M_PI g).camera_position_c.z =
      g.Portal2Bbox.bbox_min.z + (exitOffset cos g.Portal2Bbox).2 := by
  obtain ⟨h1, hin, h2⟩ := (portal1Fires_eq_true_iff cos g).1 h
  rw [teleportPortal1_fire cos M_PI g h1 h2 hin]
  exact ⟨rfl, rfl, rfl⟩

/-- The Portal-2 check clears `blockMove` and moves the camera when it fires. -/
theorem teleportPortal2_of_fires (cos : α → α) (M_PI : α) (g : Globals α)
    (h : portal2Fires cos g = true) :
    (teleportPortal2 cos M_PI g).blockMove = false ∧
    (teleportPortal2 cos M_PI g).camera_position_c.x =
      g.Portal1Bbox.bbox_min.x + (exitOffset cos g.Portal1Bbox).1 ∧
    (teleportPortal2 cos M_PI g).camera_position_c.z =
      g.Portal1Bbox.bbox_min.z + (exitOffset cos g.Portal1Bbox).2 := by
  obtain ⟨h2, hin, h1⟩ := (portal2Fires_eq_true_iff cos g).1 h
  rw [teleportPortal2_fire cos M_PI g h2 h1 hin]
  exact ⟨rfl, rfl, rfl⟩

/-- The Portal-1 check keeps both portal boxes. -/
theorem teleportPortal1_boxes (cos : α → α) (M_PI : α) (g : Globals α) :
    (teleportPortal1 cos M_PI g).Portal1Bbox = g.Portal1Bbox ∧
    (teleportPortal1 cos M_PI g).Portal2Bbox = g.Portal2Bbox := by
  unfold teleportPortal1
  simp only []
  split_ifs <;> exact ⟨rfl, rfl⟩

/-- The loop over `portalList` does not write `blockMove`. -/
theorem wallLoop_blockMove (cos : α → α) (atan2 : α → α → α) (M_PI time : α)
    (left right : Bool) (view point : Vec4 α) (ws : List (bbox α)) (g : Globals α) :
    (ws.foldl (wallIteration cos atan2 M_PI time left right view point) g).blockMove =
      g.blockMove := by
  induction ws generalizing g with
  | nil => rfl
  | cons w t ih =>
    rw [List.foldl_cons, ih]
    unfold wallIteration placePortal2OnWall placePortal1OnWall
    simp only []
    split_ifs <;> rfl

/-- The placement step writes neither `blockMove` nor the camera position. -/
theorem placementStep_untouched (cos : α → α) (atan2 : α → α → α) (M_PI time : α)
    (left right : Bool) (view : Vec4 α) (ws : List (bbox α)) (point : Vec4 α) (g : Globals α) :
    (placementStep cos atan2 M_PI time left right view ws point g).blockMove = g.blockMove ∧
    (placementStep cos atan2 M_PI time left right view ws point g).camera_position_c =
      g.camera_position_c := by
  unfold placementStep
  simp only []
  rw [wallLoop_blockMove, (wallLoop_frame cos atan2 M_PI time left right view point ws _).1]
  constructor
  · unfold placePortal2OnCube placePortal1OnCube
    simp only []
    split_ifs <;> rfl
  · rw [(placePortal2OnCube_frame cos M_PI time right view _ _).1,
      (placePortal1OnCube_frame cos M_PI time left view _ _).1]

/-- The anchoring update writes neither `blockMove` nor the camera position. -/
theorem anchoringUpdate_untouched (g : Globals α) :
    (anchoringUpdate g).blockMove = g.blockMove ∧
    (anchoringUpdate g).camera_position_c = g.camera_position_c := by
  unfold anchoringUpdate
  simp only []
  split_ifs <;> exact ⟨rfl, rfl⟩

/-- Before the teleport checks the camera is where `Matrix_Camera_View` moved
it, and `blockMove` is what the collision gate made it. -/
theorem frameBeforeTeleport_untouched (cos : α → α) (atan2 : α → α → α) (M_PI time : α)
    (left right : Bool) (view : Vec4 α) (cl ws : List (bbox α)) (point moved : Vec4 α)
    (bezier_point : Vec3 α) (g : Globals α) :
    (frameBeforeTeleport cos atan2 M_PI time left right view cl ws point moved
        bezier_point g).blockMove =
      (collisionGate cl { g with camera_position_c := moved }).blockMove ∧
    (frameBeforeTeleport cos atan2 M_PI time left right view cl ws point moved
        bezier_point g).camera_position_c = moved := by
  unfold frameBeforeTeleport
  obtain ⟨a1, a2⟩ := anchoringUpdate_untouched (propFollower bezier_point
    (placementStep cos atan2 M_PI time left right view ws point
      (collisionGate cl { g with camera_position_c := moved })))
  obtain ⟨p1, p2⟩ := placementStep_untouched cos atan2 M_PI time left right view ws point
    (collisionGate cl { g with camera_position_c := moved })
  rw [a1, a2]
  simp only [propFollower]
  rw [p1, p2]
  refine ⟨rfl, ?_⟩
  unfold collisionGate
  rw [collisionIteration_foldl_camera]

/-- After the two teleport checks `blockMove` is still set exactly when it was
set before them and neither check fired. -/
theorem teleports_blockMove (cos : α → α) (M_PI : α) (F : Globals α) :
    (teleportPortal2 cos M_PI (teleportPortal1 cos M_PI F)).blockMove = true ↔
      F.blockMove = true ∧ portal1Fires cos F = false ∧
        portal2Fires cos (teleportPortal1 cos M_PI F) = false := by
  cases h2 : portal2Fires cos (teleportPortal1 cos M_PI F) with
  | true =>
    have hb := (teleportPortal2_of_fires cos M_PI _ h2).1
    rw [hb]
    simp
  | false =>
    rw [teleportPortal2_of_not_fires cos M_PI _ h2]
    cases h1 : portal1Fires cos F with
    | true =>
      have hb := (teleportPortal1_of_fires cos M_PI _ h1).1
      rw [hb]
      simp
    | false =>
      rw [teleportPortal1_of_not_fires cos M_PI _ h1]
      simp

/-- The last statement of the frame, line 1098: the camera is the pre-frame
position when `blockMove` is set and is left alone otherwise; `blockMove` is not
written. -/
theorem revert_camera {β : Type} (G : Globals β) (lastCameraPos : Vec4 β) :
    (if G.blockMove then { G with camera_position_c := lastCameraPos } else G).blockMove =
      G.blockMove ∧
    (G.blockMove = true →
      (if G.blockMove then { G with camera_position_c := lastCameraPos }
        else G).camera_position_c = lastCameraPos) ∧
    (G.blockMove = false →
      (if G.blockMove then { G with camera_position_c := lastCameraPos }
        else G).camera_position_c = G.camera_position_c) := by
  cases h : G.blockMove <;> simp [h]

/-- C20, the claim fails: a frame from the initial state in which the movement
leaves the camera where it was, at `(0, 0, 25)`.  The collision gate does not
block and no teleport check fires, so nothing requires a revert, yet the camera
position at the end of the frame equals its pre-frame position. -/
theorem frameFreeCamera_unmoved :
    (collisionGate (collisionList (fun y x => Complex.arg ⟨x, y⟩))
      { (initialGlobals : Globals ℝ) with
        camera_position_c := (initialGlobals : Globals ℝ).camera_position_c }).blockMove =
      false ∧
    portal1Fires Real.cos (frameBeforeTeleport Real.cos (fun y x => Complex.arg ⟨x, y⟩) Real.pi 1
      false false ⟨0, 0, -1, 0⟩ (collisionList (fun y x => Complex.arg ⟨x, y⟩))
      (portalList (fun y x => Complex.arg ⟨x, y⟩)) ⟨0, 0, 0, 0⟩
      (initialGlobals : Globals ℝ).camera_position_c ⟨0, 0, 0⟩ initialGlobals) = false ∧
    portal2Fires Real.cos (teleportPortal1 Real.cos Real.pi (frameBeforeTeleport Real.cos
      (fun y x => Complex.arg ⟨x, y⟩) Real.pi 1 false false ⟨0, 0, -1, 0⟩
      (collisionList (fun y x => Complex.arg ⟨x, y⟩))
      (portalList (fun y x => Complex.arg ⟨x, y⟩)) ⟨0, 0, 0, 0⟩
      (initialGlobals : Globals ℝ).camera_position_c ⟨0, 0, 0⟩ initialGlobals)) = false ∧
    (frameFreeCamera Real.cos (fun y x => Complex.arg ⟨x, y⟩) Real.pi 1 false false
      ⟨0, 0, -1, 0⟩ (collisionList (fun y x => Complex.arg ⟨x, y⟩))
      (portalList (fun y x => Complex.arg ⟨x, y⟩)) ⟨0, 0, 0, 0⟩
      (initialGlobals : Globals ℝ).camera_position_c ⟨0, 0, 0⟩
      initialGlobals).camera_position_c = (initialGlobals : Globals ℝ).camera_position_c := by
  have hF : frameBeforeTeleport Real.cos (fun y x => Complex.arg ⟨x, y⟩) Real.pi 1
      false false ⟨0, 0, -1, 0⟩ (collisionList (fun y x => Complex.arg ⟨x, y⟩))
      (portalList (fun y x => Complex.arg ⟨x, y⟩)) ⟨0, 0, 0, 0⟩
      (initialGlobals : Globals ℝ).camera_position_c ⟨0, 0, 0⟩ initialGlobals =
      initialGlobals := by
    simp [frameBeforeTeleport, anchoringUpdate, propFollower, placementStep,
      placePortal1OnCube, placePortal2OnCube, portalList, wallIteration, placePortal1OnWall,
      placePortal2OnWall, collisionGate, collisionList, collisionIteration, initialGlobals,
      detectColision, wallHitbox, wall1, wall2, wall3, wall4, wall5, wall6, holeIn, holeOut,
      width, height, spaceDistance, cubePositionOrigin]
    norm_num
  have hg : (collisionGate (collisionList (fun y x => Complex.arg ⟨x, y⟩))
      { (initialGlobals : Globals ℝ) with
        camera_position_c := (initialGlobals : Globals ℝ).camera_position_c }).blockMove =
      false := by
    rw [← (frameBeforeTeleport_untouched Real.cos (fun y x => Complex.arg ⟨x, y⟩) Real.pi 1
      false false ⟨0, 0, -1, 0⟩ (collisionList (fun y x => Complex.arg ⟨x, y⟩))
      (portalList (fun y x => Complex.arg ⟨x, y⟩)) ⟨0, 0, 0, 0⟩
      (initialGlobals : Globals ℝ).camera_position_c ⟨0, 0, 0⟩ initialGlobals).1, hF]
    rfl
  have h1 : portal1Fires Real.cos (initialGlobals : Globals ℝ) = false := by
    simp [portal1Fires, initialGlobals]
  have h2 : portal2Fires Real.cos (teleportPortal1 Real.cos Real.pi
      (initialGlobals : Globals ℝ)) = false := by
    rw [teleportPortal1_of_not_fires Real.cos Real.pi _ h1]
    simp [portal2Fires, initialGlobals]
  refine ⟨hg, by rw [hF]; exact h1, by rw [hF]; exact h2, ?_⟩
  unfold frameFreeCamera
  simp only []
  rw [hF, teleportPortal2_of_not_fires Real.cos Real.pi _ h2,
    teleportPortal1_of_not_fires Real.cos Real.pi _ h1]
  simp [initialGlobals]

/-- C20, amended: the camera position at the end of a free-camera frame.  The
camera is put back to its position at the start of the frame when the collision
gate set `blockMove` and neither teleport check fires, and `blockMove` is still
set at the end of the frame exactly in that case.  When a teleport check fires,
`blockMove` ends false and the camera ends at the teleport destination (of the
Portal-2 check when that one fires, else of the Portal-1 check), whatever the
collision gate reported.  When the gate did not block and no check fires, the
camera stays where the movement put it.  So the camera ends at its pre-frame
position exactly when it is put back or the position after the teleport checks
is the pre-frame position itself. -/
theorem frameFreeCamera_camera (cos : α → α) (atan2 : α → α → α) (M_PI time : α)
    (left right : Bool) (view : Vec4 α) (cl ws : List (bbox α)) (point moved : Vec4 α)
    (bezier_point : Vec3 α) (g : Globals α) :
    ((collisionGate cl { g with camera_position_c := moved }).blockMove = true →
      portal1Fires cos (frameBeforeTeleport cos atan2 M_PI time left right view cl ws point moved
        bezier_point g) = false →
      portal2Fires cos (teleportPortal1 cos M_PI (frameBeforeTeleport cos atan2 M_PI time left right view cl ws point moved
        bezier_point g)) = false →
      (frameFreeCamera cos atan2 M_PI time left right view cl ws point moved
        bezier_point g).camera_position_c = g.camera_position_c) ∧
    (portal2Fires cos (teleportPortal1 cos M_PI (frameBeforeTeleport cos atan2 M_PI time left right view cl ws point moved
        bezier_point g)) = true →
      (frameFreeCamera cos atan2 M_PI time left right view cl ws point moved
        bezier_point g).blockMove = false ∧
      (frameFreeCamera cos atan2 M_PI time left right view cl ws point moved
        bezier_point g).camera_position_c.x =
        (frameBeforeTeleport cos atan2 M_PI time left right view cl ws point moved
        bezier_point g).Portal1Bbox.bbox_min.x + (exitOffset cos (frameBeforeTeleport cos atan2 M_PI time left right view cl ws point moved
        bezier_point g).Portal1Bbox).1 ∧
      (frameFreeCamera cos atan2 M_PI time left right view cl ws point moved
        bezier_point g).camera_position_c.z =
        (frameBeforeTeleport cos atan2 M_PI time left right view cl ws point moved
        bezier_point g).Portal1Bbox.bbox_min.z + (exitOffset cos (frameBeforeTeleport cos atan2 M_PI time left right view cl ws point moved
        bezier_point g).Portal1Bbox).2) ∧
    (portal1Fires cos (frameBeforeTeleport cos atan2 M_PI time left right view cl ws point moved
        bezier_point g) = true →
      portal2Fires cos (teleportPortal1 cos M_PI (frameBeforeTeleport cos atan2 M_PI time left right view cl ws point moved
        bezier_point g)) = false →
      (frameFreeCamera cos atan2 M_PI time left right view cl ws point moved
        bezier_point g).blockMove = false ∧
      (frameFreeCamera cos atan2 M_PI time left right view cl ws point moved
        bezier_point g).camera_position_c.x =
        (frameBeforeTeleport cos atan2 M_PI time left right view cl ws point moved
        bezier_point g).Portal2Bbox.bbox_min.x + (exitOffset cos (frameBeforeTeleport cos atan2 M_PI time left right view cl ws point moved
        bezier_point g).Portal2Bbox).1 ∧
      (frameFreeCamera cos atan2 M_PI time left right view cl ws point moved
        bezier_point g).camera_position_c.z =
        (frameBeforeTeleport cos atan2 M_PI time left right view cl ws point moved
        bezier_point g).Portal2Bbox.bbox_min.z + (exitOffset cos (frameBeforeTeleport cos atan2 M_PI time left right view cl ws point moved
        bezier_point g).Portal2Bbox).2) ∧
    ((collisionGate cl { g with camera_position_c := moved }).blockMove = false →
      portal1Fires cos (frameBeforeTeleport cos atan2 M_PI time left right view cl ws point moved
        bezier_point g) = false →
      portal2Fires cos (teleportPortal1 cos M_PI (frameBeforeTeleport cos atan2 M_PI time left right view cl ws point moved
        bezier_point g)) = false →
      (frameFreeCamera cos atan2 M_PI time left right view cl ws point moved
        bezier_point g).camera_position_c = moved) ∧
    ((frameFreeCamera cos atan2 M_PI time left right view cl ws point moved
        bezier_point g).blockMove = true ↔
      (collisionGate cl { g with camera_position_c := moved }).blockMove = true ∧
      portal1Fires cos (frameBeforeTeleport cos atan2 M_PI time left right view cl ws point moved
        bezier_point g) = false ∧
      portal2Fires cos (teleportPortal1 cos M_PI (frameBeforeTeleport cos atan2 M_PI time left
        right view cl ws point moved bezier_point g)) = false) ∧
    ((frameFreeCamera cos atan2 M_PI time left right view cl ws point moved
        bezier_point g).camera_position_c = g.camera_position_c ↔
      ((collisionGate cl { g with camera_position_c := moved }).blockMove = true ∧
        portal1Fires cos (frameBeforeTeleport cos atan2 M_PI time left right view cl ws point
          moved bezier_point g) = false ∧
        portal2Fires cos (teleportPortal1 cos M_PI (frameBeforeTeleport cos atan2 M_PI time left
          right view cl ws point moved bezier_point g)) = false) ∨
      (teleportPortal2 cos M_PI (teleportPortal1 cos M_PI (frameBeforeTeleport cos atan2 M_PI
        time left right view cl ws point moved bezier_point g))).camera_position_c =
        g.camera_position_c) := by
  obtain ⟨hb, hcam⟩ := frameBeforeTeleport_untouched cos atan2 M_PI time left right view cl ws
    point moved bezier_point g
  have ht := teleports_blockMove cos M_PI (frameBeforeTeleport cos atan2 M_PI time left right
    view cl ws point moved bezier_point g)
  rw [hb] at ht
  obtain ⟨r1, r2, r3⟩ := revert_camera (teleportPortal2 cos M_PI (teleportPortal1 cos M_PI
    (frameBeforeTeleport cos atan2 M_PI time left right view cl ws point moved bezier_point g)))
    g.camera_position_c
  refine ⟨?_, ?_, ?_, ?_, ?_, ?_⟩
  · intro hg h1 h2
    unfold frameFreeCamera
    simp only []
    rw [teleportPortal2_of_not_fires cos M_PI _ h2, teleportPortal1_of_not_fires cos M_PI _ h1,
      hb, hg]
    simp
  · intro h2
    obtain ⟨f1, f2, f3⟩ := teleportPortal2_of_fires cos M_PI _ h2
    rw [(teleportPortal1_boxes cos M_PI _).1] at f2 f3
    unfold frameFreeCamera
    simp only []
    rw [f1]
    exact ⟨f1, f2, f3⟩
  · intro h1 h2
    obtain ⟨f1, f2, f3⟩ := teleportPortal1_of_fires cos M_PI _ h1
    unfold frameFreeCamera
    simp only []
    rw [teleportPortal2_of_not_fires cos M_PI _ h2, f1]
    exact ⟨f1, f2, f3⟩
  · intro hg h1 h2
    unfold frameFreeCamera
    simp only []
    rw [teleportPortal2_of_not_fires cos M_PI _ h2, teleportPortal1_of_not_fires cos M_PI _ h1,
      hb, hg]
    exact hcam
  · unfold frameFreeCamera
    simp only []
    rw [r1]
    exact ht
  · unfold frameFreeCamera
    simp only []
    rw [← ht]
    rcases Bool.eq_false_or_eq_true (teleportPortal2 cos M_PI (teleportPortal1 cos M_PI
        (frameBeforeTeleport cos atan2 M_PI time left right view cl ws point moved bezier_point
          g))).blockMove with hG | hG
    · rw [r2 hG]
      simp [hG]
    · rw [r3 hG]
      simp [hG]

end FrameFacts

section FrameExample

/-- A concrete frame: both portals on their walls, no button held, the camera
walks from `(0, 2, 40)` to `(1, 2, 99/2)`, which is inside the inflated box of
`wall3` and inside Portal 1's trigger volume.  Before the teleport checks
`blockMove` is set and the camera is at the new position. -/
theorem frameBeforeTeleport_example :
    (frameBeforeTeleport Real.cos (fun y x => Complex.arg ⟨x, y⟩) Real.pi 3 false false
      ⟨0, 0, 1, 0⟩ (collisionList (fun y x => Complex.arg ⟨x, y⟩))
      (portalList (fun y x => Complex.arg ⟨x, y⟩)) ⟨0, 0, 0, 0⟩ ⟨1, 2, 99 / 2, 1⟩ ⟨0, 0, 0⟩
      (portalsOnWalls (0 : ℝ) (Real.pi / 2) ⟨0, 2, 40, 1⟩)) =
      { portalsOnWalls (0 : ℝ) (Real.pi / 2) ⟨1, 2, 99 / 2, 1⟩ with blockMove := true } := by
  simp [frameBeforeTeleport, anchoringUpdate, propFollower, placementStep,
    placePortal1OnCube, placePortal2OnCube, portalList, wallIteration, placePortal1OnWall,
    placePortal2OnWall, collisionGate, collisionList, collisionIteration, portalsOnWalls,
    detectColision, wallHitbox, wall1, wall2, wall3, wall4, wall5, wall6, holeIn, holeOut,
    width, height, spaceDistance, cubePositionOrigin]
  norm_num

/-- C20 amended, at the concrete frame: the collision gate blocks, the Portal-1 check
fires, and the frame ends with `blockMove` false and the camera in front of
Portal 2 at `(44.99, 2, 30)`. -/
theorem frameFreeCamera_camera_witness :
    (collisionGate (collisionList (fun y x => Complex.arg ⟨x, y⟩))
      { portalsOnWalls (0 : ℝ) (Real.pi / 2) ⟨0, 2, 40, 1⟩ with
        camera_position_c := ⟨1, 2, 99 / 2, 1⟩ }).blockMove = true ∧
    (frameFreeCamera Real.cos (fun y x => Complex.arg ⟨x, y⟩) Real.pi 3 false false
      ⟨0, 0, 1, 0⟩ (collisionList (fun y x => Complex.arg ⟨x, y⟩))
      (portalList (fun y x => Complex.arg ⟨x, y⟩)) ⟨0, 0, 0, 0⟩ ⟨1, 2, 99 / 2, 1⟩ ⟨0, 0, 0⟩
      (portalsOnWalls (0 : ℝ) (Real.pi / 2) ⟨0, 2, 40, 1⟩)).blockMove = false ∧
    (frameFreeCamera Real.cos (fun y x => Complex.arg ⟨x, y⟩) Real.pi 3 false false
      ⟨0, 0, 1, 0⟩ (collisionList (fun y x => Complex.arg ⟨x, y⟩))
      (portalList (fun y x => Complex.arg ⟨x, y⟩)) ⟨0, 0, 0, 0⟩ ⟨1, 2, 99 / 2, 1⟩ ⟨0, 0, 0⟩
      (portalsOnWalls (0 : ℝ) (Real.pi / 2) ⟨0, 2, 40, 1⟩)).camera_position_c.x = 4499 / 100 ∧
    (frameFreeCamera Real.cos (fun y x => Complex.arg ⟨x, y⟩) Real.pi 3 false false
      ⟨0, 0, 1, 0⟩ (collisionList (fun y x => Complex.arg ⟨x, y⟩))
      (portalList (fun y x => Complex.arg ⟨x, y⟩)) ⟨0, 0, 0, 0⟩ ⟨1, 2, 99 / 2, 1⟩ ⟨0, 0, 0⟩
      (portalsOnWalls (0 : ℝ) (Real.pi / 2) ⟨0, 2, 40, 1⟩)).camera_position_c.z = 30 := by
  have h1 : portal1Fires Real.cos (frameBeforeTeleport Real.cos (fun y x => Complex.arg ⟨x, y⟩) Real.pi 3 false false
      ⟨0, 0, 1, 0⟩ (collisionList (fun y x => Complex.arg ⟨x, y⟩))
      (portalList (fun y x => Complex.arg ⟨x, y⟩)) ⟨0, 0, 0, 0⟩ ⟨1, 2, 99 / 2, 1⟩ ⟨0, 0, 0⟩
      (portalsOnWalls (0 : ℝ) (Real.pi / 2) ⟨0, 2, 40, 1⟩)) = true := by
    rw [frameBeforeTeleport_example, portal1Fires_eq_true_iff, detectColision_eq_true_iff]
    simp [portalsOnWalls, hitBoxPortal, height]
    norm_num
  have h2 : portal2Fires Real.cos (teleportPortal1 Real.cos Real.pi (frameBeforeTeleport Real.cos (fun y x => Complex.arg ⟨x, y⟩) Real.pi 3 false false
      ⟨0, 0, 1, 0⟩ (collisionList (fun y x => Complex.arg ⟨x, y⟩))
      (portalList (fun y x => Complex.arg ⟨x, y⟩)) ⟨0, 0, 0, 0⟩ ⟨1, 2, 99 / 2, 1⟩ ⟨0, 0, 0⟩
      (portalsOnWalls (0 : ℝ) (Real.pi / 2) ⟨0, 2, 40, 1⟩))) = false := by
    rw [frameBeforeTeleport_example]
    rw [teleportPortal1_fire _ _ _ rfl rfl (by
      rw [detectColision_eq_true_iff]
      simp [portalsOnWalls, hitBoxPortal, height]
      norm_num)]
    rw [Bool.eq_false_iff, Ne, portal2Fires_eq_true_iff, detectColision_eq_true_iff]
    simp [portalsOnWalls, hitBoxPortal, exitOffset, height]
    norm_num
  have h := (frameFreeCamera_camera Real.cos (fun y x => Complex.arg ⟨x, y⟩) Real.pi 3 false false
      ⟨0, 0, 1, 0⟩ (collisionList (fun y x => Complex.arg ⟨x, y⟩))
      (portalList (fun y x => Complex.arg ⟨x, y⟩)) ⟨0, 0, 0, 0⟩ ⟨1, 2, 99 / 2, 1⟩ ⟨0, 0, 0⟩
      (portalsOnWalls (0 : ℝ) (Real.pi / 2) ⟨0, 2, 40, 1⟩)).2.2.1 h1 h2
  rw [frameBeforeTeleport_example] at h
  refine ⟨?_, h.1, ?_, ?_⟩
  · rw [← (frameBeforeTeleport_untouched Real.cos (fun y x => Complex.arg ⟨x, y⟩) Real.pi 3 false false
      ⟨0, 0, 1, 0⟩ (collisionList (fun y x => Complex.arg ⟨x, y⟩))
      (portalList (fun y x => Complex.arg ⟨x, y⟩)) ⟨0, 0, 0, 0⟩ ⟨1, 2, 99 / 2, 1⟩ ⟨0, 0, 0⟩
      (portalsOnWalls (0 : ℝ) (Real.pi / 2) ⟨0, 2, 40, 1⟩)).1, frameBeforeTeleport_example]
  · rw [h.2.1]
    simp [portalsOnWalls, exitOffset]
    norm_num
  · rw [h.2.2]
    simp [portalsOnWalls, exitOffset]
    norm_num

end FrameExample

section AlgebraicFacts

variable {α : Type} [LinearOrderedField α]

/-- C22: for every box and every translation vector `d`,
`boxAngle(min + d, max + d) = boxAngle(min, max)`; more generally two boxes with
the same extents `max.y - min.y` and `max.x - min.x` have the same angle,
whatever function `atan2` is. -/
theorem boxAngle_translation_invariant (atan2 : α → α → α) (B1 B2 d : Vec4 α) :
    boxAngle atan2 (Vec4.add B1 d) (Vec4.add B2 d) = boxAngle atan2 B1 B2 ∧
    ∀ C1 C2 : Vec4 α, C2.y - C1.y = B2.y - B1.y → C2.x - C1.x = B2.x - B1.x →
      boxAngle atan2 C1 C2 = boxAngle atan2 B1 B2 := by
  constructor
  · unfold boxAngle Vec4.add
    have h1 : B2.y + d.y - (B1.y + d.y) = B2.y - B1.y := by ring
    have h2 : B2.x + d.x - (B1.x + d.x) = B2.x - B1.x := by ring
    simp only [h1, h2]
  · intro C1 C2 hy hx
    unfold boxAngle
    rw [hy, hx]

/-- Witness for C22: the wall `(-50, 0, 50) - (50, 5, 50)` moved by `(7, -3, 2)`,
with `atan2 y x = 2 * y + x`. -/
theorem boxAngle_translation_invariant_witness :
    boxAngle (fun y x : ℚ => 2 * y + x) ⟨-43, -3, 52, 0⟩ ⟨57, 2, 52, 0⟩ =
      boxAngle (fun y x : ℚ => 2 * y + x) ⟨-50, 0, 50, 0⟩ ⟨50, 5, 50, 0⟩ :=
  (boxAngle_translation_invariant (fun y x : ℚ => 2 * y + x) ⟨-50, 0, 50, 0⟩ ⟨50, 5, 50, 0⟩
    ⟨7, -3, 2, 0⟩).2 ⟨-43, -3, 52, 0⟩ ⟨57, 2, 52, 0⟩ (by norm_num) (by norm_num)

/-- C30: `GetIntersection` reaches the interpolation only when
`fDst1 * fDst2 < 0`; then `fDst2 - fDst1` is not zero, the parameter
`-fDst1 / (fDst2 - fDst1)` lies strictly between 0 and 1, the point written to
`Hit` is `P1 + (P2 - P1) * parameter`, the distance interpolated with that
parameter is 0, and when the distances are those of `P1` and `P2` to a plane
`x = c`, `y = c` or `z = c` the point lies on that plane.  When
`fDst1 * fDst2 >= 0` it reports no crossing and `Hit` is unchanged. -/
theorem GetIntersection_safe (fDst1 fDst2 : α) (P1 P2 Hit : Vec4 α) :
    (fDst1 * fDst2 < 0 →
      fDst2 - fDst1 ≠ 0 ∧
      0 < -fDst1 / (fDst2 - fDst1) ∧ -fDst1 / (fDst2 - fDst1) < 1 ∧
      GetIntersection fDst1 fDst2 P1 P2 Hit =
        (true, Vec4.add P1 (Vec4.smul (-fDst1 / (fDst2 - fDst1)) (Vec4.sub P2 P1))) ∧
      fDst1 + (fDst2 - fDst1) * (-fDst1 / (fDst2 - fDst1)) = 0 ∧
      (∀ c : α, fDst1 = P1.x - c → fDst2 = P2.x - c →
        (GetIntersection fDst1 fDst2 P1 P2 Hit).2.x - c = 0) ∧
      (∀ c : α, fDst1 = P1.y - c → fDst2 = P2.y - c →
        (GetIntersection fDst1 fDst2 P1 P2 Hit).2.y - c = 0) ∧
      (∀ c : α, fDst1 = P1.z - c → fDst2 = P2.z - c →
        (GetIntersection fDst1 fDst2 P1 P2 Hit).2.z - c = 0)) ∧
    (fDst1 * fDst2 ≥ 0 → GetIntersection fDst1 fDst2 P1 P2 Hit = (false, Hit)) := by
  constructor
  · intro h
    have hne : fDst2 - fDst1 ≠ 0 := by
      intro h0
      have h12 : fDst2 = fDst1 := by linarith
      rw [h12] at h
      exact absurd (mul_self_nonneg fDst1) (not_le.2 h)
    have hp := crossing_param fDst1 fDst2 h
    have hz : fDst1 + (fDst2 - fDst1) * (-fDst1 / (fDst2 - fDst1)) = 0 := by
      field_simp
      ring
    refine ⟨hne, hp.1, hp.2, GetIntersection_some fDst1 fDst2 P1 P2 Hit h, hz, ?_, ?_, ?_⟩
    · intro c h1 h2
      rw [GetIntersection_some fDst1 fDst2 P1 P2 Hit h]
      simp only [Vec4.add, Vec4.smul, Vec4.sub]
      have e : P2.x - P1.x = fDst2 - fDst1 := by rw [h1, h2]; ring
      rw [e]
      have e1 : P1.x = fDst1 + c := by rw [h1]; ring
      rw [e1]
      linear_combination hz
    · intro c h1 h2
      rw [GetIntersection_some fDst1 fDst2 P1 P2 Hit h]
      simp only [Vec4.add, Vec4.smul, Vec4.sub]
      have e : P2.y - P1.y = fDst2 - fDst1 := by rw [h1, h2]; ring
      rw [e]
      have e1 : P1.y = fDst1 + c := by rw [h1]; ring
      rw [e1]
      linear_combination hz
    · intro c h1 h2
      rw [GetIntersection_some fDst1 fDst2 P1 P2 Hit h]
      simp only [Vec4.add, Vec4.smul, Vec4.sub]
      have e : P2.z - P1.z = fDst2 - fDst1 := by rw [h1, h2]; ring
      rw [e]
      have e1 : P1.z = fDst1 + c := by rw [h1]; ring
      rw [e1]
      linear_combination hz
  · intro h
    exact GetIntersection_none fDst1 fDst2 P1 P2 Hit h

/-- Witness for C30: the segment from `(0, 1, 10)` to `(0, 1, 60)` against the
plane `z = 50` crosses at parameter `4/5`, in the point `(0, 1, 50)`. -/
theorem GetIntersection_safe_witness :
    ((10 : ℚ) - 50) * (60 - 50) < 0 ∧
    (0 : ℚ) < -(10 - 50) / ((60 - 50) - (10 - 50)) ∧
    GetIntersection ((10 : ℚ) - 50) (60 - 50) ⟨0, 1, 10, 1⟩ ⟨0, 1, 60, 1⟩ ⟨9, 9, 9, 9⟩ =
      (true, Vec4.add ⟨0, 1, 10, 1⟩
        (Vec4.smul (-(10 - 50) / ((60 - 50) - (10 - 50))) (Vec4.sub ⟨0, 1, 60, 1⟩ ⟨0, 1, 10, 1⟩))) ∧
    (GetIntersection ((10 : ℚ) - 50) (60 - 50) ⟨0, 1, 10, 1⟩ ⟨0, 1, 60, 1⟩ ⟨9, 9, 9, 9⟩).2.z - 50
      = 0 :=
  have h := (GetIntersection_safe ((10 : ℚ) - 50) (60 - 50) ⟨0, 1, 10, 1⟩ ⟨0, 1, 60, 1⟩
    ⟨9, 9, 9, 9⟩).1 (by norm_num)
  ⟨by norm_num, h.2.1, h.2.2.2.1, h.2.2.2.2.2.2.2 50 rfl rfl⟩

end AlgebraicFacts

section HitShape

variable {α : Type} [LinearOrderedField α]

/-- C24: when `CheckLineBox` reports a hit and the ray origin is not strictly
inside the box, the hit point is `origin + s * 500 * direction` for some `s`
strictly between 0 and 1; the hit lies on one of the six planes, that is, its
coordinate on one axis equals the box's min or max on that axis, and its other
two coordinates lie strictly between the box's min and max on their axes, so
they equal neither. -/
theorem CheckLineBox_hit_on_face (B1 B2 L1 vector_view Hit : Vec4 α)
    (h : (CheckLineBox B1 B2 L1 vector_view Hit).1 = true)
    (hout : ¬ (B1.x < L1.x ∧ L1.x < B2.x ∧ B1.y < L1.y ∧ L1.y < B2.y ∧
      B1.z < L1.z ∧ L1.z < B2.z)) :
    ∃ s : α, 0 < s ∧ s < 1 ∧
      (CheckLineBox B1 B2 L1 vector_view Hit).2.x = L1.x + s * (500 * vector_view.x) ∧
      (CheckLineBox B1 B2 L1 vector_view Hit).2.y = L1.y + s * (500 * vector_view.y) ∧
      (CheckLineBox B1 B2 L1 vector_view Hit).2.z = L1.z + s * (500 * vector_view.z) ∧
      ((((CheckLineBox B1 B2 L1 vector_view Hit).2.x = B1.x ∨
            (CheckLineBox B1 B2 L1 vector_view Hit).2.x = B2.x) ∧
          (B1.y < (CheckLineBox B1 B2 L1 vector_view Hit).2.y ∧
            (CheckLineBox B1 B2 L1 vector_view Hit).2.y < B2.y) ∧
          (B1.z < (CheckLineBox B1 B2 L1 vector_view Hit).2.z ∧
            (CheckLineBox B1 B2 L1 vector_view Hit).2.z < B2.z)) ∨
        (((CheckLineBox B1 B2 L1 vector_view Hit).2.y = B1.y ∨
            (CheckLineBox B1 B2 L1 vector_view Hit).2.y = B2.y) ∧
          (B1.x < (CheckLineBox B1 B2 L1 vector_view Hit).2.x ∧
            (CheckLineBox B1 B2 L1 vector_view Hit).2.x < B2.x) ∧
          (B1.z < (CheckLineBox B1 B2 L1 vector_view Hit).2.z ∧
            (CheckLineBox B1 B2 L1 vector_view Hit).2.z < B2.z)) ∨
        (((CheckLineBox B1 B2 L1 vector_view Hit).2.z = B1.z ∨
            (CheckLineBox B1 B2 L1 vector_view Hit).2.z = B2.z) ∧
          (B1.x < (CheckLineBox B1 B2 L1 vector_view Hit).2.x ∧
            (CheckLineBox B1 B2 L1 vector_view Hit).2.x < B2.x) ∧
          (B1.y < (CheckLineBox B1 B2 L1 vector_view Hit).2.y ∧
            (CheckLineBox B1 B2 L1 vector_view Hit).2.y < B2.y))) := by
  rcases CheckLineBox_true_cases B1 B2 L1 vector_view Hit h with ⟨hin, _⟩ | ⟨s, hs0, hs1, hp, hf⟩
  · exact absurd hin hout
  · have hseg := segment_point L1 vector_view s
    rw [← hp] at hseg
    refine ⟨s, hs0, hs1, hseg.1, hseg.2.1, hseg.2.2, ?_⟩
    rcases hf with ⟨hc, hb⟩ | ⟨hc, hb⟩ | ⟨hc, hb⟩
    · have hb1 := (InBox_one _ B1 B2).1 hb
      exact Or.inl ⟨hc, ⟨hb1.2.2.1, hb1.2.2.2⟩, ⟨hb1.1, hb1.2.1⟩⟩
    · have hb1 := (InBox_two _ B1 B2).1 hb
      exact Or.inr (Or.inl ⟨hc, ⟨hb1.2.2.1, hb1.2.2.2⟩, ⟨hb1.1, hb1.2.1⟩⟩)
    · have hb1 := (InBox_three _ B1 B2).1 hb
      exact Or.inr (Or.inr ⟨hc, ⟨hb1.1, hb1.2.1⟩, ⟨hb1.2.2.1, hb1.2.2.2⟩⟩)

/-- Witness for C24: the camera at `(3, 2, 0)` looking along `+z` at the wall
`(-50, 0, 50) - (50, 5, 50)`: the hit lies on the segment, at a parameter
strictly between 0 and 1. -/
theorem CheckLineBox_hit_on_face_witness :
    ∃ s : ℚ, 0 < s ∧ s < 1 ∧
      (CheckLineBox ⟨-50, 0, 50, 0⟩ ⟨50, 5, 50, 0⟩ ⟨3, 2, 0, 1⟩ ⟨0, 0, 1, 0⟩
        (⟨0, 0, 0, 0⟩ : Vec4 ℚ)).2.z = 0 + s * (500 * 1) := by
  obtain ⟨s, h0, h1, _, _, hz, _⟩ := CheckLineBox_hit_on_face ⟨-50, 0, 50, 0⟩ ⟨50, 5, 50, 0⟩
    ⟨3, 2, 0, 1⟩ ⟨0, 0, 1, 0⟩ (⟨0, 0, 0, 0⟩ : Vec4 ℚ)
    (CheckLineBox_face_z_min _ _ _ _ _ (by norm_num) rfl rfl (by norm_num) (by norm_num)
      (by norm_num) (by norm_num)).1
    (by norm_num)
  exact ⟨s, h0, h1, hz⟩

end HitShape

section InvertedBox

variable {α : Type} [LinearOrderedField α]

/-- For a box whose `min.z` is not below its `max.z`, `InBox` fails on the axes
1 and 2, which both test `min.z < Hit.z < max.z`. -/
theorem InBox_inverted_z (H B1 B2 : Vec4 α) (hz : B2.z ≤ B1.z) :
    InBox H B1 B2 1 = false ∧ InBox H B1 B2 2 = false := by
  constructor
  · rw [Bool.eq_false_iff]
    intro h
    have h1 := (InBox_one H B1 B2).1 h
    linarith [h1.1, h1.2.1]
  · rw [Bool.eq_false_iff]
    intro h
    have h1 := (InBox_two H B1 B2).1 h
    linarith [h1.1, h1.2.1]

/-- For such a box a crossing of an X plane is never accepted. -/
theorem crossing_inverted_z_one (d1 d2 : α) (L1 L2 B1 B2 Hit : Vec4 α) (hz : B2.z ≤ B1.z) :
    ¬ (crossing d1 d2 L1 L2 B1 B2 1 Hit).1 = true := by
  intro h
  have h1 := (crossing_true d1 d2 L1 L2 B1 B2 1 Hit h).2.2
  rw [(InBox_inverted_z _ B1 B2 hz).1] at h1
  exact absurd h1 (by simp)

/-- For such a box a crossing of a Y plane is never accepted. -/
theorem crossing_inverted_z_two (d1 d2 : α) (L1 L2 B1 B2 Hit : Vec4 α) (hz : B2.z ≤ B1.z) :
    ¬ (crossing d1 d2 L1 L2 B1 B2 2 Hit).1 = true := by
  intro h
  have h1 := (crossing_true d1 d2 L1 L2 B1 B2 2 Hit h).2.2
  rw [(InBox_inverted_z _ B1 B2 hz).2] at h1
  exact absurd h1 (by simp)

/-- Every hit reported on a box whose `min.z` is not below its `max.z` lies on
one of the two Z planes, with X and Y strictly inside. -/
theorem CheckLineBox_inverted_z_hit (B1 B2 L1 vector_view Hit : Vec4 α) (hz : B2.z ≤ B1.z)
    (h : (CheckLineBox B1 B2 L1 vector_view Hit).1 = true) :
    ((CheckLineBox B1 B2 L1 vector_view Hit).2.z = B1.z ∨
      (CheckLineBox B1 B2 L1 vector_view Hit).2.z = B2.z) ∧
    B1.x < (CheckLineBox B1 B2 L1 vector_view Hit).2.x ∧
    (CheckLineBox B1 B2 L1 vector_view Hit).2.x < B2.x ∧
    B1.y < (CheckLineBox B1 B2 L1 vector_view Hit).2.y ∧
    (CheckLineBox B1 B2 L1 vector_view Hit).2.y < B2.y := by
  rcases CheckLineBox_true_cases B1 B2 L1 vector_view Hit h with ⟨hin, _⟩ | ⟨s, _, _, _, hf⟩
  · linarith [hin.2.2.2.2.1, hin.2.2.2.2.2]
  · rcases hf with ⟨_, hb⟩ | ⟨_, hb⟩ | ⟨hc, hb⟩
    · rw [(InBox_inverted_z _ B1 B2 hz).1] at hb
      exact absurd hb (by simp)
    · rw [(InBox_inverted_z _ B1 B2 hz).2] at hb
      exact absurd hb (by simp)
    · exact ⟨hc, (InBox_three _ B1 B2).1 hb⟩

/-- A point of a segment is on the same side of a bound as the two ends. -/
theorem segment_between (a u s lo : α) (hs0 : 0 < s) (hs1 : s < 1) :
    (a + u < lo → a < lo → a + s * u < lo) ∧ (lo < a + u → lo < a → lo < a + s * u) := by
  constructor
  · intro h1 h2
    by_cases hu : 0 ≤ u
    · have := mul_le_of_le_one_left hu hs1.le
      linarith
    · have := mul_neg_of_pos_of_neg hs0 (not_le.1 hu)
      linarith
  · intro h1 h2
    by_cases hu : 0 ≤ u
    · have := mul_nonneg hs0.le hu
      linarith
    · have := mul_le_mul_of_nonpos_right hs1.le (not_le.1 hu).le
      linarith

/-- On a box whose `min.z` is not below its `max.z`, a segment that crosses both
Z planes, the plane `z = B1.z` inside the X and Y bounds, is reported as a hit
on the plane `z = B1.z`. -/
theorem CheckLineBox_inverted_z_first (B1 B2 L1 vector_view Hit : Vec4 α) (hz : B2.z ≤ B1.z)
    (hd1 : (L1.z - B1.z) * ((Vec4.add (Vec4.smul 500 vector_view) L1).z - B1.z) < 0)
    (hd2 : (L1.z - B2.z) * ((Vec4.add (Vec4.smul 500 vector_view) L1).z - B2.z) < 0)
    (hb : InBox (Vec4.add L1 (Vec4.smul
        (-(L1.z - B1.z) / (((Vec4.add (Vec4.smul 500 vector_view) L1).z - B1.z) - (L1.z - B1.z)))
        (Vec4.sub (Vec4.add (Vec4.smul 500 vector_view) L1) L1))) B1 B2 3 = true) :
    CheckLineBox B1 B2 L1 vector_view Hit =
      (true, Vec4.add L1 (Vec4.smul
        (-(L1.z - B1.z) / (((Vec4.add (Vec4.smul 500 vector_view) L1).z - B1.z) - (L1.z - B1.z)))
        (Vec4.sub (Vec4.add (Vec4.smul 500 vector_view) L1) L1))) ∧
    (Vec4.add L1 (Vec4.smul
        (-(L1.z - B1.z) / (((Vec4.add (Vec4.smul 500 vector_view) L1).z - B1.z) - (L1.z - B1.z)))
        (Vec4.sub (Vec4.add (Vec4.smul 500 vector_view) L1) L1))).z = B1.z := by
  have e2x : ((Vec4.add (Vec4.smul 500 vector_view) L1)).x = vector_view.x * 500 + L1.x := rfl
  have e2y : ((Vec4.add (Vec4.smul 500 vector_view) L1)).y = vector_view.y * 500 + L1.y := rfl
  have e2z : ((Vec4.add (Vec4.smul 500 vector_view) L1)).z = vector_view.z * 500 + L1.z := rfl
  obtain ⟨hs0, hs1⟩ := crossing_param _ _ hd1
  obtain ⟨sx, sy, sz⟩ := segment_point L1 vector_view
    (-(L1.z - B1.z) / ((((Vec4.add (Vec4.smul 500 vector_view) L1)).z - B1.z) - (L1.z - B1.z)))
  have hbx := (InBox_three _ B1 B2).1 hb
  rw [sx, sy] at hbx
  obtain ⟨s, hs⟩ : ∃ s : α, s = -(L1.z - B1.z) /
    ((((Vec4.add (Vec4.smul 500 vector_view) L1)).z - B1.z) - (L1.z - B1.z)) := ⟨_, rfl⟩
  rw [← hs] at hs0 hs1 hbx
  have r1 : ¬ ((Vec4.add (Vec4.smul 500 vector_view) L1).x < B1.x ∧ L1.x < B1.x) := by
    rw [e2x]
    intro h
    have := (segment_between L1.x (500 * vector_view.x) s B1.x hs0 hs1).1
      (by linarith [h.1]) h.2
    linarith [hbx.1]
  have r2 : ¬ ((Vec4.add (Vec4.smul 500 vector_view) L1).x > B2.x ∧ L1.x > B2.x) := by
    rw [e2x]
    intro h
    have := (segment_between L1.x (500 * vector_view.x) s B2.x hs0 hs1).2
      (by linarith [h.1]) h.2
    linarith [hbx.2.1]
  have r3 : ¬ ((Vec4.add (Vec4.smul 500 vector_view) L1).y < B1.y ∧ L1.y < B1.y) := by
    rw [e2y]
    intro h
    have := (segment_between L1.y (500 * vector_view.y) s B1.y hs0 hs1).1
      (by linarith [h.1]) h.2
    linarith [hbx.2.2.1]
  have r4 : ¬ ((Vec4.add (Vec4.smul 500 vector_view) L1).y > B2.y ∧ L1.y > B2.y) := by
    rw [e2y]
    intro h
    have := (segment_between L1.y (500 * vector_view.y) s B2.y hs0 hs1).2
      (by linarith [h.1]) h.2
    linarith [hbx.2.2.2]
  have r5 : ¬ ((Vec4.add (Vec4.smul 500 vector_view) L1).z < B1.z ∧ L1.z < B1.z) := by
    intro h
    exact absurd (mul_pos_of_neg_of_neg (sub_neg.2 h.2) (sub_neg.2 h.1)) (not_lt.2 hd1.le)
  have r6 : ¬ ((Vec4.add (Vec4.smul 500 vector_view) L1).z > B2.z ∧ L1.z > B2.z) := by
    intro h
    exact absurd (mul_pos (sub_pos.2 h.2) (sub_pos.2 h.1)) (not_lt.2 hd2.le)
  have r7 : ¬ (L1.x > B1.x ∧ L1.x < B2.x ∧ L1.y > B1.y ∧ L1.y < B2.y ∧
      L1.z > B1.z ∧ L1.z < B2.z) := by
    intro h
    linarith [h.2.2.2.2.1, h.2.2.2.2.2]
  constructor
  · unfold CheckLineBox
    simp only []
    rw [if_neg r1, if_neg r2, if_neg r3, if_neg r4, if_neg r5, if_neg r6, if_neg r7,
      if_neg (crossing_inverted_z_one _ _ _ _ _ _ _ hz),
      if_neg (crossing_inverted_z_two _ _ _ _ _ _ _ hz),
      crossing_some _ _ _ _ _ _ _ _ hd1, if_pos hb]
  · rw [sz]
    have hc := crossing_coord L1.z ((Vec4.add (Vec4.smul 500 vector_view) L1).z) B1.z hd1
    rw [e2z] at hc ⊢
    linear_combination hc

/-- C28: the prop candidate box has `min.z = prop.z + 1` above
`max.z = prop.z - 1`.  For this box `CheckLineBox` never takes the
origin-inside branch and never accepts a crossing of an X or Y plane; every
reported hit has z equal to `prop.z + 1` or `prop.z - 1`, with x and y strictly
within the prop's extents; and when the segment crosses both Z planes, each
inside the X and Y bounds, the reported hit is the crossing of the plane
`z = prop.z + 1`. -/
theorem CheckLineBox_prop_box (cubePosition : Vec3 α) (L1 vector_view Hit : Vec4 α) :
    ((cubeIn cubePosition).bbox_min.z = cubePosition.z + 1 ∧
      (cubeIn cubePosition).bbox_max.z = cubePosition.z - 1 ∧
      (cubeIn cubePosition).bbox_max.z < (cubeIn cubePosition).bbox_min.z) ∧
    ¬ (L1.x > (cubeIn cubePosition).bbox_min.x ∧ L1.x < (cubeIn cubePosition).bbox_max.x ∧
      L1.y > (cubeIn cubePosition).bbox_min.y ∧ L1.y < (cubeIn cubePosition).bbox_max.y ∧
      L1.z > (cubeIn cubePosition).bbox_min.z ∧ L1.z < (cubeIn cubePosition).bbox_max.z) ∧
    (∀ (d1 d2 : α) (H : Vec4 α),
      (crossing d1 d2 L1 (Vec4.add (Vec4.smul 500 vector_view) L1) (cubeIn cubePosition).bbox_min
        (cubeIn cubePosition).bbox_max 1 H).1 = false ∧
      (crossing d1 d2 L1 (Vec4.add (Vec4.smul 500 vector_view) L1) (cubeIn cubePosition).bbox_min
        (cubeIn cubePosition).bbox_max 2 H).1 = false) ∧
    ((CheckLineBox (cubeIn cubePosition).bbox_min (cubeIn cubePosition).bbox_max L1 vector_view
        Hit).1 = true →
      ((CheckLineBox (cubeIn cubePosition).bbox_min (cubeIn cubePosition).bbox_max L1 vector_view
          Hit).2.z = cubePosition.z + 1 ∨
        (CheckLineBox (cubeIn cubePosition).bbox_min (cubeIn cubePosition).bbox_max L1 vector_view
          Hit).2.z = cubePosition.z - 1) ∧
      cubePosition.x - cubeWidth / 2 <
        (CheckLineBox (cubeIn cubePosition).bbox_min (cubeIn cubePosition).bbox_max L1 vector_view
          Hit).2.x ∧
      (CheckLineBox (cubeIn cubePosition).bbox_min (cubeIn cubePosition).bbox_max L1 vector_view
          Hit).2.x < cubePosition.x + cubeWidth / 2 ∧
      cubePosition.y - height / 2 <
        (CheckLineBox (cubeIn cubePosition).bbox_min (cubeIn cubePosition).bbox_max L1 vector_view
          Hit).2.y ∧
      (CheckLineBox (cubeIn cubePosition).bbox_min (cubeIn cubePosition).bbox_max L1 vector_view
          Hit).2.y < cubePosition.y + height / 2) ∧
    ((L1.z - (cubePosition.z + 1)) * ((vector_view.z * 500 + L1.z) - (cubePosition.z + 1)) < 0 →
      (L1.z - (cubePosition.z - 1)) * ((vector_view.z * 500 + L1.z) - (cubePosition.z - 1)) < 0 →
      InBox (Vec4.add L1 (Vec4.smul
          (-(L1.z - (cubePosition.z + 1)) /
            (((vector_view.z * 500 + L1.z) - (cubePosition.z + 1)) - (L1.z - (cubePosition.z + 1))))
          (Vec4.sub (Vec4.add (Vec4.smul 500 vector_view) L1) L1)))
        (cubeIn cubePosition).bbox_min (cubeIn cubePosition).bbox_max 3 = true →
      InBox (Vec4.add L1 (Vec4.smul
          (-(L1.z - (cubePosition.z - 1)) /
            (((vector_view.z * 500 + L1.z) - (cubePosition.z - 1)) - (L1.z - (cubePosition.z - 1))))
          (Vec4.sub (Vec4.add (Vec4.smul 500 vector_view) L1) L1)))
        (cubeIn cubePosition).bbox_min (cubeIn cubePosition).bbox_max 3 = true →
      (CheckLineBox (cubeIn cubePosition).bbox_min (cubeIn cubePosition).bbox_max L1 vector_view
          Hit).1 = true ∧
      (CheckLineBox (cubeIn cubePosition).bbox_min (cubeIn cubePosition).bbox_max L1 vector_view
          Hit).2 =
        Vec4.add L1 (Vec4.smul
          (-(L1.z - (cubePosition.z + 1)) /
            (((vector_view.z * 500 + L1.z) - (cubePosition.z + 1)) - (L1.z - (cubePosition.z + 1))))
          (Vec4.sub (Vec4.add (Vec4.smul 500 vector_view) L1) L1)) ∧
      (CheckLineBox (cubeIn cubePosition).bbox_min (cubeIn cubePosition).bbox_max L1 vector_view
          Hit).2.z = cubePosition.z + 1) := by
  have hz : (cubeIn cubePosition).bbox_max.z ≤ (cubeIn cubePosition).bbox_min.z := by
    simp only [cubeIn]
    linarith
  refine ⟨⟨rfl, rfl, ?_⟩, ?_, ?_, ?_, ?_⟩
  · simp only [cubeIn]
    linarith
  · intro h
    linarith [h.2.2.2.2.1, h.2.2.2.2.2]
  · intro d1 d2 H
    exact ⟨by simpa using crossing_inverted_z_one d1 d2 L1 _ _ _ H hz,
      by simpa using crossing_inverted_z_two d1 d2 L1 _ _ _ H hz⟩
  · intro h
    exact CheckLineBox_inverted_z_hit _ _ L1 vector_view Hit hz h
  · intro hd1 hd2 hb1 _
    obtain ⟨hE, hc⟩ := CheckLineBox_inverted_z_first (cubeIn cubePosition).bbox_min
      (cubeIn cubePosition).bbox_max L1 vector_view Hit hz hd1 hd2 hb1
    rw [hE]
    exact ⟨rfl, rfl, hc⟩

/-- Witness for C28: the prop at its origin `(0, 2.5, -25)`, the camera at
`(0, 2.5, 0)` looking along `-z`: the segment crosses `z = -24` and `z = -26`
inside the bounds, and the hit reported is at `z = -24`. -/
theorem CheckLineBox_prop_box_witness :
    (CheckLineBox (cubeIn (⟨0, 5 / 2, -25⟩ : Vec3 ℚ)).bbox_min
      (cubeIn (⟨0, 5 / 2, -25⟩ : Vec3 ℚ)).bbox_max ⟨0, 5 / 2, 0, 1⟩ ⟨0, 0, -1, 0⟩
      ⟨0, 0, 0, 0⟩).1 = true ∧
    (CheckLineBox (cubeIn (⟨0, 5 / 2, -25⟩ : Vec3 ℚ)).bbox_min
      (cubeIn (⟨0, 5 / 2, -25⟩ : Vec3 ℚ)).bbox_max ⟨0, 5 / 2, 0, 1⟩ ⟨0, 0, -1, 0⟩
      ⟨0, 0, 0, 0⟩).2.z = -25 + 1 :=
  have h := (CheckLineBox_prop_box (⟨0, 5 / 2, -25⟩ : Vec3 ℚ) ⟨0, 5 / 2, 0, 1⟩ ⟨0, 0, -1, 0⟩
    ⟨0, 0, 0, 0⟩).2.2.2.2 (by norm_num) (by norm_num)
    (by norm_num [InBox, cubeIn, Vec4.add, Vec4.smul, Vec4.sub, cubeWidth, height])
    (by norm_num [InBox, cubeIn, Vec4.add, Vec4.smul, Vec4.sub, cubeWidth, height])
  ⟨h.1, h.2.2⟩

end InvertedBox

section RoundTrip

/-- The cosine and sine of `3π/2`. -/
theorem cos_sin_three_pi_div_two :
    Real.cos (3 * Real.pi / 2) = 0 ∧ Real.sin (3 * Real.pi / 2) = -1 := by
  have h : 3 * Real.pi / 2 = Real.pi / 2 + Real.pi := by ring
  rw [h, Real.cos_add_pi, Real.sin_add_pi]
  simp

/-- The cosine of the difference of two of the angles `0`, `π/2`, `π`, `3π/2`
is `-1`, `0` or `1`. -/
theorem cos_sub_quarter_turns (a b : ℝ)
    (ha : a = 0 ∨ a = Real.pi / 2 ∨ a = Real.pi ∨ a = 3 * Real.pi / 2)
    (hb : b = 0 ∨ b = Real.pi / 2 ∨ b = Real.pi ∨ b = 3 * Real.pi / 2) :
    Real.cos (a - b) = -1 ∨ Real.cos (a - b) = 0 ∨ Real.cos (a - b) = 1 := by
  obtain ⟨c3, s3⟩ := cos_sin_three_pi_div_two
  rw [Real.cos_sub]
  rcases ha with rfl | rfl | rfl | rfl <;> rcases hb with rfl | rfl | rfl | rfl <;>
    simp [c3, s3]

/-- The sum of the two corrections of a there-and-back teleport. -/
theorem angleCorrection_sum (a b : ℝ) :
    angleCorrection Real.cos Real.pi a b + angleCorrection Real.cos Real.pi b a =
      2 * Real.pi * Real.cos (a - b) := by
  rw [angleCorrection_eq, angleCorrection_eq]
  have h : Real.cos (b - a) = Real.cos (a - b) := by
    rw [← Real.cos_neg (a - b), neg_sub]
  rw [h]
  ring

/-- C25: the local `angleCorrection` computed by a teleport from a portal with
angle `a` to one with angle `b` is `(a - b) + pi * cos(a - b)`; the corrections
of the two directions add up to `2 * pi * cos(a - b)`; for two angles among `0`,
`pi/2`, `pi`, `3*pi/2` the sum is an integer multiple of `2 * pi`; and when the
Portal-1 check fires in a state `g` and the Portal-2 check fires in a state `g'`
with the same two portal angles, the two yaw changes add up to that sum. -/
theorem angleCorrection_there_and_back (a b : ℝ) :
    angleCorrection Real.cos Real.pi a b = (a - b) + Real.pi * Real.cos (a - b) ∧
    angleCorrection Real.cos Real.pi a b + angleCorrection Real.cos Real.pi b a =
      2 * Real.pi * Real.cos (a - b) ∧
    ((a = 0 ∨ a = Real.pi / 2 ∨ a = Real.pi ∨ a = 3 * Real.pi / 2) →
      (b = 0 ∨ b = Real.pi / 2 ∨ b = Real.pi ∨ b = 3 * Real.pi / 2) →
      ∃ k : ℤ, angleCorrection Real.cos Real.pi a b + angleCorrection Real.cos Real.pi b a =
        (k : ℝ) * (2 * Real.pi)) ∧
    (∀ g g' : Globals ℝ, g.Portal1Bbox.angle = a → g.Portal2Bbox.angle = b →
      g'.Portal1Bbox.angle = a → g'.Portal2Bbox.angle = b →
      portal1Fires Real.cos g = true → portal2Fires Real.cos g' = true →
      ((teleportPortal1 Real.cos Real.pi g).g_CameraTheta - g.g_CameraTheta) +
        ((teleportPortal2 Real.cos Real.pi g').g_CameraTheta - g'.g_CameraTheta) =
        2 * Real.pi * Real.cos (a - b)) := by
  refine ⟨angleCorrection_eq Real.cos Real.pi a b, angleCorrection_sum a b, ?_, ?_⟩
  · intro ha hb
    rw [angleCorrection_sum]
    rcases cos_sub_quarter_turns a b ha hb with h | h | h
    · exact ⟨-1, by rw [h]; push_cast; ring⟩
    · exact ⟨0, by rw [h]; push_cast; ring⟩
    · exact ⟨1, by rw [h]; push_cast; ring⟩
  · intro g g' h1a h2b h1a' h2b' hf hf'
    obtain ⟨c1, cin, c2⟩ := (portal1Fires_eq_true_iff Real.cos g).1 hf
    obtain ⟨d2, din, d1⟩ := (portal2Fires_eq_true_iff Real.cos g').1 hf'
    rw [teleportPortal1_fire Real.cos Real.pi g c1 c2 cin,
      teleportPortal2_fire Real.cos Real.pi g' d2 d1 din]
    simp only [h1a, h2b, h1a', h2b']
    rw [← angleCorrection_sum a b]
    ring

/-- Witness for C25: the angles `pi/2` and `pi`. -/
theorem angleCorrection_there_and_back_witness :
    ∃ k : ℤ, angleCorrection Real.cos Real.pi (Real.pi / 2) Real.pi +
      angleCorrection Real.cos Real.pi Real.pi (Real.pi / 2) = (k : ℝ) * (2 * Real.pi) :=
  (angleCorrection_there_and_back (Real.pi / 2) Real.pi).2.2.1 (Or.inr (Or.inl rfl))
    (Or.inr (Or.inr (Or.inl rfl)))

end RoundTrip

section OneTeleport

variable {α : Type} [LinearOrderedField α]

/-- The camera position written by a teleport to the portal box `Q` lies outside
the trigger volume of `Q` when `Q` is thinner than 4 on the axis along which the
trigger volume reaches 1 beyond the box. -/
theorem exit_outside_trigger (cos : α → α) (Q : bbox α) (p : Vec4 α)
    (hz : |cos Q.angle| > 0.01 → Q.bbox_max.z - Q.bbox_min.z < 4)
    (hx : ¬ |cos Q.angle| > 0.01 → Q.bbox_max.x - Q.bbox_min.x < 4)
    (hpx : p.x = Q.bbox_min.x + (exitOffset cos Q).1)
    (hpz : p.z = Q.bbox_min.z + (exitOffset cos Q).2) :
    detectColision p (hitBoxPortal cos Q).1 (hitBoxPortal cos Q).2 = false := by
  rw [Bool.eq_false_iff]
  intro hc
  rw [detectColision_eq_true_iff] at hc
  obtain ⟨c1, c2, _, _, c5, c6⟩ := hc
  rw [hpx] at c1 c2
  rw [hpz] at c5 c6
  unfold hitBoxPortal exitOffset at c1 c2 c5 c6
  by_cases hcos : |cos Q.angle| > 0.01
  · have hz' := hz hcos
    simp only [hcos, if_true] at c5 c6
    by_cases hq : Q.bbox_min.z > 0
    · simp only [hq, if_true] at c5
      linarith
    · simp only [hq, if_false] at c6
      linarith
  · have hx' := hx hcos
    simp only [hcos, if_false] at c1 c2
    by_cases hq : Q.bbox_min.x > 0
    · simp only [hq, if_true] at c1
      linarith
    · simp only [hq, if_false] at c2
      linarith

/-- The teleport checks write neither the portal flags, boxes and timers nor the
prop position. -/
theorem teleport_portals (cos : α → α) (M_PI : α) (g : Globals α) :
    portal1State (teleportPortal1 cos M_PI g) = portal1State g ∧
    portal2State (teleportPortal1 cos M_PI g) = portal2State g ∧
    (teleportPortal1 cos M_PI g).cubePosition = g.cubePosition ∧
    portal1State (teleportPortal2 cos M_PI g) = portal1State g ∧
    portal2State (teleportPortal2 cos M_PI g) = portal2State g ∧
    (teleportPortal2 cos M_PI g).cubePosition = g.cubePosition := by
  unfold teleportPortal1 teleportPortal2 portal1State portal2State
  simp only []
  split_ifs <;> exact ⟨rfl, rfl, rfl, rfl, rfl, rfl⟩

/-- C21: take portal boxes whose extent on the normal axis is at most 0.02 in
absolute value, the normal axis being Z when `|cos(angle)| > 0.01` and X
otherwise, as the teleport checks classify it.  When the Portal-1 check
teleports the camera, the new camera position lies outside Portal 2's trigger
volume, so the Portal-2 check that follows in the same frame does not fire and
writes nothing; likewise the position written by the Portal-2 check lies outside
Portal 1's trigger volume.  The boxes written by the placement step and by the
anchoring update have an extent of at most 0.02 on X and on Z. -/
theorem teleport_at_most_one (cos : α → α) (M_PI : α) (g : Globals α)
    (h1z : |cos g.Portal1Bbox.angle| > 0.01 →
      |g.Portal1Bbox.bbox_max.z - g.Portal1Bbox.bbox_min.z| ≤ 0.02)
    (h1x : ¬ |cos g.Portal1Bbox.angle| > 0.01 →
      |g.Portal1Bbox.bbox_max.x - g.Portal1Bbox.bbox_min.x| ≤ 0.02)
    (h2z : |cos g.Portal2Bbox.angle| > 0.01 →
      |g.Portal2Bbox.bbox_max.z - g.Portal2Bbox.bbox_min.z| ≤ 0.02)
    (h2x : ¬ |cos g.Portal2Bbox.angle| > 0.01 →
      |g.Portal2Bbox.bbox_max.x - g.Portal2Bbox.bbox_min.x| ≤ 0.02) :
    (portal1Fires cos g = true →
      detectColision (teleportPortal1 cos M_PI g).camera_position_c
        (hitBoxPortal cos g.Portal2Bbox).1 (hitBoxPortal cos g.Portal2Bbox).2 = false ∧
      portal2Fires cos (teleportPortal1 cos M_PI g) = false ∧
      teleportPortal2 cos M_PI (teleportPortal1 cos M_PI g) = teleportPortal1 cos M_PI g) ∧
    (portal2Fires cos g = true →
      detectColision (teleportPortal2 cos M_PI g).camera_position_c
        (hitBoxPortal cos g.Portal1Bbox).1 (hitBoxPortal cos g.Portal1Bbox).2 = false) ∧
    (∀ (surfaceAngle : α) (surfaceMin point : Vec4 α),
      |(decalBox cos M_PI surfaceAngle surfaceMin point).bbox_max.x -
          (decalBox cos M_PI surfaceAngle surfaceMin point).bbox_min.x| ≤ 0.02 ∧
      |(decalBox cos M_PI surfaceAngle surfaceMin point).bbox_max.z -
          (decalBox cos M_PI surfaceAngle surfaceMin point).bbox_min.z| ≤ 0.02) ∧
    (∀ (cubePosition : Vec3 α) (P : bbox α),
      |(anchorBox cubePosition P).bbox_max.x - (anchorBox cubePosition P).bbox_min.x| ≤ 0.02 ∧
      |(anchorBox cubePosition P).bbox_max.z - (anchorBox cubePosition P).bbox_min.z| ≤ 0.02) := by
  have a1z := fun h => (abs_le.1 (h1z h)).2
  have a1x := fun h => (abs_le.1 (h1x h)).2
  have a2z := fun h => (abs_le.1 (h2z h)).2
  have a2x := fun h => (abs_le.1 (h2x h)).2
  refine ⟨?_, ?_, ?_, ?_⟩
  · intro h
    obtain ⟨_, hcx, hcz⟩ := teleportPortal1_of_fires cos M_PI g h
    have hout := exit_outside_trigger cos g.Portal2Bbox
      (teleportPortal1 cos M_PI g).camera_position_c (fun h => by linarith [a2z h])
      (fun h => by linarith [a2x h]) hcx hcz
    have hf : portal2Fires cos (teleportPortal1 cos M_PI g) = false := by
      unfold portal2Fires
      rw [(teleportPortal1_boxes cos M_PI g).2, hout]
      simp
    exact ⟨hout, hf, teleportPortal2_of_not_fires cos M_PI _ hf⟩
  · intro h
    obtain ⟨_, hcx, hcz⟩ := teleportPortal2_of_fires cos M_PI g h
    exact exit_outside_trigger cos g.Portal1Bbox
      (teleportPortal2 cos M_PI g).camera_position_c (fun h => by linarith [a1z h])
      (fun h => by linarith [a1x h]) hcx hcz
  · intro sa sm p
    unfold decalBox placementOffsets
    simp only []
    split_ifs <;> simp only [] <;> constructor <;> rw [abs_le] <;> constructor <;>
      (try ring_nf) <;> norm_num
  · intro cp P
    simp [anchorBox]
    norm_num

/-- Witness for C21: Portal 1 on the wall `z = 50`, Portal 2 on the wall
`x = 50`, the camera at `(1, 1, 49.5)` inside Portal 1's trigger volume: the
Portal-1 check fires and the Portal-2 check after it does not. -/
theorem teleport_at_most_one_witness :
    portal2Fires Real.cos (teleportPortal1 Real.cos Real.pi
      (portalsOnWalls 0 (Real.pi / 2) ⟨1, 1, 99 / 2, 1⟩)) = false ∧
    teleportPortal2 Real.cos Real.pi (teleportPortal1 Real.cos Real.pi
      (portalsOnWalls 0 (Real.pi / 2) ⟨1, 1, 99 / 2, 1⟩)) =
      teleportPortal1 Real.cos Real.pi (portalsOnWalls 0 (Real.pi / 2) ⟨1, 1, 99 / 2, 1⟩) :=
  ((teleport_at_most_one Real.cos Real.pi (portalsOnWalls 0 (Real.pi / 2) ⟨1, 1, 99 / 2, 1⟩)
    (fun _ => by rw [abs_le]; simp [portalsOnWalls]; norm_num)
    (fun _ => by rw [abs_le]; simp [portalsOnWalls]; norm_num)
    (fun _ => by rw [abs_le]; simp [portalsOnWalls]; norm_num)
    (fun _ => by rw [abs_le]; simp [portalsOnWalls]; norm_num)).1
    ((portal1Fires_eq_true_iff _ _).2 ⟨rfl, by
      rw [detectColision_eq_true_iff]
      simp [portalsOnWalls, hitBoxPortal, height]
      norm_num, rfl⟩)).2

end OneTeleport

section ColdStart

variable {α : Type} [LinearOrderedField α]

/-- The collision gate writes neither portal nor the prop position. -/
theorem collisionGate_portals (cl : List (bbox α)) (g : Globals α) :
    portal1State (collisionGate cl g) = portal1State g ∧
    portal2State (collisionGate cl g) = portal2State g ∧
    (collisionGate cl g).cubePosition = g.cubePosition := by
  have key : ∀ (l : List (bbox α)) (g : Globals α),
      portal1State (l.foldl collisionIteration g) = portal1State g ∧
      portal2State (l.foldl collisionIteration g) = portal2State g ∧
      (l.foldl collisionIteration g).cubePosition = g.cubePosition := by
    intro l
    induction l with
    | nil => intro g; exact ⟨rfl, rfl, rfl⟩
    | cons b t ih =>
      intro g
      rw [List.foldl_cons]
      obtain ⟨h1, h2, h3⟩ := ih (collisionIteration g b)
      rw [h1, h2, h3]
      unfold collisionIteration
      split_ifs <;> exact ⟨rfl, rfl, rfl⟩
  unfold collisionGate
  exact key cl _

/-- The anchoring update writes neither the created flags, the timers and the
angles of the portals nor the prop position. -/
theorem anchoringUpdate_flags (g : Globals α) :
    (anchoringUpdate g).Portal1Created = g.Portal1Created ∧
    (anchoringUpdate g).Portal2Created = g.Portal2Created ∧
    (anchoringUpdate g).lastPortal1Time = g.lastPortal1Time ∧
    (anchoringUpdate g).lastPortal2Time = g.lastPortal2Time ∧
    (anchoringUpdate g).Portal1Bbox.angle = g.Portal1Bbox.angle ∧
    (anchoringUpdate g).Portal2Bbox.angle = g.Portal2Bbox.angle ∧
    (anchoringUpdate g).cubePosition = g.cubePosition := by
  unfold anchoringUpdate
  simp only []
  split_ifs <;> exact ⟨rfl, rfl, rfl, rfl, rfl, rfl, rfl⟩

/-- The created flags, timers and angles of the portals at the end of a
free-camera frame are those the placement step left. -/
theorem frameFreeCamera_portals (cos : α → α) (atan2 : α → α → α) (M_PI time : α)
    (left right : Bool) (view : Vec4 α) (cl ws : List (bbox α)) (point moved : Vec4 α)
    (bezier_point : Vec3 α) (g : Globals α) :
    (frameFreeCamera cos atan2 M_PI time left right view cl ws point moved bezier_point
        g).Portal1Created =
      (placementStep cos atan2 M_PI time left right view ws point
        (collisionGate cl { g with camera_position_c := moved })).Portal1Created ∧
    (frameFreeCamera cos atan2 M_PI time left right view cl ws point moved bezier_point
        g).Portal2Created =
      (placementStep cos atan2 M_PI time left right view ws point
        (collisionGate cl { g with camera_position_c := moved })).Portal2Created ∧
    (frameFreeCamera cos atan2 M_PI time left right view cl ws point moved bezier_point
        g).lastPortal1Time =
      (placementStep cos atan2 M_PI time left right view ws point
        (collisionGate cl { g with camera_position_c := moved })).lastPortal1Time ∧
    (frameFreeCamera cos atan2 M_PI time left right view cl ws point moved bezier_point
        g).lastPortal2Time =
      (placementStep cos atan2 M_PI time left right view ws point
        (collisionGate cl { g with camera_position_c := moved })).lastPortal2Time ∧
    (frameFreeCamera cos atan2 M_PI time left right view cl ws point moved bezier_point
        g).Portal1Bbox.angle =
      (placementStep cos atan2 M_PI time left right view ws point
        (collisionGate cl { g with camera_position_c := moved })).Portal1Bbox.angle ∧
    (frameFreeCamera cos atan2 M_PI time left right view cl ws point moved bezier_point
        g).Portal2Bbox.angle =
      (placementStep cos atan2 M_PI time left right view ws point
        (collisionGate cl { g with camera_position_c := moved })).Portal2Bbox.angle := by
  obtain ⟨a1, a2, a3, a4, a5, a6, _⟩ := anchoringUpdate_flags (propFollower bezier_point
    (placementStep cos atan2 M_PI time left right view ws point
      (collisionGate cl { g with camera_position_c := moved })))
  have t1 := teleport_portals cos M_PI
    (frameBeforeTeleport cos atan2 M_PI time left right view cl ws point moved bezier_point g)
  have t2 := teleport_portals cos M_PI (teleportPortal1 cos M_PI
    (frameBeforeTeleport cos atan2 M_PI time left right view cl ws point moved bezier_point g))
  have s1 := t2.2.2.2.1.trans t1.1
  have s2 := t2.2.2.2.2.1.trans t1.2.1
  have e : ∀ G : Globals α, (if G.blockMove then { G with camera_position_c := g.camera_position_c }
      else G).Portal1Created = G.Portal1Created ∧
      (if G.blockMove then { G with camera_position_c := g.camera_position_c }
        else G).Portal2Created = G.Portal2Created ∧
      (if G.blockMove then { G with camera_position_c := g.camera_position_c }
        else G).lastPortal1Time = G.lastPortal1Time ∧
      (if G.blockMove then { G with camera_position_c := g.camera_position_c }
        else G).lastPortal2Time = G.lastPortal2Time ∧
      (if G.blockMove then { G with camera_position_c := g.camera_position_c }
        else G).Portal1Bbox.angle = G.Portal1Bbox.angle ∧
      (if G.blockMove then { G with camera_position_c := g.camera_position_c }
        else G).Portal2Bbox.angle = G.Portal2Bbox.angle := by
    intro G
    split_ifs <;> exact ⟨rfl, rfl, rfl, rfl, rfl, rfl⟩
  obtain ⟨e1, e2, e3, e4, e5, e6⟩ := e (teleportPortal2 cos M_PI (teleportPortal1 cos M_PI
    (frameBeforeTeleport cos atan2 M_PI time left right view cl ws point moved bezier_point g)))
  unfold frameFreeCamera
  simp only []
  rw [e1, e2, e3, e4, e5, e6]
  have c1 := congrArg (fun q : Bool × Bool × bbox α × α => q.1) s1
  have c2 := congrArg (fun q : Bool × Bool × bbox α × α => q.1) s2
  have c3 := congrArg (fun q : Bool × Bool × bbox α × α => q.2.2.2) s1
  have c4 := congrArg (fun q : Bool × Bool × bbox α × α => q.2.2.2) s2
  have c5 := congrArg (fun q : Bool × Bool × bbox α × α => q.2.2.1.angle) s1
  have c6 := congrArg (fun q : Bool × Bool × bbox α × α => q.2.2.1.angle) s2
  simp only [portal1State, portal2State] at c1 c2 c3 c4 c5 c6
  rw [c1, c2, c3, c4, c5, c6]
  unfold frameBeforeTeleport
  rw [a1, a2, a3, a4, a5, a6]
  exact ⟨rfl, rfl, rfl, rfl, rfl, rfl⟩

/-- While both timers hold 0, a placement step at a time of at most 0.5 writes
nothing to either portal. -/
theorem placementStep_cold (cos : α → α) (atan2 : α → α → α) (M_PI time : α)
    (left right : Bool) (view : Vec4 α) (ws : List (bbox α)) (point : Vec4 α) (g : Globals α)
    (ht : time ≤ 0.5) (h1 : g.lastPortal1Time = 0) (h2 : g.lastPortal2Time = 0) :
    portal1State (placementStep cos atan2 M_PI time left right view ws point g) =
      portal1State g ∧
    portal2State (placementStep cos atan2 M_PI time left right view ws point g) =
      portal2State g := by
  have hc1 : ¬ (time - g.lastPortal1Time > 0.5 ∧ left = true) := by
    rw [h1]
    intro h
    linarith [h.1]
  have hc2 : ¬ (time - g.lastPortal2Time > 0.5 ∧ right = true) := by
    rw [h2]
    intro h
    linarith [h.1]
  have hs := placementStep_portal1 cos atan2 M_PI time left right view ws point g
  rw [if_neg hc1] at hs
  exact ⟨hs, placementStep_portal2_blocked cos atan2 M_PI time left right view ws point g hc2⟩

/-- A free-camera frame at a time of at most 0.5 keeps both created flags and
both timers when the timers hold 0. -/
theorem frameFreeCamera_cold (cos : α → α) (atan2 : α → α → α) (M_PI time : α)
    (left right : Bool) (view : Vec4 α) (cl ws : List (bbox α)) (point moved : Vec4 α)
    (bezier_point : Vec3 α) (g : Globals α)
    (ht : time ≤ 0.5) (h1 : g.lastPortal1Time = 0) (h2 : g.lastPortal2Time = 0) :
    (frameFreeCamera cos atan2 M_PI time left right view cl ws point moved bezier_point
        g).Portal1Created = g.Portal1Created ∧
    (frameFreeCamera cos atan2 M_PI time left right view cl ws point moved bezier_point
        g).Portal2Created = g.Portal2Created ∧
    (frameFreeCamera cos atan2 M_PI time left right view cl ws point moved bezier_point
        g).lastPortal1Time = 0 ∧
    (frameFreeCamera cos atan2 M_PI time left right view cl ws point moved bezier_point
        g).lastPortal2Time = 0 := by
  obtain ⟨f1, f2, f3, f4, _, _⟩ := frameFreeCamera_portals cos atan2 M_PI time left right view
    cl ws point moved bezier_point g
  obtain ⟨g1, g2, _⟩ := collisionGate_portals cl { g with camera_position_c := moved }
  have k1 : (collisionGate cl { g with camera_position_c := moved }).lastPortal1Time = 0 :=
    (congrArg (fun q : Bool × Bool × bbox α × α => q.2.2.2) g1).trans h1
  have k2 : (collisionGate cl { g with camera_position_c := moved }).lastPortal2Time = 0 :=
    (congrArg (fun q : Bool × Bool × bbox α × α => q.2.2.2) g2).trans h2
  obtain ⟨p1, p2⟩ := placementStep_cold cos atan2 M_PI time left right view ws point
    (collisionGate cl { g with camera_position_c := moved }) ht k1 k2
  have q1 := p1.trans g1
  have q2 := p2.trans g2
  rw [f1, f2, f3, f4]
  exact ⟨congrArg (fun q : Bool × Bool × bbox α × α => q.1) q1,
    congrArg (fun q : Bool × Bool × bbox α × α => q.1) q2,
    (congrArg (fun q : Bool × Bool × bbox α × α => q.2.2.2) q1).trans h1,
    (congrArg (fun q : Bool × Bool × bbox α × α => q.2.2.2) q2).trans h2⟩

/-- A run of free-camera frames, all at times of at most 0.5, keeps both created
flags and both timers when the timers hold 0 at the start. -/
theorem runFrames_cold (cos : α → α) (atan2 : α → α → α) (M_PI : α) (cl ws : List (bbox α))
    (frames : List (α × Bool × Bool × Vec4 α × Vec4 α × Vec4 α × Vec3 α))
    (hf : ∀ f ∈ frames, f.1 ≤ 0.5) (g : Globals α)
    (h1 : g.lastPortal1Time = 0) (h2 : g.lastPortal2Time = 0) :
    (runFrames cos atan2 M_PI cl ws frames g).Portal1Created = g.Portal1Created ∧
    (runFrames cos atan2 M_PI cl ws frames g).Portal2Created = g.Portal2Created ∧
    (runFrames cos atan2 M_PI cl ws frames g).lastPortal1Time = 0 ∧
    (runFrames cos atan2 M_PI cl ws frames g).lastPortal2Time = 0 := by
  induction frames generalizing g with
  | nil => exact ⟨rfl, rfl, h1, h2⟩
  | cons f t ih =>
    obtain ⟨c1, c2, c3, c4⟩ := frameFreeCamera_cold cos atan2 M_PI f.1 f.2.1 f.2.2.1 f.2.2.2.1
      cl ws f.2.2.2.2.1 f.2.2.2.2.2.1 f.2.2.2.2.2.2 g (hf f (List.mem_cons_self f t)) h1 h2
    obtain ⟨i1, i2, i3, i4⟩ := ih (fun x hx => hf x (List.mem_cons_of_mem f hx)) _ c3 c4
    unfold runFrames at i1 i2 i3 i4 ⊢
    rw [List.foldl_cons]
    exact ⟨i1.trans c1, i2.trans c2, i3, i4⟩

/-- C27: both cooldown timers start at 0 and both portals start un-created.
While the timers hold 0, a placement step at a time `t <= 0.5` writes nothing
to either portal, whatever the buttons and the aim; and after any run of frames
from the initial state, all at times `<= 0.5`, both portals are still
un-created and both timers still hold 0. -/
theorem placement_cold_start (cos : α → α) (atan2 : α → α → α) (M_PI time : α)
    (left right : Bool) (view : Vec4 α) (cl ws : List (bbox α)) (point : Vec4 α) (g : Globals α)
    (frames : List (α × Bool × Bool × Vec4 α × Vec4 α × Vec4 α × Vec3 α))
    (ht : time ≤ 0.5) (h1 : g.lastPortal1Time = 0) (h2 : g.lastPortal2Time = 0)
    (hf : ∀ f ∈ frames, f.1 ≤ 0.5) :
    ((initialGlobals : Globals α).lastPortal1Time = 0 ∧
      (initialGlobals : Globals α).lastPortal2Time = 0 ∧
      (initialGlobals : Globals α).Portal1Created = false ∧
      (initialGlobals : Globals α).Portal2Created = false) ∧
    (portal1State (placementStep cos atan2 M_PI time left right view ws point g) =
        portal1State g ∧
      portal2State (placementStep cos atan2 M_PI time left right view ws point g) =
        portal2State g) ∧
    ((runFrames cos atan2 M_PI cl ws frames initialGlobals).Portal1Created = false ∧
      (runFrames cos atan2 M_PI cl ws frames initialGlobals).Portal2Created = false ∧
      (runFrames cos atan2 M_PI cl ws frames initialGlobals).lastPortal1Time = 0 ∧
      (runFrames cos atan2 M_PI cl ws frames initialGlobals).lastPortal2Time = 0) :=
  ⟨⟨rfl, rfl, rfl, rfl⟩,
    placementStep_cold cos atan2 M_PI time left right view ws point g ht h1 h2,
    runFrames_cold cos atan2 M_PI cl ws frames hf initialGlobals rfl rfl⟩

/-- Witness for C27: two frames at times 1/4 and 1/2 from the initial state,
both buttons held, the camera moved to `(3, 2, 0)` and aimed along `+z` at the
wall `z = 50`: no portal is created. -/
theorem placement_cold_start_witness :
    (runFrames Real.cos (fun y x => Complex.arg ⟨x, y⟩) Real.pi
        (collisionList (fun y x => Complex.arg ⟨x, y⟩))
        (portalList (fun y x => Complex.arg ⟨x, y⟩))
        [(1 / 4, true, true, ⟨0, 0, 1, 0⟩, ⟨0, 0, 0, 0⟩, ⟨3, 2, 0, 1⟩, ⟨0, 0, 0⟩),
          (1 / 2, true, true, ⟨0, 0, 1, 0⟩, ⟨0, 0, 0, 0⟩, ⟨3, 2, 0, 1⟩, ⟨0, 0, 0⟩)]
        initialGlobals).Portal1Created = false ∧
    (runFrames Real.cos (fun y x => Complex.arg ⟨x, y⟩) Real.pi
        (collisionList (fun y x => Complex.arg ⟨x, y⟩))
        (portalList (fun y x => Complex.arg ⟨x, y⟩))
        [(1 / 4, true, true, ⟨0, 0, 1, 0⟩, ⟨0, 0, 0, 0⟩, ⟨3, 2, 0, 1⟩, ⟨0, 0, 0⟩),
          (1 / 2, true, true, ⟨0, 0, 1, 0⟩, ⟨0, 0, 0, 0⟩, ⟨3, 2, 0, 1⟩, ⟨0, 0, 0⟩)]
        initialGlobals).Portal2Created = false :=
  have h := (placement_cold_start Real.cos (fun y x => Complex.arg ⟨x, y⟩) Real.pi (1 / 4)
    true true ⟨0, 0, 1, 0⟩ (collisionList (fun y x => Complex.arg ⟨x, y⟩))
    (portalList (fun y x => Complex.arg ⟨x, y⟩)) ⟨0, 0, 0, 0⟩ initialGlobals
    [(1 / 4, true, true, ⟨0, 0, 1, 0⟩, ⟨0, 0, 0, 0⟩, ⟨3, 2, 0, 1⟩, ⟨0, 0, 0⟩),
      (1 / 2, true, true, ⟨0, 0, 1, 0⟩, ⟨0, 0, 0, 0⟩, ⟨3, 2, 0, 1⟩, ⟨0, 0, 0⟩)]
    (by norm_num) rfl rfl
    (by
      intro f hf
      simp only [List.mem_cons, List.mem_singleton, List.not_mem_nil, or_false] at hf
      rcases hf with rfl | rfl <;> norm_num)).2.2
  ⟨h.1, h.2.1⟩

end ColdStart

section ConfiguredAngles

/-- The four angles in the form `0`, `π/2`, `π`, `3π/2`. -/
theorem quarter_turn_form (a : ℝ)
    (h : a = 0 ∨ a = Real.pi / 2 ∨ a = Real.pi ∨ a = Real.pi / 2 + Real.pi) :
    (a = 0 ∨ a = Real.pi / 2 ∨ a = Real.pi ∨ a = 3 * Real.pi / 2) := by
  rcases h with h | h | h | h
  · exact Or.inl h
  · exact Or.inr (Or.inl h)
  · exact Or.inr (Or.inr (Or.inl h))
  · exact Or.inr (Or.inr (Or.inr (by rw [h]; ring)))

/-- The angle assigned on each configured candidate surface, with the prop at
its depth `z = -25`. -/
theorem decalBox_angle_surfaces (cp : Vec3 ℝ) (p : Vec4 ℝ) (hz : cp.z = -25) :
    (decalBox Real.cos Real.pi (cubeIn cp).angle (cubeIn cp).bbox_min p).angle = Real.pi ∧
    (decalBox Real.cos Real.pi (wall2 (fun y x => Complex.arg ⟨x, y⟩)).angle (wall2 (fun y x => Complex.arg ⟨x, y⟩)).bbox_min p).angle =
      3 * Real.pi / 2 ∧
    (decalBox Real.cos Real.pi (wall3 (fun y x => Complex.arg ⟨x, y⟩)).angle (wall3 (fun y x => Complex.arg ⟨x, y⟩)).bbox_min p).angle = 0 ∧
    (decalBox Real.cos Real.pi (wall4 (fun y x => Complex.arg ⟨x, y⟩)).angle (wall4 (fun y x => Complex.arg ⟨x, y⟩)).bbox_min p).angle =
      Real.pi / 2 := by
  refine ⟨?_, ?_, ?_, ?_⟩
  · simp only [decalBox, placementOffsets_cube]
    rw [if_neg (by rw [hz]; norm_num)]
    exact zero_add _
  · simp only [decalBox, placementOffsets_wall2]
    ring
  · simp only [decalBox, placementOffsets_wall3]
  · simp only [decalBox, placementOffsets_wall4]

/-- The stored angle of a configured wall is the angle `boxAngle` recomputes. -/
theorem portalList_angle (w : bbox ℝ) (hw : w ∈ portalList (fun y x => Complex.arg ⟨x, y⟩)) :
    boxAngle (fun y x => Complex.arg ⟨x, y⟩) w.bbox_min w.bbox_max = w.angle := by
  simp only [portalList, List.mem_cons, List.mem_singleton, List.not_mem_nil, or_false] at hw
  rcases hw with rfl | rfl | rfl <;> rfl

/-- The placement step keeps the property that a created portal has one of the
four angles, for Portal 1. -/
theorem placementStep_angle_invariant1 (time : ℝ) (left right : Bool) (view point : Vec4 ℝ)
    (g : Globals ℝ)
    (hinv : g.Portal1Created = true → (g.Portal1Bbox.angle = 0 ∨ g.Portal1Bbox.angle = Real.pi / 2 ∨ g.Portal1Bbox.angle = Real.pi ∨ g.Portal1Bbox.angle = 3 * Real.pi / 2))
    (hcr : (placementStep Real.cos (fun y x => Complex.arg ⟨x, y⟩) Real.pi time left right view
        (portalList (fun y x => Complex.arg ⟨x, y⟩)) point g).Portal1Created = true) :
    ((placementStep Real.cos (fun y x => Complex.arg ⟨x, y⟩) Real.pi time left right view
        (portalList (fun y x => Complex.arg ⟨x, y⟩)) point g).Portal1Bbox.angle = 0 ∨ (placementStep Real.cos (fun y x => Complex.arg ⟨x, y⟩) Real.pi time left right view
        (portalList (fun y x => Complex.arg ⟨x, y⟩)) point g).Portal1Bbox.angle = Real.pi / 2 ∨ (placementStep Real.cos (fun y x => Complex.arg ⟨x, y⟩) Real.pi time left right view
        (portalList (fun y x => Complex.arg ⟨x, y⟩)) point g).Portal1Bbox.angle = Real.pi ∨ (placementStep Real.cos (fun y x => Complex.arg ⟨x, y⟩) Real.pi time left right view
        (portalList (fun y x => Complex.arg ⟨x, y⟩)) point g).Portal1Bbox.angle = 3 * Real.pi / 2) := by
  have hs := placementStep_portal1 Real.cos (fun y x => Complex.arg ⟨x, y⟩) Real.pi time left right view
    (portalList (fun y x => Complex.arg ⟨x, y⟩)) point g
  have keep : portal1State (placementStep Real.cos (fun y x => Complex.arg ⟨x, y⟩) Real.pi time left right view
        (portalList (fun y x => Complex.arg ⟨x, y⟩)) point g) = portal1State g →
      ((placementStep Real.cos (fun y x => Complex.arg ⟨x, y⟩) Real.pi time left right view
        (portalList (fun y x => Complex.arg ⟨x, y⟩)) point g).Portal1Bbox.angle = 0 ∨ (placementStep Real.cos (fun y x => Complex.arg ⟨x, y⟩) Real.pi time left right view
        (portalList (fun y x => Complex.arg ⟨x, y⟩)) point g).Portal1Bbox.angle = Real.pi / 2 ∨ (placementStep Real.cos (fun y x => Complex.arg ⟨x, y⟩) Real.pi time left right view
        (portalList (fun y x => Complex.arg ⟨x, y⟩)) point g).Portal1Bbox.angle = Real.pi ∨ (placementStep Real.cos (fun y x => Complex.arg ⟨x, y⟩) Real.pi time left right view
        (portalList (fun y x => Complex.arg ⟨x, y⟩)) point g).Portal1Bbox.angle = 3 * Real.pi / 2) := by
    intro hk
    have hc := congrArg (fun q : Bool × Bool × bbox ℝ × ℝ => q.1) hk
    have ha := congrArg (fun q : Bool × Bool × bbox ℝ × ℝ => q.2.2.1.angle) hk
    simp only [portal1State] at hc ha
    rw [ha]
    exact hinv (hc ▸ hcr)
  by_cases hc : time - g.lastPortal1Time > 0.5 ∧ left = true
  · rw [if_pos hc] at hs
    by_cases hh : (CheckLineBox (cubeIn g.cubePosition).bbox_min (cubeIn g.cubePosition).bbox_max
        g.camera_position_c view point).1 = true
    · rw [if_pos hh] at hs
      have ha := congrArg (fun q : Bool × Bool × bbox ℝ × ℝ => q.2.2.1.angle) hs
      simp only [portal1State] at ha
      rw [ha]
      exact quarter_turn_form _ (decalBox_angle_configured g.cubePosition (cubeIn g.cubePosition)
        (List.mem_cons_self _ _) _)
    · rw [if_neg hh] at hs
      cases hfh : firstHit g.camera_position_c view point (portalList (fun y x => Complex.arg ⟨x, y⟩)) with
      | none =>
        rw [hfh] at hs
        exact keep hs
      | some wp =>
        obtain ⟨w, p⟩ := wp
        rw [hfh] at hs
        have hm := ((firstHit_spec g.camera_position_c view point _).2 w p hfh).1
        have ha := congrArg (fun q : Bool × Bool × bbox ℝ × ℝ => q.2.2.1.angle) hs
        simp only [portal1State] at ha
        rw [ha]
        exact quarter_turn_form _ (decalBox_angle_configured g.cubePosition w
          (List.mem_cons_of_mem _ hm) p)
  · rw [if_neg hc] at hs
    exact keep hs

/-- The placement step keeps the property that a created portal has one of the
four angles, for Portal 2. -/
theorem placementStep_angle_invariant2 (time : ℝ) (left right : Bool) (view point : Vec4 ℝ)
    (g : Globals ℝ)
    (hinv : g.Portal2Created = true → (g.Portal2Bbox.angle = 0 ∨ g.Portal2Bbox.angle = Real.pi / 2 ∨ g.Portal2Bbox.angle = Real.pi ∨ g.Portal2Bbox.angle = 3 * Real.pi / 2))
    (hcr : (placementStep Real.cos (fun y x => Complex.arg ⟨x, y⟩) Real.pi time left right view
        (portalList (fun y x => Complex.arg ⟨x, y⟩)) point g).Portal2Created = true) :
    ((placementStep Real.cos (fun y x => Complex.arg ⟨x, y⟩) Real.pi time left right view
        (portalList (fun y x => Complex.arg ⟨x, y⟩)) point g).Portal2Bbox.angle = 0 ∨ (placementStep Real.cos (fun y x => Complex.arg ⟨x, y⟩) Real.pi time left right view
        (portalList (fun y x => Complex.arg ⟨x, y⟩)) point g).Portal2Bbox.angle = Real.pi / 2 ∨ (placementStep Real.cos (fun y x => Complex.arg ⟨x, y⟩) Real.pi time left right view
        (portalList (fun y x => Complex.arg ⟨x, y⟩)) point g).Portal2Bbox.angle = Real.pi ∨ (placementStep Real.cos (fun y x => Complex.arg ⟨x, y⟩) Real.pi time left right view
        (portalList (fun y x => Complex.arg ⟨x, y⟩)) point g).Portal2Bbox.angle = 3 * Real.pi / 2) := by
  have hs := placementStep_portal2 Real.cos (fun y x => Complex.arg ⟨x, y⟩) Real.pi time left right view
    (portalList (fun y x => Complex.arg ⟨x, y⟩)) point g
  have keep : portal2State (placementStep Real.cos (fun y x => Complex.arg ⟨x, y⟩) Real.pi time left right view
        (portalList (fun y x => Complex.arg ⟨x, y⟩)) point g) = portal2State g →
      ((placementStep Real.cos (fun y x => Complex.arg ⟨x, y⟩) Real.pi time left right view
        (portalList (fun y x => Complex.arg ⟨x, y⟩)) point g).Portal2Bbox.angle = 0 ∨ (placementStep Real.cos (fun y x => Complex.arg ⟨x, y⟩) Real.pi time left right view
        (portalList (fun y x => Complex.arg ⟨x, y⟩)) point g).Portal2Bbox.angle = Real.pi / 2 ∨ (placementStep Real.cos (fun y x => Complex.arg ⟨x, y⟩) Real.pi time left right view
        (portalList (fun y x => Complex.arg ⟨x, y⟩)) point g).Portal2Bbox.angle = Real.pi ∨ (placementStep Real.cos (fun y x => Complex.arg ⟨x, y⟩) Real.pi time left right view
        (portalList (fun y x => Complex.arg ⟨x, y⟩)) point g).Portal2Bbox.angle = 3 * Real.pi / 2) := by
    intro hk
    have hc := congrArg (fun q : Bool × Bool × bbox ℝ × ℝ => q.1) hk
    have ha := congrArg (fun q : Bool × Bool × bbox ℝ × ℝ => q.2.2.1.angle) hk
    simp only [portal2State] at hc ha
    rw [ha]
    exact hinv (hc ▸ hcr)
  by_cases hc : time - g.lastPortal2Time > 0.5 ∧ right = true
  · rw [if_pos hc] at hs
    by_cases hh : (CheckLineBox (cubeIn g.cubePosition).bbox_min (cubeIn g.cubePosition).bbox_max
        g.camera_position_c view point).1 = true
    · rw [if_pos hh] at hs
      have ha := congrArg (fun q : Bool × Bool × bbox ℝ × ℝ => q.2.2.1.angle) hs
      simp only [portal2State] at ha
      rw [ha]
      exact quarter_turn_form _ (decalBox_angle_configured g.cubePosition (cubeIn g.cubePosition)
        (List.mem_cons_self _ _) _)
    · rw [if_neg hh] at hs
      cases hfh : firstHit g.camera_position_c view point (portalList (fun y x => Complex.arg ⟨x, y⟩)) with
      | none =>
        rw [hfh] at hs
        exact keep hs
      | some wp =>
        obtain ⟨w, p⟩ := wp
        rw [hfh] at hs
        have hm := ((firstHit_spec g.camera_position_c view point _).2 w p hfh).1
        have ha := congrArg (fun q : Bool × Bool × bbox ℝ × ℝ => q.2.2.1.angle) hs
        simp only [portal2State] at ha
        rw [ha, portalList_angle w hm]
        exact quarter_turn_form _ (decalBox_angle_configured g.cubePosition w
          (List.mem_cons_of_mem _ hm) p)
  · rw [if_neg hc] at hs
    exact keep hs

/-- A free-camera frame keeps the property that every created portal has one of
the four angles. -/
theorem frameFreeCamera_angle_invariant (time : ℝ) (left right : Bool) (view : Vec4 ℝ)
    (cl : List (bbox ℝ)) (point moved : Vec4 ℝ) (bezier_point : Vec3 ℝ) (g : Globals ℝ)
    (hinv : ((g.Portal1Created = true → (g.Portal1Bbox.angle = 0 ∨ g.Portal1Bbox.angle = Real.pi / 2 ∨ g.Portal1Bbox.angle = Real.pi ∨ g.Portal1Bbox.angle = 3 * Real.pi / 2)) ∧
      (g.Portal2Created = true → (g.Portal2Bbox.angle = 0 ∨ g.Portal2Bbox.angle = Real.pi / 2 ∨ g.Portal2Bbox.angle = Real.pi ∨ g.Portal2Bbox.angle = 3 * Real.pi / 2)))) :
    (((frameFreeCamera Real.cos (fun y x => Complex.arg ⟨x, y⟩) Real.pi time left right view cl
        (portalList (fun y x => Complex.arg ⟨x, y⟩)) point moved bezier_point g).Portal1Created = true → ((frameFreeCamera Real.cos (fun y x => Complex.arg ⟨x, y⟩) Real.pi time left right view cl
        (portalList (fun y x => Complex.arg ⟨x, y⟩)) point moved bezier_point g).Portal1Bbox.angle = 0 ∨ (frameFreeCamera Real.cos (fun y x => Complex.arg ⟨x, y⟩) Real.pi time left right view cl
        (portalList (fun y x => Complex.arg ⟨x, y⟩)) point moved bezier_point g).Portal1Bbox.angle = Real.pi / 2 ∨ (frameFreeCamera Real.cos (fun y x => Complex.arg ⟨x, y⟩) Real.pi time left right view cl
        (portalList (fun y x => Complex.arg ⟨x, y⟩)) point moved bezier_point g).Portal1Bbox.angle = Real.pi ∨ (frameFreeCamera Real.cos (fun y x => Complex.arg ⟨x, y⟩) Real.pi time left right view cl
        (portalList (fun y x => Complex.arg ⟨x, y⟩)) point moved bezier_point g).Portal1Bbox.angle = 3 * Real.pi / 2)) ∧
      ((frameFreeCamera Real.cos (fun y x => Complex.arg ⟨x, y⟩) Real.pi time left right view cl
        (portalList (fun y x => Complex.arg ⟨x, y⟩)) point moved bezier_point g).Portal2Created = true → ((frameFreeCamera Real.cos (fun y x => Complex.arg ⟨x, y⟩) Real.pi time left right view cl
        (portalList (fun y x => Complex.arg ⟨x, y⟩)) point moved bezier_point g).Portal2Bbox.angle = 0 ∨ (frameFreeCamera Real.cos (fun y x => Complex.arg ⟨x, y⟩) Real.pi time left right view cl
        (portalList (fun y x => Complex.arg ⟨x, y⟩)) point moved bezier_point g).Portal2Bbox.angle = Real.pi / 2 ∨ (frameFreeCamera Real.cos (fun y x => Complex.arg ⟨x, y⟩) Real.pi time left right view cl
        (portalList (fun y x => Complex.arg ⟨x, y⟩)) point moved bezier_point g).Portal2Bbox.angle = Real.pi ∨ (frameFreeCamera Real.cos (fun y x => Complex.arg ⟨x, y⟩) Real.pi time left right view cl
        (portalList (fun y x => Complex.arg ⟨x, y⟩)) point moved bezier_point g).Portal2Bbox.angle = 3 * Real.pi / 2))) := by
  obtain ⟨f1, f2, _, _, f5, f6⟩ := frameFreeCamera_portals Real.cos (fun y x => Complex.arg ⟨x, y⟩) Real.pi time left
    right view cl (portalList (fun y x => Complex.arg ⟨x, y⟩)) point moved bezier_point g
  obtain ⟨g1, g2, _⟩ := collisionGate_portals cl { g with camera_position_c := moved }
  have k1 := congrArg (fun q : Bool × Bool × bbox ℝ × ℝ => q.1) g1
  have k2 := congrArg (fun q : Bool × Bool × bbox ℝ × ℝ => q.2.2.1.angle) g1
  have k3 := congrArg (fun q : Bool × Bool × bbox ℝ × ℝ => q.1) g2
  have k4 := congrArg (fun q : Bool × Bool × bbox ℝ × ℝ => q.2.2.1.angle) g2
  simp only [portal1State, portal2State] at k1 k2 k3 k4
  rw [f1, f2, f5, f6]
  constructor
  · intro hcr
    exact placementStep_angle_invariant1 time left right view point _
      (by rw [k1, k2]; exact hinv.1) hcr
  · intro hcr
    exact placementStep_angle_invariant2 time left right view point _
      (by rw [k3, k4]; exact hinv.2) hcr

/-- A run of free-camera frames keeps the property that every created portal has
one of the four angles. -/
theorem runFrames_angle_invariant (cl : List (bbox ℝ))
    (frames : List (ℝ × Bool × Bool × Vec4 ℝ × Vec4 ℝ × Vec4 ℝ × Vec3 ℝ)) (g : Globals ℝ)
    (hinv : ((g.Portal1Created = true → (g.Portal1Bbox.angle = 0 ∨ g.Portal1Bbox.angle = Real.pi / 2 ∨ g.Portal1Bbox.angle = Real.pi ∨ g.Portal1Bbox.angle = 3 * Real.pi / 2)) ∧
      (g.Portal2Created = true → (g.Portal2Bbox.angle = 0 ∨ g.Portal2Bbox.angle = Real.pi / 2 ∨ g.Portal2Bbox.angle = Real.pi ∨ g.Portal2Bbox.angle = 3 * Real.pi / 2)))) :
    (((runFrames Real.cos (fun y x => Complex.arg ⟨x, y⟩) Real.pi cl (portalList (fun y x => Complex.arg ⟨x, y⟩)) frames g).Portal1Created = true → ((runFrames Real.cos (fun y x => Complex.arg ⟨x, y⟩) Real.pi cl (portalList (fun y x => Complex.arg ⟨x, y⟩)) frames g).Portal1Bbox.angle = 0 ∨ (runFrames Real.cos (fun y x => Complex.arg ⟨x, y⟩) Real.pi cl (portalList (fun y x => Complex.arg ⟨x, y⟩)) frames g).Portal1Bbox.angle = Real.pi / 2 ∨ (runFrames Real.cos (fun y x => Complex.arg ⟨x, y⟩) Real.pi cl (portalList (fun y x => Complex.arg ⟨x, y⟩)) frames g).Portal1Bbox.angle = Real.pi ∨ (runFrames Real.cos (fun y x => Complex.arg ⟨x, y⟩) Real.pi cl (portalList (fun y x => Complex.arg ⟨x, y⟩)) frames g).Portal1Bbox.angle = 3 * Real.pi / 2)) ∧
      ((runFrames Real.cos (fun y x => Complex.arg ⟨x, y⟩) Real.pi cl (portalList (fun y x => Complex.arg ⟨x, y⟩)) frames g).Portal2Created = true → ((runFrames Real.cos (fun y x => Complex.arg ⟨x, y⟩) Real.pi cl (portalList (fun y x => Complex.arg ⟨x, y⟩)) frames g).Portal2Bbox.angle = 0 ∨ (runFrames Real.cos (fun y x => Complex.arg ⟨x, y⟩) Real.pi cl (portalList (fun y x => Complex.arg ⟨x, y⟩)) frames g).Portal2Bbox.angle = Real.pi / 2 ∨ (runFrames Real.cos (fun y x => Complex.arg ⟨x, y⟩) Real.pi cl (portalList (fun y x => Complex.arg ⟨x, y⟩)) frames g).Portal2Bbox.angle = Real.pi ∨ (runFrames Real.cos (fun y x => Complex.arg ⟨x, y⟩) Real.pi cl (portalList (fun y x => Complex.arg ⟨x, y⟩)) frames g).Portal2Bbox.angle = 3 * Real.pi / 2))) := by
  induction frames generalizing g with
  | nil => exact hinv
  | cons f t ih =>
    have h := ih _ (frameFreeCamera_angle_invariant f.1 f.2.1 f.2.2.1 f.2.2.2.1 cl f.2.2.2.2.1
      f.2.2.2.2.2.1 f.2.2.2.2.2.2 g hinv)
    unfold runFrames at h ⊢
    rw [List.foldl_cons]
    exact h

/-- From `(0, 5/2, -40)` looking along `+z` the first candidate hit is the prop
box, at `(0, 5/2, -24)`. -/
theorem firstHit_prop_example :
    firstHit (portalsOnWalls (0 : ℝ) (Real.pi / 2) ⟨0, 5 / 2, -40, 1⟩).camera_position_c
      ⟨0, 0, 1, 0⟩ ⟨0, 0, 0, 0⟩
      (cubeIn (portalsOnWalls (0 : ℝ) (Real.pi / 2) ⟨0, 5 / 2, -40, 1⟩).cubePosition ::
        portalList (fun y x => Complex.arg ⟨x, y⟩)) =
      some (cubeIn (portalsOnWalls (0 : ℝ) (Real.pi / 2) ⟨0, 5 / 2, -40, 1⟩).cubePosition,
        ⟨0, 5 / 2, -24, 1⟩) := by
  norm_num [firstHit, CheckLineBox, crossing, GetIntersection, InBox, Vec4.add, Vec4.smul, Vec4.sub,
    cubeIn, cubeWidth, height, portalsOnWalls]

/-- C26: with the configured surfaces and the prop at its depth `z = -25`, a
successful placement of Portal 1 or Portal 2 assigns the angle `pi` on the prop
box, `3*pi/2` on `wall2`, `0` on `wall3` and `pi/2` on `wall4`; the raw angle of
`wall3` is positive and below 0.1; the assigned angle is one of `0`, `pi/2`,
`pi`, `3*pi/2`; and after any run of frames from the initial state every created
portal has one of these four angles. -/
theorem placementStep_configured_angles (time : ℝ) (left right : Bool) (view point : Vec4 ℝ)
    (g : Globals ℝ) (c : bbox ℝ) (p : Vec4 ℝ) (cl : List (bbox ℝ))
    (frames : List (ℝ × Bool × Bool × Vec4 ℝ × Vec4 ℝ × Vec4 ℝ × Vec3 ℝ))
    (hz : g.cubePosition.z = -25)
    (hf : firstHit g.camera_position_c view point
      (cubeIn g.cubePosition :: portalList (fun y x => Complex.arg ⟨x, y⟩)) = some (c, p))
    (a : ℝ)
    (hB : (time - g.lastPortal1Time > 0.5 ∧ left = true ∧
        a = (placementStep Real.cos (fun y x => Complex.arg ⟨x, y⟩) Real.pi time left right view
        (portalList (fun y x => Complex.arg ⟨x, y⟩)) point g).Portal1Bbox.angle) ∨
      (time - g.lastPortal2Time > 0.5 ∧ right = true ∧
        a = (placementStep Real.cos (fun y x => Complex.arg ⟨x, y⟩) Real.pi time left right view
        (portalList (fun y x => Complex.arg ⟨x, y⟩)) point g).Portal2Bbox.angle)) :
    (c = cubeIn g.cubePosition → a = Real.pi) ∧
    (c = wall2 (fun y x => Complex.arg ⟨x, y⟩) → a = 3 * Real.pi / 2) ∧
    (c = wall3 (fun y x => Complex.arg ⟨x, y⟩) → a = 0) ∧
    (c = wall4 (fun y x => Complex.arg ⟨x, y⟩) → a = Real.pi / 2) ∧
    (0 < (wall3 (fun y x => Complex.arg ⟨x, y⟩)).angle ∧ (wall3 (fun y x => Complex.arg ⟨x, y⟩)).angle < 0.1) ∧
    (a = 0 ∨ a = Real.pi / 2 ∨ a = Real.pi ∨ a = 3 * Real.pi / 2) ∧
    (((runFrames Real.cos (fun y x => Complex.arg ⟨x, y⟩) Real.pi cl (portalList (fun y x => Complex.arg ⟨x, y⟩)) frames initialGlobals).Portal1Created = true → ((runFrames Real.cos (fun y x => Complex.arg ⟨x, y⟩) Real.pi cl (portalList (fun y x => Complex.arg ⟨x, y⟩)) frames initialGlobals).Portal1Bbox.angle = 0 ∨ (runFrames Real.cos (fun y x => Complex.arg ⟨x, y⟩) Real.pi cl (portalList (fun y x => Complex.arg ⟨x, y⟩)) frames initialGlobals).Portal1Bbox.angle = Real.pi / 2 ∨ (runFrames Real.cos (fun y x => Complex.arg ⟨x, y⟩) Real.pi cl (portalList (fun y x => Complex.arg ⟨x, y⟩)) frames initialGlobals).Portal1Bbox.angle = Real.pi ∨ (runFrames Real.cos (fun y x => Complex.arg ⟨x, y⟩) Real.pi cl (portalList (fun y x => Complex.arg ⟨x, y⟩)) frames initialGlobals).Portal1Bbox.angle = 3 * Real.pi / 2)) ∧
      ((runFrames Real.cos (fun y x => Complex.arg ⟨x, y⟩) Real.pi cl (portalList (fun y x => Complex.arg ⟨x, y⟩)) frames initialGlobals).Portal2Created = true → ((runFrames Real.cos (fun y x => Complex.arg ⟨x, y⟩) Real.pi cl (portalList (fun y x => Complex.arg ⟨x, y⟩)) frames initialGlobals).Portal2Bbox.angle = 0 ∨ (runFrames Real.cos (fun y x => Complex.arg ⟨x, y⟩) Real.pi cl (portalList (fun y x => Complex.arg ⟨x, y⟩)) frames initialGlobals).Portal2Bbox.angle = Real.pi / 2 ∨ (runFrames Real.cos (fun y x => Complex.arg ⟨x, y⟩) Real.pi cl (portalList (fun y x => Complex.arg ⟨x, y⟩)) frames initialGlobals).Portal2Bbox.angle = Real.pi ∨ (runFrames Real.cos (fun y x => Complex.arg ⟨x, y⟩) Real.pi cl (portalList (fun y x => Complex.arg ⟨x, y⟩)) frames initialGlobals).Portal2Bbox.angle = 3 * Real.pi / 2))) := by
  have hm := ((firstHit_spec g.camera_position_c view point _).2 c p hf).1
  have hE : a = (decalBox Real.cos Real.pi c.angle c.bbox_min p).angle := by
    rcases hB with ⟨h1, h2, rfl⟩ | ⟨h1, h2, rfl⟩
    · rw [(placementStep_portal1_first Real.cos (fun y x => Complex.arg ⟨x, y⟩) Real.pi time left right
        view _ point g ⟨h1, h2⟩ c p hf).1]
    · rw [(placementStep_portal2_first Real.cos (fun y x => Complex.arg ⟨x, y⟩) Real.pi time left right
        view _ point g ⟨h1, h2⟩ c p hf (fun w hw => (portalList_angle w hw).symm)).1]
  obtain ⟨s1, s2, s3, s4⟩ := decalBox_angle_surfaces g.cubePosition p hz
  refine ⟨?_, ?_, ?_, ?_, wall3_angle, ?_, ?_⟩
  · rintro rfl
    rw [hE, s1]
  · rintro rfl
    rw [hE, s2]
  · rintro rfl
    rw [hE, s3]
  · rintro rfl
    rw [hE, s4]
  · rw [hE]
    exact quarter_turn_form _ (decalBox_angle_configured g.cubePosition c hm p)
  · exact runFrames_angle_invariant cl frames initialGlobals
      ⟨fun h => absurd h (by simp [initialGlobals]), fun h => absurd h (by simp [initialGlobals])⟩

/-- Witness for C26: the frame in which the camera at `(0, 5/2, -40)` looks
along `+z` at the prop and the left button is held: Portal 1 gets the angle
`pi`. -/
theorem placementStep_configured_angles_witness :
    (placementStep Real.cos (fun y x => Complex.arg ⟨x, y⟩) Real.pi 3 true false
      ⟨0, 0, 1, 0⟩ (portalList (fun y x => Complex.arg ⟨x, y⟩)) ⟨0, 0, 0, 0⟩
      (portalsOnWalls (0 : ℝ) (Real.pi / 2) ⟨0, 5 / 2, -40, 1⟩)).Portal1Bbox.angle = Real.pi :=
  (placementStep_configured_angles 3 true false ⟨0, 0, 1, 0⟩ ⟨0, 0, 0, 0⟩
    (portalsOnWalls (0 : ℝ) (Real.pi / 2) ⟨0, 5 / 2, -40, 1⟩) _ _ [] [] rfl
    firstHit_prop_example _
    (Or.inl ⟨by norm_num [portalsOnWalls], rfl, rfl⟩)).1 rfl

end ConfiguredAngles

section PropCurve

variable {α : Type} [LinearOrderedField α]

/-- The six weights `Bernstein(i, 6, t)` that `bezierCurve` uses for six control
points. -/
theorem Bernstein_six (t : α) :
    Bernstein 0 6 t = (1 - t) ^ 6 ∧
    Bernstein 1 6 t = 6 * t * (1 - t) ^ 5 ∧
    Bernstein 2 6 t = 15 * t ^ 2 * (1 - t) ^ 4 ∧
    Bernstein 3 6 t = 20 * t ^ 3 * (1 - t) ^ 3 ∧
    Bernstein 4 6 t = 15 * t ^ 4 * (1 - t) ^ 2 ∧
    Bernstein 5 6 t = 6 * t ^ 5 * (1 - t) := by
  have c0 : Int.tdiv (factorial ((6 : ℕ) : ℤ))
      (wrapInt (factorial ((0 : ℕ) : ℤ) * factorial (((6 : ℕ) : ℤ) - ((0 : ℕ) : ℤ)))) = 1 := by
    decide
  have c1 : Int.tdiv (factorial ((6 : ℕ) : ℤ))
      (wrapInt (factorial ((1 : ℕ) : ℤ) * factorial (((6 : ℕ) : ℤ) - ((1 : ℕ) : ℤ)))) = 6 := by
    decide
  have c2 : Int.tdiv (factorial ((6 : ℕ) : ℤ))
      (wrapInt (factorial ((2 : ℕ) : ℤ) * factorial (((6 : ℕ) : ℤ) - ((2 : ℕ) : ℤ)))) = 15 := by
    decide
  have c3 : Int.tdiv (factorial ((6 : ℕ) : ℤ))
      (wrapInt (factorial ((3 : ℕ) : ℤ) * factorial (((6 : ℕ) : ℤ) - ((3 : ℕ) : ℤ)))) = 20 := by
    decide
  have c4 : Int.tdiv (factorial ((6 : ℕ) : ℤ))
      (wrapInt (factorial ((4 : ℕ) : ℤ) * factorial (((6 : ℕ) : ℤ) - ((4 : ℕ) : ℤ)))) = 15 := by
    decide
  have c5 : Int.tdiv (factorial ((6 : ℕ) : ℤ))
      (wrapInt (factorial ((5 : ℕ) : ℤ) * factorial (((6 : ℕ) : ℤ) - ((5 : ℕ) : ℤ)))) = 6 := by
    decide
  have e0 : ((6 : ℕ) : ℤ) - ((0 : ℕ) : ℤ) = ((6 : ℕ) : ℤ) := by norm_num
  have e1 : ((6 : ℕ) : ℤ) - ((1 : ℕ) : ℤ) = ((5 : ℕ) : ℤ) := by norm_num
  have e2 : ((6 : ℕ) : ℤ) - ((2 : ℕ) : ℤ) = ((4 : ℕ) : ℤ) := by norm_num
  have e3 : ((6 : ℕ) : ℤ) - ((3 : ℕ) : ℤ) = ((3 : ℕ) : ℤ) := by norm_num
  have e4 : ((6 : ℕ) : ℤ) - ((4 : ℕ) : ℤ) = ((2 : ℕ) : ℤ) := by norm_num
  have e5 : ((6 : ℕ) : ℤ) - ((5 : ℕ) : ℤ) = ((1 : ℕ) : ℤ) := by norm_num
  refine ⟨?_, ?_, ?_, ?_, ?_, ?_⟩
  · unfold Bernstein; rw [c0, e0, zpow_natCast]; simp
  · unfold Bernstein; rw [c1, e1, zpow_natCast]; simp
  · unfold Bernstein; rw [c2, e2, zpow_natCast]; simp
  · unfold Bernstein; rw [c3, e3, zpow_natCast]; simp
  · unfold Bernstein; rw [c4, e4, zpow_natCast]; simp
  · unfold Bernstein; rw [c5, e5, zpow_natCast]; simp

/-- The value of `bezierCurve` on the six configured control points, in terms of
the six weights. -/
theorem bezierCurve_configured (t : α) :
    bezierCurve bezierCurvePoints t =
      ⟨-(Bernstein 0 6 t + 0.8 * Bernstein 1 6 t + 0.6 * Bernstein 2 6 t +
          0.4 * Bernstein 3 6 t + 0.2 * Bernstein 4 6 t),
        0.5 * (Bernstein 1 6 t + Bernstein 3 6 t + Bernstein 5 6 t), 0⟩ := by
  simp [bezierCurve, bezierCurvePoints, List.range, List.range.loop, Vec3.add, Vec3.smul]
  refine ⟨?_, ?_, ?_⟩ <;> norm_num <;> ring

/-- For `t` in `[0, 1]` the six weights are non-negative and add up to
`1 - t^6`. -/
theorem Bernstein_six_weights (t : α) (h0 : 0 ≤ t) (h1 : t ≤ 1) :
    (0 ≤ Bernstein 0 6 t ∧ 0 ≤ Bernstein 1 6 t ∧ 0 ≤ Bernstein 2 6 t ∧
      0 ≤ Bernstein 3 6 t ∧ 0 ≤ Bernstein 4 6 t ∧ 0 ≤ Bernstein 5 6 t) ∧
    Bernstein 0 6 t + Bernstein 1 6 t + Bernstein 2 6 t + Bernstein 3 6 t + Bernstein 4 6 t +
      Bernstein 5 6 t = 1 - t ^ 6 := by
  obtain ⟨b0, b1, b2, b3, b4, b5⟩ := Bernstein_six t
  have hu : 0 ≤ 1 - t := by linarith
  refine ⟨⟨?_, ?_, ?_, ?_, ?_, ?_⟩, ?_⟩
  · rw [b0]
    exact pow_nonneg hu _
  · rw [b1]
    exact mul_nonneg (mul_nonneg (by norm_num) h0) (pow_nonneg hu _)
  · rw [b2]
    exact mul_nonneg (mul_nonneg (by norm_num) (pow_nonneg h0 _)) (pow_nonneg hu _)
  · rw [b3]
    exact mul_nonneg (mul_nonneg (by norm_num) (pow_nonneg h0 _)) (pow_nonneg hu _)
  · rw [b4]
    exact mul_nonneg (mul_nonneg (by norm_num) (pow_nonneg h0 _)) (pow_nonneg hu _)
  · rw [b5]
    exact mul_nonneg (mul_nonneg (by norm_num) (pow_nonneg h0 _)) hu
  · rw [b0, b1, b2, b3, b4, b5]
    ring

/-- For `t` in `[0, 1]` the curve point of the configured control points has `x`
in `[-1, 0]`, `y` in `[0, 0.5]` and `z = 0`. -/
theorem bezierCurve_configured_bounds (t : α) (h0 : 0 ≤ t) (h1 : t ≤ 1) :
    -1 ≤ (bezierCurve bezierCurvePoints t).x ∧ (bezierCurve bezierCurvePoints t).x ≤ 0 ∧
    0 ≤ (bezierCurve bezierCurvePoints t).y ∧ (bezierCurve bezierCurvePoints t).y ≤ 0.5 ∧
    (bezierCurve bezierCurvePoints t).z = 0 := by
  obtain ⟨⟨p0, p1, p2, p3, p4, p5⟩, hs⟩ := Bernstein_six_weights t h0 h1
  have ht : 0 ≤ t ^ 6 := pow_nonneg h0 _
  rw [bezierCurve_configured]
  refine ⟨?_, ?_, ?_, ?_, rfl⟩
  · norm_num
    linarith
  · norm_num
    linarith
  · norm_num
    linarith
  · norm_num
    linarith

/-- C29: for every curve parameter `t` in `[0, 1]` the six weights that
`bezierCurve` uses are non-negative and add up to `1 - t^6`, which is at most 1;
every configured control point has `z = 0`; and the prop position computed from
the curve point, in either direction of travel, has `x` in `[-50, 0]`, `y` in
`[2.5, 5.0]` and `z = -25`. -/
theorem propFollower_bounds (t : α) (isBackwards : Bool) (g : Globals α) (h0 : 0 ≤ t)
    (h1 : t ≤ 1) :
    ((0 ≤ Bernstein 0 6 t ∧ 0 ≤ Bernstein 1 6 t ∧ 0 ≤ Bernstein 2 6 t ∧
        0 ≤ Bernstein 3 6 t ∧ 0 ≤ Bernstein 4 6 t ∧ 0 ≤ Bernstein 5 6 t) ∧
      Bernstein 0 6 t + Bernstein 1 6 t + Bernstein 2 6 t + Bernstein 3 6 t +
        Bernstein 4 6 t + Bernstein 5 6 t = 1 - t ^ 6 ∧
      Bernstein 0 6 t + Bernstein 1 6 t + Bernstein 2 6 t + Bernstein 3 6 t +
        Bernstein 4 6 t + Bernstein 5 6 t ≤ 1) ∧
    (∀ P ∈ (bezierCurvePoints : List (Vec3 α)), P.z = 0) ∧
    (-50 ≤ (propFollower (bezierCurve bezierCurvePoints t) g).cubePosition.x ∧
      (propFollower (bezierCurve bezierCurvePoints t) g).cubePosition.x ≤ 0 ∧
      2.5 ≤ (propFollower (bezierCurve bezierCurvePoints t) g).cubePosition.y ∧
      (propFollower (bezierCurve bezierCurvePoints t) g).cubePosition.y ≤ 5.0 ∧
      (propFollower (bezierCurve bezierCurvePoints t) g).cubePosition.z = -25) ∧
    (-50 ≤ (propFollower (bezierPoint isBackwards t) g).cubePosition.x ∧
      (propFollower (bezierPoint isBackwards t) g).cubePosition.x ≤ 0 ∧
      2.5 ≤ (propFollower (bezierPoint isBackwards t) g).cubePosition.y ∧
      (propFollower (bezierPoint isBackwards t) g).cubePosition.y ≤ 5.0 ∧
      (propFollower (bezierPoint isBackwards t) g).cubePosition.z = -25) := by
  have key : ∀ s : α, 0 ≤ s → s ≤ 1 →
      (-50 ≤ (propFollower (bezierCurve bezierCurvePoints s) g).cubePosition.x ∧
      (propFollower (bezierCurve bezierCurvePoints s) g).cubePosition.x ≤ 0 ∧
      2.5 ≤ (propFollower (bezierCurve bezierCurvePoints s) g).cubePosition.y ∧
      (propFollower (bezierCurve bezierCurvePoints s) g).cubePosition.y ≤ 5.0 ∧
      (propFollower (bezierCurve bezierCurvePoints s) g).cubePosition.z = -25) := by
    intro s hs0 hs1
    obtain ⟨x0, x1, y0, y1, z0⟩ := bezierCurve_configured_bounds s hs0 hs1
    simp only [propFollower, cubePositionOrigin, width, height, z0]
    norm_num at y1 ⊢
    refine ⟨?_, ?_, ?_, ?_⟩ <;> linarith
  obtain ⟨hw, hs⟩ := Bernstein_six_weights t h0 h1
  refine ⟨⟨hw, hs, ?_⟩, ?_, key t h0 h1, ?_⟩
  · rw [hs]
    linarith [pow_nonneg h0 6]
  · intro P hP
    simp only [bezierCurvePoints, List.mem_cons, List.mem_singleton, List.not_mem_nil,
      or_false] at hP
    rcases hP with rfl | rfl | rfl | rfl | rfl | rfl <;> norm_num
  · unfold bezierPoint
    cases isBackwards
    · simpa using key t h0 h1
    · have h := key (1.0 - t) (by norm_num; linarith) (by norm_num; linarith)
      simpa using h

/-- Witness for C29: the parameter `t = 1/2` of a forward pass: the prop is at
`(-20.15625, 3.75, -25)`. -/
theorem propFollower_bounds_witness :
    -50 ≤ (propFollower (bezierPoint false (1 / 2 : ℚ)) initialGlobals).cubePosition.x ∧
    (propFollower (bezierPoint false (1 / 2 : ℚ)) initialGlobals).cubePosition.x ≤ 0 ∧
    2.5 ≤ (propFollower (bezierPoint false (1 / 2 : ℚ)) initialGlobals).cubePosition.y ∧
    (propFollower (bezierPoint false (1 / 2 : ℚ)) initialGlobals).cubePosition.y ≤ 5.0 ∧
    (propFollower (bezierPoint false (1 / 2 : ℚ)) initialGlobals).cubePosition.z = -25 :=
  (propFollower_bounds (1 / 2 : ℚ) false initialGlobals (by norm_num) (by norm_num)).2.2.2

/-- C23, the code against the claim: on the six configured control points
`bezierCurve` uses the weights `Bernstein(i, 6, t)` of degree 6, not the weights
of degree 5 of the Bezier curve.  At `t = 1`, which the frame loop reaches
through `1.0 - t_bezier` with `t_bezier = 0`, it returns the zero vector where
the Bezier curve is at the last control point `(0, 0.5, 0)`; at `t = 1/2` it
returns `x = -129/320` where the Bezier curve has `x = -1/2`, and the weights
add up to `63/64`; for every `t` the weights add up to `1 - t^6`; and for a
single control point `P` it returns `(1 - t) * P`.  At `t = 0` it returns the
first control point. -/
theorem bezierCurve_degree_off_by_one :
    bezierCurve (bezierCurvePoints : List (Vec3 ℚ)) 1 = ⟨0, 0, 0⟩ ∧
    bezierPoint true (0 : ℚ) = ⟨0, 0, 0⟩ ∧
    bezierReference (bezierCurvePoints : List (Vec3 ℚ)) 1 = ⟨0, 1 / 2, 0⟩ ∧
    (bezierCurvePoints : List (Vec3 ℚ)).getLast? = some ⟨0, 1 / 2, 0⟩ ∧
    bezierCurve (bezierCurvePoints : List (Vec3 ℚ)) (1 / 2) = ⟨-129 / 320, 1 / 4, 0⟩ ∧
    bezierReference (bezierCurvePoints : List (Vec3 ℚ)) (1 / 2) = ⟨-1 / 2, 1 / 4, 0⟩ ∧
    Bernstein 0 6 (1 / 2 : ℚ) + Bernstein 1 6 (1 / 2 : ℚ) + Bernstein 2 6 (1 / 2 : ℚ) +
      Bernstein 3 6 (1 / 2 : ℚ) + Bernstein 4 6 (1 / 2 : ℚ) + Bernstein 5 6 (1 / 2 : ℚ) =
      63 / 64 ∧
    (∀ t : ℚ, Bernstein 0 6 t + Bernstein 1 6 t + Bernstein 2 6 t + Bernstein 3 6 t +
      Bernstein 4 6 t + Bernstein 5 6 t = 1 - t ^ 6) ∧
    (∀ (P : Vec3 ℚ) (t : ℚ), bezierCurve [P] t = Vec3.smul (1 - t) P) ∧
    bezierCurve (bezierCurvePoints : List (Vec3 ℚ)) 0 = ⟨-1, 0, 0⟩ ∧
    bezierReference (bezierCurvePoints : List (Vec3 ℚ)) 0 = ⟨-1, 0, 0⟩ := by
  have hsum : ∀ t : ℚ, Bernstein 0 6 t + Bernstein 1 6 t + Bernstein 2 6 t + Bernstein 3 6 t +
      Bernstein 4 6 t + Bernstein 5 6 t = 1 - t ^ 6 := by
    intro t
    obtain ⟨b0, b1, b2, b3, b4, b5⟩ := Bernstein_six t
    rw [b0, b1, b2, b3, b4, b5]
    ring
  have hone : bezierCurve (bezierCurvePoints : List (Vec3 ℚ)) 1 = ⟨0, 0, 0⟩ := by
    obtain ⟨b0, b1, b2, b3, b4, b5⟩ := Bernstein_six (1 : ℚ)
    rw [bezierCurve_configured, b0, b1, b2, b3, b4, b5]
    norm_num
  have c1 : Int.tdiv (factorial 1) (wrapInt (factorial 0 * factorial 1)) = 1 := by decide
  refine ⟨hone, ?_, ?_, ?_, ?_, ?_, ?_, hsum, ?_, ?_, ?_⟩
  · unfold bezierPoint
    norm_num
    exact hone
  · simp [bezierReference, bezierCurvePoints, List.range, List.range.loop, Vec3.add, Vec3.smul,
      Nat.choose]
    norm_num
  · simp [bezierCurvePoints]
    norm_num
  · obtain ⟨b0, b1, b2, b3, b4, b5⟩ := Bernstein_six (1 / 2 : ℚ)
    rw [bezierCurve_configured, b0, b1, b2, b3, b4, b5]
    norm_num
  · simp [bezierReference, bezierCurvePoints, List.range, List.range.loop, Vec3.add, Vec3.smul,
      Nat.choose]
    norm_num
  · rw [hsum]
    norm_num
  · intro P t
    simp [bezierCurve, List.range, List.range.loop, Vec3.add, Vec3.smul, Bernstein, c1]
  · obtain ⟨b0, b1, b2, b3, b4, b5⟩ := Bernstein_six (0 : ℚ)
    rw [bezierCurve_configured, b0, b1, b2, b3, b4, b5]
    norm_num
  · simp [bezierReference, bezierCurvePoints, List.range, List.range.loop, Vec3.add, Vec3.smul,
      Nat.choose]
    norm_num

end PropCurve

section AbsClassification

/-- The cosine of the angle that `boxAngle` gives a box with `min.x ≤ max.x`,
after the snap to 0, is not negative. -/
theorem cos_boxAngle_nonneg (B1 B2 : Vec4 ℝ) (hx : B1.x ≤ B2.x) :
    0 ≤ Real.cos (if boxAngle (fun y x => Complex.arg ⟨x, y⟩) B1 B2 < 0.1 then 0 else boxAngle (fun y x => Complex.arg ⟨x, y⟩) B1 B2) := by
  split_ifs with h
  · rw [Real.cos_zero]
    norm_num
  · have hre : 0 ≤ (⟨B2.x - B1.x, B2.y - B1.y⟩ : ℂ).re := by
      show 0 ≤ B2.x - B1.x
      linarith
    have ha := abs_le.1 (Complex.abs_arg_le_pi_div_two_iff.2 hre)
    exact Real.cos_nonneg_of_neg_pi_div_two_le_of_le ha.1 ha.2

/-- The cosine of the snapped angle of every candidate surface of the placement
step (the prop box, `wall2`, `wall3`, `wall4`) is not negative. -/
theorem cos_candidate_nonneg (cp : Vec3 ℝ) (c : bbox ℝ)
    (hc : c ∈ cubeIn cp :: portalList (fun y x => Complex.arg ⟨x, y⟩)) :
    0 ≤ Real.cos (if c.angle < 0.1 then 0 else c.angle) := by
  simp only [portalList, List.mem_cons, List.mem_singleton, List.not_mem_nil, or_false] at hc
  rcases hc with rfl | rfl | rfl | rfl
  · have h : (cubeIn cp).angle < 0.1 := by
      simp only [cubeIn]
      norm_num
    rw [if_pos h, Real.cos_zero]
    norm_num
  · exact cos_boxAngle_nonneg _ _ (by simp only [width]; norm_num)
  · exact cos_boxAngle_nonneg _ _ (by simp only [width]; norm_num)
  · exact cos_boxAngle_nonneg _ _ (by simp only [width]; norm_num)

/-- With a cosine that is not negative the placement offsets follow the test
`|cos(angle)| > 0.01`. -/
theorem placementOffsets_abs (a : ℝ) (surfaceMin : Vec4 ℝ)
    (h0 : 0 ≤ Real.cos (if a < 0.1 then 0 else a)) :
    (|Real.cos (if a < 0.1 then 0 else a)| > 0.01 →
      (placementOffsets Real.cos Real.pi a surfaceMin).1 = 0 ∧
      |(placementOffsets Real.cos Real.pi a surfaceMin).2.1| = 0.01) ∧
    (¬ |Real.cos (if a < 0.1 then 0 else a)| > 0.01 →
      |(placementOffsets Real.cos Real.pi a surfaceMin).1| = 0.01 ∧
      (placementOffsets Real.cos Real.pi a surfaceMin).2.1 = 0) := by
  obtain ⟨k1, k2, k3⟩ := placementOffsets_classification Real.cos Real.pi a surfaceMin
  have e := k3 h0
  exact ⟨fun h => k1 (e.2 h), fun h => k2 (fun hc => h (e.1 hc))⟩

/-- C15: the placement step treats the hit surface as Z-facing (no offset along
X, 0.01 along Z) exactly when `|cos(angle)| > 0.01`, and as X-facing (0.01 along
X, none along Z) otherwise, where `angle` is the surface angle after the snap to
0.  This holds for the surface `c` that the placement hit among the candidates
(the prop box, `wall2`, `wall3`, `wall4`), with `B` the decal box placed at the
hit point `p`; for the prop's angle 0; and for every angle that `boxAngle` gives
a box with `min.x ≤ max.x`. -/
theorem placementStep_abs_classification (time : ℝ) (left right : Bool) (view point : Vec4 ℝ)
    (g : Globals ℝ) (c : bbox ℝ) (p : Vec4 ℝ)
    (hf : firstHit g.camera_position_c view point
      (cubeIn g.cubePosition :: portalList (fun y x => Complex.arg ⟨x, y⟩)) = some (c, p))
    (B : bbox ℝ)
    (hB : (time - g.lastPortal1Time > 0.5 ∧ left = true ∧
        B = (placementStep Real.cos (fun y x => Complex.arg ⟨x, y⟩) Real.pi time left right view
          (portalList (fun y x => Complex.arg ⟨x, y⟩)) point g).Portal1Bbox) ∨
      (time - g.lastPortal2Time > 0.5 ∧ right = true ∧
        B = (placementStep Real.cos (fun y x => Complex.arg ⟨x, y⟩) Real.pi time left right view
          (portalList (fun y x => Complex.arg ⟨x, y⟩)) point g).Portal2Bbox)) :
    (|Real.cos (if c.angle < 0.1 then 0 else c.angle)| > 0.01 →
      (placementOffsets Real.cos Real.pi c.angle c.bbox_min).1 = 0 ∧
      |(placementOffsets Real.cos Real.pi c.angle c.bbox_min).2.1| = 0.01 ∧
      B.bbox_min.x = p.x ∧ B.bbox_max.x = p.x ∧
      |B.bbox_min.z - p.z| = 0.01 ∧ |B.bbox_max.z - p.z| = 0.01) ∧
    (¬ |Real.cos (if c.angle < 0.1 then 0 else c.angle)| > 0.01 →
      |(placementOffsets Real.cos Real.pi c.angle c.bbox_min).1| = 0.01 ∧
      (placementOffsets Real.cos Real.pi c.angle c.bbox_min).2.1 = 0 ∧
      B.bbox_min.z = p.z ∧ B.bbox_max.z = p.z ∧
      |B.bbox_min.x - p.x| = 0.01 ∧ |B.bbox_max.x - p.x| = 0.01) ∧
    (∀ surfaceMin : Vec4 ℝ,
      (|Real.cos (if (0 : ℝ) < 0.1 then 0 else (0 : ℝ))| > 0.01 →
        (placementOffsets Real.cos Real.pi (0 : ℝ) surfaceMin).1 = 0 ∧
        |(placementOffsets Real.cos Real.pi (0 : ℝ) surfaceMin).2.1| = 0.01) ∧
      (¬ |Real.cos (if (0 : ℝ) < 0.1 then 0 else (0 : ℝ))| > 0.01 →
        |(placementOffsets Real.cos Real.pi (0 : ℝ) surfaceMin).1| = 0.01 ∧
        (placementOffsets Real.cos Real.pi (0 : ℝ) surfaceMin).2.1 = 0)) ∧
    (∀ B1 B2 surfaceMin : Vec4 ℝ, B1.x ≤ B2.x →
      (|Real.cos (if (boxAngle (fun y x => Complex.arg ⟨x, y⟩) B1 B2) < 0.1 then 0 else (boxAngle (fun y x => Complex.arg ⟨x, y⟩) B1 B2))| > 0.01 →
        (placementOffsets Real.cos Real.pi (boxAngle (fun y x => Complex.arg ⟨x, y⟩) B1 B2) surfaceMin).1 = 0 ∧
        |(placementOffsets Real.cos Real.pi (boxAngle (fun y x => Complex.arg ⟨x, y⟩) B1 B2) surfaceMin).2.1| = 0.01) ∧
      (¬ |Real.cos (if (boxAngle (fun y x => Complex.arg ⟨x, y⟩) B1 B2) < 0.1 then 0 else (boxAngle (fun y x => Complex.arg ⟨x, y⟩) B1 B2))| > 0.01 →
        |(placementOffsets Real.cos Real.pi (boxAngle (fun y x => Complex.arg ⟨x, y⟩) B1 B2) surfaceMin).1| = 0.01 ∧
        (placementOffsets Real.cos Real.pi (boxAngle (fun y x => Complex.arg ⟨x, y⟩) B1 B2) surfaceMin).2.1 = 0)) := by
  have hm := ((firstHit_spec g.camera_position_c view point _).2 c p hf).1
  have h0 := cos_candidate_nonneg g.cubePosition c hm
  have hE : B = decalBox Real.cos Real.pi c.angle c.bbox_min p := by
    rcases hB with ⟨h1, h2, rfl⟩ | ⟨h1, h2, rfl⟩
    · exact (placementStep_portal1_first Real.cos (fun y x => Complex.arg ⟨x, y⟩) Real.pi time left right
        view _ point g ⟨h1, h2⟩ c p hf).1
    · exact (placementStep_portal2_first Real.cos (fun y x => Complex.arg ⟨x, y⟩) Real.pi time left right
        view _ point g ⟨h1, h2⟩ c p hf (fun w hw => (portalList_angle w hw).symm)).1
  obtain ⟨o1, o2⟩ := placementOffsets_abs c.angle c.bbox_min h0
  obtain ⟨_, _, d1, d2⟩ := decalBox_corners Real.cos Real.pi c.angle c.bbox_min p
  have e := (placementOffsets_classification Real.cos Real.pi c.angle c.bbox_min).2.2 h0
  have hp : |(0.01 : ℝ)| = 0.01 := abs_of_pos (by norm_num)
  have hn : |-(0.01 : ℝ)| = 0.01 := by rw [abs_neg, hp]
  refine ⟨?_, ?_, ?_, ?_⟩
  · intro h
    obtain ⟨x1, x2, hz⟩ := d1 (e.2 h)
    rw [hE]
    refine ⟨(o1 h).1, (o1 h).2, x1, x2, ?_, ?_⟩
    · rcases hz with ⟨z1, _⟩ | ⟨z1, _⟩
      · rw [z1, add_sub_cancel_left, hp]
      · rw [z1, sub_sub_cancel_left, hn]
    · rcases hz with ⟨_, z2⟩ | ⟨_, z2⟩
      · rw [z2, sub_sub_cancel_left, hn]
      · rw [z2, add_sub_cancel_left, hp]
  · intro h
    obtain ⟨z1, z2, hx⟩ := d2 (fun hc => h (e.1 hc))
    rw [hE]
    refine ⟨(o2 h).1, (o2 h).2, z1, z2, ?_, ?_⟩
    · rcases hx with ⟨x1, _⟩ | ⟨x1, _⟩
      · rw [x1, add_sub_cancel_left, hp]
      · rw [x1, sub_sub_cancel_left, hn]
    · rcases hx with ⟨_, x2⟩ | ⟨_, x2⟩
      · rw [x2, sub_sub_cancel_left, hn]
      · rw [x2, add_sub_cancel_left, hp]
  · intro surfaceMin
    exact placementOffsets_abs 0 surfaceMin (by norm_num [Real.cos_zero])
  · intro B1 B2 surfaceMin hx
    exact placementOffsets_abs _ surfaceMin (cos_boxAngle_nonneg B1 B2 hx)

/-- Witness for C15: the frame in which the camera at `(0, 5/2, -40)` looks along
`+z` at the prop and the left button is held: the prop's angle 0 has
`|cos| = 1 > 0.01`, and the decal of Portal 1 is offset by 0.01 along Z from the
hit point `(0, 5/2, -24)` and by nothing along X. -/
theorem placementStep_abs_classification_witness :
    (placementStep Real.cos (fun y x => Complex.arg ⟨x, y⟩) Real.pi 3 true false
      ⟨0, 0, 1, 0⟩ (portalList (fun y x => Complex.arg ⟨x, y⟩)) ⟨0, 0, 0, 0⟩
      (portalsOnWalls (0 : ℝ) (Real.pi / 2) ⟨0, 5 / 2, -40, 1⟩)).Portal1Bbox.bbox_min.x = 0 ∧
    |(placementStep Real.cos (fun y x => Complex.arg ⟨x, y⟩) Real.pi 3 true false
      ⟨0, 0, 1, 0⟩ (portalList (fun y x => Complex.arg ⟨x, y⟩)) ⟨0, 0, 0, 0⟩
      (portalsOnWalls (0 : ℝ) (Real.pi / 2) ⟨0, 5 / 2, -40, 1⟩)).Portal1Bbox.bbox_min.z - -24| = 0.01 :=
  have h := (placementStep_abs_classification 3 true false ⟨0, 0, 1, 0⟩ ⟨0, 0, 0, 0⟩
    (portalsOnWalls (0 : ℝ) (Real.pi / 2) ⟨0, 5 / 2, -40, 1⟩) _ _ firstHit_prop_example _
    (Or.inl ⟨by norm_num [portalsOnWalls], rfl, rfl⟩)).1
    (by norm_num [cubeIn, Real.cos_zero])
  ⟨h.2.2.1, h.2.2.2.2.1⟩

end AbsClassification

end Portal
